import Mathlib

/-!
# SceneManager: the 3D climate scene of `climate-storytelling`

A shallow embedding of `src/climate-storytelling/src/components/3d/SceneManager.jsx`, of the
data services `dataProcessor.js` and `nasaApi.js` it is fed by, and of the request validation
of `src/backend/middleware/validation.js`.

Conventions of the embedding:

* JavaScript numbers are modelled by exact rationals `ℚ`, and the methods compute in exact
  arithmetic. Where a property depends on the rounding of IEEE doubles or of `Float32Array`
  storage (the camera step of `updateStoryProgress`, the heights of the precipitation
  particles), the code concerned has a second definition, named `...With`, that takes the
  rounding as a parameter `Rounding`: `Rounding.exact` gives back the exact definition,
  `Rounding.ieee` rounds every operation to binary64 (`binary64`) and every store into a
  `Float32Array` to binary32 (`binary32`).
* A method call either completes normally or throws: methods return `Except String SceneManager`.
* Object identity (`new THREE.Mesh`, `Function.prototype.bind`, frame handles) is modelled by
  allocation counters (`nextObj`, `nextFn`, `nextFrame`), every allocation taking the next number.
* The values the code obtains from outside (`Math.random`, `Math.sin`, `Math.cos`, `Math.PI`,
  `OrbitControls.update`) are the fields of an `Env` passed to the methods that use them.
* Calls whose only effect is outside the JavaScript heap (`renderer.render`, `dispose` of GPU
  resources, the frame scheduler) are recorded in `Host.log`, oldest first.

The definitions come first: the three.js values, the methods of the class in source order,
the events of the host (frame callbacks, resize events), the two `transformFor3D` functions of
`dataProcessor.js` and `storyController.js`, then the observations and relations the
statements use and a concrete run, the rounding (`roundFloat`) with the rounded definitions
and the frame-loop invariant; after them the data services (`getSeverity`,
`generateCallToAction`, `generateTimeProgression`, `generateMockData`, `formatClimateData`,
`getMockDataForLocation`) and the middleware `validateStoryRequest`. In these, a value that
is `undefined` or `NaN` in JavaScript is `none`. The theorems follow: lemmas on each method,
the class invariant `Invariant` (established by the constructor and kept by every method), and
the numbered claims `C1` to `C30` with their concrete instances.
-/

namespace SceneManagerModel

/-! ## three.js value types -/

/-- The `THREE.Color` value: three channels. -/
structure Color where
  r : ℚ
  g : ℚ
  b : ℚ
deriving DecidableEq

/-- The constructor `new THREE.Color(hex)`: `r = (hex >> 16 & 255) / 255`, and so on; a
conversion between colour spaces is not modelled. -/
def Color.ofHex (hex : Nat) : Color :=
  { r := ((hex / 65536 % 256 : Nat) : ℚ) / 255
    g := ((hex / 256 % 256 : Nat) : ℚ) / 255
    b := ((hex % 256 : Nat) : ℚ) / 255 }

/-- The method `Color.lerp(color, alpha)`: `this.r += (color.r - this.r) * alpha`, per channel. -/
def Color.lerp (c color : Color) (alpha : ℚ) : Color :=
  { r := c.r + (color.r - c.r) * alpha
    g := c.g + (color.g - c.g) * alpha
    b := c.b + (color.b - c.b) * alpha }

/-- The `THREE.Vector3` value. -/
structure Vector3 where
  x : ℚ
  y : ℚ
  z : ℚ
deriving DecidableEq

/-- The method `Vector3.lerp(v, alpha)`: `this.x += (v.x - this.x) * alpha`, per component,
in exact arithmetic; `Vector3.lerpWith` has the rounding of each operation. -/
def Vector3.lerp (p v : Vector3) (alpha : ℚ) : Vector3 :=
  { x := p.x + (v.x - p.x) * alpha
    y := p.y + (v.y - p.y) * alpha
    z := p.z + (v.z - p.z) * alpha }

/-- The method `Vector3.distanceToSquared(v)`. -/
def Vector3.distanceToSquared (p v : Vector3) : ℚ :=
  (p.x - v.x) * (p.x - v.x) + (p.y - v.y) * (p.y - v.y) + (p.z - v.z) * (p.z - v.z)

/-! ## Scene objects -/

/-- The geometries the class allocates. -/
inductive Geometry where
  /-- The `THREE.SphereGeometry(radius, widthSegments, heightSegments)`. -/
  | sphere (radius : ℚ) (widthSegments heightSegments : Nat)
  /-- The `THREE.RingGeometry(innerRadius, outerRadius, thetaSegments)`. -/
  | ring (innerRadius outerRadius : ℚ) (thetaSegments : Nat)
  /-- The `THREE.BufferGeometry` with a `position` attribute of item size 3 over `array`. -/
  | buffer (array : List ℚ) (needsUpdate : Bool)
deriving DecidableEq

/-- Which three.js material class a material is. -/
inductive MaterialKind where
  | meshPhong (shininess : ℚ)
  | points (size : ℚ)
  | meshBasic (doubleSide wireframe : Bool)
deriving DecidableEq

/-- A three.js material. -/
structure Material where
  kind : MaterialKind
  color : Color
  transparent : Bool
  opacity : ℚ
  disposed : Bool
deriving DecidableEq

/-- The closure stored in `userData.animate`, with the variables it captures. -/
inductive AnimateFn where
  /-- The closure made by `animatePrecipitation`; it captures the particle object itself. -/
  | precipitation
  /-- The closure made by `animateWaterLevel`: captures the mutable `time` and `intensity`. -/
  | waterLevel (time intensity : ℚ)
deriving DecidableEq

/-- A `THREE.Mesh` or `THREE.Points`; `id` is its identity. -/
structure Object3D where
  id : Nat
  isPoints : Bool
  geometry : Geometry
  geometryDisposed : Bool
  material : Material
  scale : Vector3
  rotationX : ℚ
  castShadow : Bool
  receiveShadow : Bool
  userDataAnimate : Option AnimateFn
deriving DecidableEq

/-- The `THREE.Scene`: background, fog and the identities of its children, in insertion order.
An object has this scene as its `parent` exactly when its identity is in `children`. -/
structure Scene where
  background : Nat
  fog : Nat × ℚ × ℚ
  children : List Nat
deriving DecidableEq

/-- The method `Object3D.add(object)`: detaches `object` from its parent, then appends it. -/
def Scene.add (sc : Scene) (obj : Nat) : Scene :=
  { sc with children := sc.children.erase obj ++ [obj] }

/-- The method `Object3D.remove(object)`: `indexOf` then `splice` of one entry. -/
def Scene.remove (sc : Scene) (obj : Nat) : Scene :=
  { sc with children := sc.children.erase obj }

/-- The `THREE.PerspectiveCamera`. -/
structure Camera where
  fov : ℚ
  aspect : ℚ
  near : ℚ
  far : ℚ
  position : Vector3
  lookAt : Option Vector3
deriving DecidableEq

/-- The `THREE.WebGLRenderer`: `frame` counts the frames it has rendered
(`info.render.frame`), `domElementAttached` says whether `domElement.parentNode` is set. -/
structure Renderer where
  width : ℚ
  height : ℚ
  pixelRatio : ℚ
  shadowMapEnabled : Bool
  domElementAttached : Bool
  disposed : Bool
  frame : Nat
deriving DecidableEq

/-- The configuration of the `OrbitControls`. -/
structure OrbitControls where
  enableDamping : Bool
  dampingFactor : ℚ
  minDistance : ℚ
  maxDistance : ℚ
  autoRotate : Bool
  autoRotateSpeed : ℚ
deriving DecidableEq

/-- The DOM element handed to the constructor. -/
structure Container where
  clientWidth : ℚ
  clientHeight : ℚ
deriving DecidableEq

/-! ## The host (browser) -/

/-- A call that leaves the JavaScript heap or enters a stored closure. -/
inductive Call where
  | requestAnimationFrame (handle : Nat)
  | cancelAnimationFrame (handle : Nat)
  | controlsUpdate
  | userDataAnimate (obj : Nat)
  | render
  | rendererDispose
  | geometryDispose (obj : Nat)
  | materialDispose (obj : Nat)
deriving DecidableEq

/-- The browser state the class reads and writes. -/
structure Host where
  innerWidth : ℚ
  innerHeight : ℚ
  devicePixelRatio : ℚ
  /-- Functions registered with `window.addEventListener('resize', f)`. -/
  resizeListeners : List Nat
  /-- Callbacks of the `ResizeObserver`s observing the container. -/
  resizeObservers : List Nat
  /-- The next function identity `bind` returns. -/
  nextFn : Nat
  /-- Handles of the frame callbacks requested and neither run nor cancelled. -/
  pendingFrames : List Nat
  /-- The next handle `requestAnimationFrame` returns. -/
  nextFrame : Nat
  /-- How many times `Math.random` has been called. -/
  randomCalls : Nat
  log : List Call
deriving DecidableEq

/-- What the code obtains from `Math` and from `OrbitControls.update`. -/
structure Env where
  /-- The value of the `k`-th call of `Math.random` (counting from zero). -/
  random : Nat → ℚ
  sin : ℚ → ℚ
  cos : ℚ → ℚ
  PI : ℚ
  /-- What `controls.update()` does to the camera it drives. -/
  orbitUpdate : OrbitControls → Camera → Camera

/-- The fields of a `SceneManager` instance, the allocation counter for scene objects and the
host it runs in. The fields `particles` (always `null`) and `clock` (only read for a value that
is never used) carry no state here. -/
structure SceneManager where
  container : Option Container
  scene : Option Scene
  camera : Option Camera
  renderer : Option Renderer
  controls : Option OrbitControls
  animationId : Option Nat
  globe : Option Object3D
  effects : List Object3D
  isAnimating : Bool
  nextObj : Nat
  host : Host
deriving DecidableEq

/-- The `climateData` argument of `updateGlobeVisuals`. -/
structure ClimateData where
  temperatureIntensity : ℚ
  precipitationIntensity : ℚ
  seaLevelIntensity : ℚ
deriving DecidableEq

/-- Record one call in the host log. -/
def SceneManager.call (s : SceneManager) (c : Call) : SceneManager :=
  { s with host := { s.host with log := s.host.log ++ [c] } }

/-- The statement `this.scene.add(obj)`: a `TypeError` when `this.scene` is `null`. -/
def SceneManager.sceneAdd (s : SceneManager) (obj : Nat) : Except String SceneManager :=
  match s.scene with
  | none => .error "TypeError: this.scene is null"
  | some sc => .ok { s with scene := some (sc.add obj) }

/-! ## Construction -/

/-- The method `createScene`. -/
def createScene (s : SceneManager) : Except String SceneManager :=
  .ok { s with scene := some { background := 0x0a0a1a, fog := (0x0a0a1a, 15, 30), children := [] } }

/-- The method `createCamera`; reading `this.container.clientWidth` of a `null` container is a
`TypeError`. The quotient `clientWidth / clientHeight` is the rational one. -/
def createCamera (s : SceneManager) : Except String SceneManager :=
  match s.container with
  | none => .error "TypeError: this.container is null"
  | some c =>
    let camera : Camera :=
      { fov := 60, aspect := c.clientWidth / c.clientHeight, near := 0.1, far := 1000
        position := ⟨0, 0, 25⟩, lookAt := none }
    .ok { s with camera := some camera }

/-- The method `createRenderer`: sizes the renderer to the container and appends its canvas. -/
def createRenderer (s : SceneManager) : Except String SceneManager :=
  match s.container with
  | none => .error "TypeError: this.container is null"
  | some c =>
    let renderer : Renderer :=
      { width := c.clientWidth, height := c.clientHeight
        pixelRatio := min s.host.devicePixelRatio 2
        shadowMapEnabled := true, domElementAttached := true, disposed := false, frame := 0 }
    .ok { s with renderer := some renderer }

/-- The method `createControls`; `this.renderer.domElement` of a `null` renderer is a
`TypeError`. -/
def createControls (s : SceneManager) : Except String SceneManager :=
  match s.renderer with
  | none => .error "TypeError: this.renderer is null"
  | some _ =>
    let controls : OrbitControls :=
      { enableDamping := true, dampingFactor := 0.05, minDistance := 15, maxDistance := 50
        autoRotate := true, autoRotateSpeed := 0.5 }
    .ok { s with controls := some controls }

/-- The method `addLighting`: three lights, each a new object added to the scene. -/
def addLighting (s : SceneManager) : Except String SceneManager := do
  let s1 ← ({ s with nextObj := s.nextObj + 1 } : SceneManager).sceneAdd s.nextObj
  let s2 ← ({ s1 with nextObj := s1.nextObj + 1 } : SceneManager).sceneAdd s1.nextObj
  ({ s2 with nextObj := s2.nextObj + 1 } : SceneManager).sceneAdd s2.nextObj

/-- The method `setupEventListeners`: each `bind` makes a new function; the first is registered
for the window's `resize`, the second is the callback of a new `ResizeObserver` that observes
the container. -/
def setupEventListeners (s : SceneManager) : Except String SceneManager :=
  .ok { s with host := { s.host with
    resizeListeners := s.host.resizeListeners ++ [s.host.nextFn]
    resizeObservers := s.host.resizeObservers ++ [s.host.nextFn + 1]
    nextFn := s.host.nextFn + 2 } }

/-- The method `onWindowResize`: aspect and render size are taken from `window.innerWidth` and
`window.innerHeight`. Writing `this.camera.aspect` of a `null` camera and calling
`this.renderer.setSize` of a `null` renderer are `TypeError`s. -/
def onWindowResize (s : SceneManager) : Except String SceneManager :=
  match s.camera with
  | none => .error "TypeError: this.camera is null"
  | some cam =>
    match s.renderer with
    | none => .error "TypeError: this.renderer is null"
    | some rd =>
      .ok { s with
        camera := some { cam with aspect := s.host.innerWidth / s.host.innerHeight }
        renderer := some { rd with width := s.host.innerWidth, height := s.host.innerHeight } }

/-- The method `onContainerResize`: nothing when `this.container` is `null`, otherwise aspect
and render size are taken from the container's `clientWidth` and `clientHeight`. -/
def onContainerResize (s : SceneManager) : Except String SceneManager :=
  match s.container with
  | none => .ok s
  | some c =>
    match s.camera with
    | none => .error "TypeError: this.camera is null"
    | some cam =>
      match s.renderer with
      | none => .error "TypeError: this.renderer is null"
      | some rd =>
        .ok { s with
          camera := some { cam with aspect := c.clientWidth / c.clientHeight }
          renderer := some { rd with width := c.clientWidth, height := c.clientHeight } }

/-- The method `createGlobe(radius, segments)`; the source defaults are `radius = 10` and
`segments = 64`. -/
def createGlobe (s : SceneManager) (radius : ℚ) (segments : Nat) :
    Except String SceneManager :=
  let globe : Object3D :=
    { id := s.nextObj, isPoints := false
      geometry := .sphere radius segments segments, geometryDisposed := false
      material :=
        { kind := .meshPhong 5, color := Color.ofHex 0x228B22, transparent := true
          opacity := 0.9, disposed := false }
      scale := ⟨1, 1, 1⟩, rotationX := 0, castShadow := true, receiveShadow := true
      userDataAnimate := none }
  ({ s with globe := some globe, nextObj := s.nextObj + 1 } : SceneManager).sceneAdd globe.id

/-! ## Effects -/

/-- The loop of `addPrecipitationEffect` that fills the position buffer: for each of the
`n` particles three values are drawn from `Math.random`, the `calls`-th call onwards. The
entries are the values computed, in exact arithmetic; `fillPositionsWith` has them as the
`Float32Array` stores them. -/
def fillPositions (random : Nat → ℚ) (calls : Nat) : Nat → List ℚ
  | 0 => []
  | n + 1 =>
    (random calls - 0.5) * 40 :: (random (calls + 1) * 40 + 20) :: (random (calls + 2) - 0.5) * 40
      :: fillPositions random (calls + 3) n

/-- The method `animatePrecipitation(particles)`: stores the fall closure in `userData`. -/
def animatePrecipitation (particles : Object3D) : Object3D :=
  { particles with userDataAnimate := some .precipitation }

/-- The method `addPrecipitationEffect(intensity)`. The `new Float32Array(n)` of a negative
`n` is a `RangeError`. So is one of a length beyond what the engine can allocate, which is
not modelled: the method is as in the source for the intensities in `[0, 1]` that
`transformFor3D` hands over, and for every intensity whose buffer can be allocated. -/
def addPrecipitationEffect (env : Env) (intensity : ℚ) (s : SceneManager) :
    Except String SceneManager :=
  let particleCount : ℤ := ⌊1000 * intensity⌋
  if particleCount * 3 < 0 then .error "RangeError: invalid typed array length"
  else
    let positions := fillPositions env.random s.host.randomCalls particleCount.toNat
    let precipitation : Object3D :=
      { id := s.nextObj, isPoints := true
        geometry := .buffer positions false, geometryDisposed := false
        material :=
          { kind := .points 0.1, color := Color.ofHex 0x87ceeb, transparent := true
            opacity := 0.6, disposed := false }
        scale := ⟨1, 1, 1⟩, rotationX := 0, castShadow := false, receiveShadow := false
        userDataAnimate := none }
    let s1 : SceneManager :=
      { s with
        nextObj := s.nextObj + 1
        host := { s.host with randomCalls := s.host.randomCalls + 3 * particleCount.toNat } }
    match s1.sceneAdd precipitation.id with
    | .error e => .error e
    | .ok s2 => .ok { s2 with effects := s2.effects ++ [animatePrecipitation precipitation] }

/-- The method `animateWaterLevel(waterRing, intensity)`: the closure starts with `time = 0`. -/
def animateWaterLevel (waterRing : Object3D) (intensity : ℚ) : Object3D :=
  { waterRing with userDataAnimate := some (.waterLevel 0 intensity) }

/-- The method `addSeaLevelEffect(intensity)`. -/
def addSeaLevelEffect (env : Env) (intensity : ℚ) (s : SceneManager) :
    Except String SceneManager :=
  let waterRing : Object3D :=
    { id := s.nextObj, isPoints := false
      geometry := .ring 10.2 (10.2 + intensity * 2) 64, geometryDisposed := false
      material :=
        { kind := .meshBasic true false, color := Color.ofHex 0x1e90ff, transparent := true
          opacity := 0.4, disposed := false }
      scale := ⟨1, 1, 1⟩, rotationX := env.PI / 2, castShadow := false, receiveShadow := false
      userDataAnimate := none }
  match ({ s with nextObj := s.nextObj + 1 } : SceneManager).sceneAdd waterRing.id with
  | .error e => .error e
  | .ok s2 => .ok { s2 with effects := s2.effects ++ [animateWaterLevel waterRing intensity] }

/-- The method `addHeatHazeEffect(intensity)`. -/
def addHeatHazeEffect (intensity : ℚ) (s : SceneManager) : Except String SceneManager :=
  let haze : Object3D :=
    { id := s.nextObj, isPoints := false
      geometry := .sphere 12 32 32, geometryDisposed := false
      material :=
        { kind := .meshBasic false true, color := Color.ofHex 0xff4500, transparent := true
          opacity := intensity * 0.2, disposed := false }
      scale := ⟨1, 1, 1⟩, rotationX := 0, castShadow := false, receiveShadow := false
      userDataAnimate := none }
  match ({ s with nextObj := s.nextObj + 1 } : SceneManager).sceneAdd haze.id with
  | .error e => .error e
  | .ok s2 => .ok { s2 with effects := s2.effects ++ [haze] }

/-- The body of the first `forEach` of `updateGlobeEffects`:
`if (effect.parent) effect.parent.remove(effect)`. -/
def detachEffect (sc : Scene) (effect : Object3D) : Scene :=
  if effect.id ∈ sc.children then sc.remove effect.id else sc

/-- The first part of `updateGlobeEffects`: every effect is removed from its parent, then
`this.effects = []`. -/
def removeExistingEffects (s : SceneManager) : SceneManager :=
  { s with scene := s.scene.map (fun sc => s.effects.foldl detachEffect sc), effects := [] }

/-- The method `updateGlobeEffects(tempIntensity, precipIntensity, seaLevelIntensity)`. -/
def updateGlobeEffects (env : Env) (tempIntensity precipIntensity seaLevelIntensity : ℚ)
    (s : SceneManager) : Except String SceneManager :=
  let s0 := removeExistingEffects s
  (if precipIntensity > 0.3 then addPrecipitationEffect env precipIntensity s0
    else .ok s0).bind fun s1 =>
  (if seaLevelIntensity > 0.2 then addSeaLevelEffect env seaLevelIntensity s1
    else .ok s1).bind fun s2 =>
  if tempIntensity > 0.6 then addHeatHazeEffect tempIntensity s2 else .ok s2

/-- The target colour `updateGlobeVisuals` computes from `temperatureIntensity`
(the `if`/`else` on `temperatureIntensity > 0.5`). -/
def targetColor (temperatureIntensity : ℚ) : Color :=
  let baseColor := Color.ofHex 0x228B22
  let hotColor := Color.ofHex 0xff4500
  let coldColor := Color.ofHex 0x4169e1
  if temperatureIntensity > 0.5 then hotColor.lerp baseColor (1 - temperatureIntensity)
  else coldColor.lerp baseColor (1 - (1 - temperatureIntensity))

/-- The method `updateGlobeVisuals(climateData)`. -/
def updateGlobeVisuals (env : Env) (climateData : ClimateData) (s : SceneManager) :
    Except String SceneManager :=
  match s.globe with
  | none => .ok s
  | some globe =>
    let color := globe.material.color.lerp (targetColor climateData.temperatureIntensity) 0.1
    let s1 : SceneManager :=
      { s with globe := some { globe with material := { globe.material with color := color } } }
    updateGlobeEffects env climateData.temperatureIntensity climateData.precipitationIntensity
      climateData.seaLevelIntensity s1

/-! ## The frame tick -/

/-- One particle height after a fall step: `positions[i] -= 0.1`, then reset to `40` when the
new value is below `-20`; in exact arithmetic, `fallOneWith` has the rounding. -/
def fallOne (y : ℚ) : ℚ :=
  if y - 0.1 < -20 then 40 else y - 0.1

/-- The loop of the precipitation closure, `for (let i = 1; i < positions.length; i += 3)`:
it visits the entries 1, 4, 7, ... of the buffer. -/
def fall : List ℚ → List ℚ
  | x :: y :: z :: rest => x :: fallOne y :: z :: fall rest
  | [x, y] => [x, fallOne y]
  | [x] => [x]
  | [] => []

/-- One call of the closure in `userData.animate` of `o` (nothing when there is none). -/
def Object3D.runAnimate (env : Env) (o : Object3D) : Object3D :=
  match o.userDataAnimate with
  | none => o
  | some .precipitation =>
    match o.geometry with
    | .buffer array _ => { o with geometry := .buffer (fall array) true }
    | _ => o
  | some (.waterLevel time intensity) =>
    let time1 := time + 0.02
    { o with
      scale :=
        { o.scale with
          x := 1 + env.sin time1 * 0.1 * intensity
          z := 1 + env.sin time1 * 0.1 * intensity }
      userDataAnimate := some (.waterLevel time1 intensity) }

/-- The `forEach` of `animate`: each effect whose `userData.animate` is set has it called.
Returns the effects afterwards and the closure calls made, in order. -/
def animateEffects (env : Env) : List Object3D → List Object3D × List Call
  | [] => ([], [])
  | effect :: rest =>
    let r := animateEffects env rest
    match effect.userDataAnimate with
    | some _ => (effect.runAnimate env :: r.1, Call.userDataAnimate effect.id :: r.2)
    | none => (effect :: r.1, r.2)

/-- The method `animate`: requests the next frame, updates the controls, runs the effect
closures and renders when renderer, scene and camera are all set. -/
def animate (env : Env) (s : SceneManager) : Except String SceneManager :=
  let handle := s.host.nextFrame
  let s1 : SceneManager :=
    { s with
      animationId := some handle
      host := { s.host with
        nextFrame := handle + 1
        pendingFrames := s.host.pendingFrames ++ [handle]
        log := s.host.log ++ [Call.requestAnimationFrame handle] } }
  let s2 : SceneManager :=
    match s1.controls with
    | some c => { s1.call Call.controlsUpdate with camera := s1.camera.map (env.orbitUpdate c) }
    | none => s1
  let r := animateEffects env s2.effects
  let s3 : SceneManager :=
    { s2 with effects := r.1, host := { s2.host with log := s2.host.log ++ r.2 } }
  match s3.renderer, s3.scene, s3.camera with
  | some rd, some _, some _ =>
    .ok { s3.call Call.render with renderer := some { rd with frame := rd.frame + 1 } }
  | _, _, _ => .ok s3

/-! ## Story progress -/

/-- The `targetPosition` of `updateStoryProgress`. -/
def cameraTarget (env : Env) (progress : ℚ) : Vector3 :=
  { x := env.sin (progress * env.PI * 2) * 20
    y := env.cos (progress * env.PI) * 10
    z := 25 + progress * 10 }

/-- The method `updateStoryProgress(progress, climateData)`; `climateData` may be absent.
Reading `this.camera.position` of a `null` camera is a `TypeError`. -/
def updateStoryProgress (env : Env) (progress : ℚ) (climateData : Option ClimateData)
    (s : SceneManager) : Except String SceneManager :=
  (match climateData with
    | some d => updateGlobeVisuals env d s
    | none => .ok s).bind fun (s1 : SceneManager) =>
  match s1.camera with
  | none => .error "TypeError: this.camera is null"
  | some cam =>
    let cam1 : Camera :=
      { cam with
        position := cam.position.lerp (cameraTarget env progress) 0.05
        lookAt := some ⟨0, 0, 0⟩ }
    let controls := s1.controls.map
      (fun (c : OrbitControls) => { c with autoRotateSpeed := 0.5 + progress * 2 })
    .ok { s1 with camera := some cam1, controls := controls }

/-! ## Disposal -/

/-- The host function `cancelAnimationFrame(handle)`. -/
def cancelAnimationFrame (handle : Nat) (s : SceneManager) : SceneManager :=
  { s with host := { s.host with
      pendingFrames := s.host.pendingFrames.filter (fun h => h ≠ handle)
      log := s.host.log ++ [Call.cancelAnimationFrame handle] } }

/-- The calls `geometry.dispose()` and `material.dispose()` on one object. -/
def Object3D.disposeResources (o : Object3D) : Object3D :=
  { o with geometryDisposed := true, material := { o.material with disposed := true } }

/-- The `forEach` of `dispose` over the effects: both resources of each effect are disposed.
Returns the effects afterwards and the calls made, in order. -/
def disposeEffects : List Object3D → List Object3D × List Call
  | [] => ([], [])
  | effect :: rest =>
    let r := disposeEffects rest
    (effect.disposeResources :: r.1,
      Call.geometryDispose effect.id :: Call.materialDispose effect.id :: r.2)

/-- The method `dispose`. A handle is truthy when it is not `null` and not `0`. The last
statement removes a function freshly made by `bind` from the `resize` listeners. -/
def dispose (s : SceneManager) : Except String SceneManager :=
  let s1 : SceneManager :=
    match s.animationId with
    | some handle => if handle ≠ 0 then cancelAnimationFrame handle s else s
    | none => s
  let s2 : SceneManager :=
    match s1.globe with
    | some globe =>
      { (s1.call (Call.geometryDispose globe.id)).call (Call.materialDispose globe.id) with
        globe := some globe.disposeResources }
    | none => s1
  let r := disposeEffects s2.effects
  let s3 : SceneManager :=
    { s2 with effects := r.1, host := { s2.host with log := s2.host.log ++ r.2 } }
  let s4 : SceneManager :=
    match s3.renderer with
    | some rd =>
      { s3.call Call.rendererDispose with
        renderer := some
          { rd with
            disposed := true
            domElementAttached := if rd.domElementAttached then false else rd.domElementAttached } }
    | none => s3
  .ok { s4 with host := { s4.host with
      resizeListeners := s4.host.resizeListeners.erase s4.host.nextFn
      nextFn := s4.host.nextFn + 1 } }

/-- The object `getSceneState()` returns. -/
structure SceneState where
  cameraPosition : Option Vector3
  globePresent : Bool
  effectCount : Nat
  rendererInfo : Option Nat
deriving DecidableEq

/-- The method `getSceneState`. -/
def getSceneState (s : SceneManager) : SceneState :=
  { cameraPosition := s.camera.map (fun c => c.position)
    globePresent := s.globe.isSome
    effectCount := s.effects.length
    rendererInfo := s.renderer.map (fun r => r.frame) }

/-- The method `init`. -/
def init (env : Env) (s : SceneManager) : Except String SceneManager := do
  let s1 ← createScene s
  let s2 ← createCamera s1
  let s3 ← createRenderer s2
  let s4 ← createControls s3
  let s5 ← addLighting s4
  let s6 ← setupEventListeners s5
  animate env s6

/-- The constructor `new SceneManager(container)`, run in `host` with `nextObj` the next free
object identity. -/
def SceneManager.constructor (env : Env) (container : Option Container) (nextObj : Nat)
    (host : Host) : Except String SceneManager :=
  init env
    { container := container, scene := none, camera := none, renderer := none, controls := none
      animationId := none, globe := none, effects := [], isAnimating := false
      nextObj := nextObj, host := host }

/-! ## Events of the host -/

/-- The browser running the frame callback with handle `handle`: a callback that is still
pending is taken off the queue and `animate` runs; a handle that is not pending (never
requested, already run or cancelled) runs nothing. -/
def runFrame (env : Env) (handle : Nat) (s : SceneManager) : Except String SceneManager :=
  if handle ∈ s.host.pendingFrames then
    animate env { s with host := { s.host with
      pendingFrames := s.host.pendingFrames.filter (fun h => h ≠ handle) } }
  else .ok s

/-- The browser resizing the window to `width` by `height` and dispatching `resize`: each
registered listener (a bound `onWindowResize`) runs once, in order of registration. -/
def windowResized (width height : ℚ) (s : SceneManager) : Except String SceneManager :=
  s.host.resizeListeners.foldlM (fun (s1 : SceneManager) _ => onWindowResize s1)
    { s with host := { s.host with innerWidth := width, innerHeight := height } }

/-- The layout giving the container the size `width` by `height` and the `ResizeObserver`s
reporting it: each observer callback (a bound `onContainerResize`) runs once. -/
def containerResized (width height : ℚ) (s : SceneManager) : Except String SceneManager :=
  let resized : Container := { clientWidth := width, clientHeight := height }
  s.host.resizeObservers.foldlM (fun (s1 : SceneManager) _ => onContainerResize s1)
    { s with container := s.container.map (fun (_ : Container) => resized) }

/-! ## Visual intensities from climate data (`dataProcessor.js`, `storyController.js`) -/

/-- One metric of the processed climate data; only its `change` is read here. -/
structure MetricEntry where
  change : ℚ
deriving DecidableEq

/-- The `metrics` object of the frontend's processed data: each metric may be absent. -/
structure Metrics where
  temperature : Option MetricEntry
  precipitation : Option MetricEntry
  seaLevel : Option MetricEntry
  co2 : Option MetricEntry
deriving DecidableEq

/-- The `climateData` object of the backend (`getClimateData`): all four metrics present. -/
structure BackendClimateData where
  temperature : MetricEntry
  precipitation : MetricEntry
  seaLevel : MetricEntry
  co2 : MetricEntry
deriving DecidableEq

/-- The object `transformFor3D` returns. -/
structure VisualData where
  temperatureIntensity : ℚ
  precipitationIntensity : ℚ
  seaLevelIntensity : ℚ
  co2Intensity : ℚ
deriving DecidableEq

/-- The expression `metric?.change || 0`: `0` for an absent metric and for a falsy change. -/
def changeOrZero (metric : Option MetricEntry) : ℚ :=
  match metric with
  | none => 0
  | some m => if m.change = 0 then 0 else m.change

/-- The static method `DataProcessor.transformFor3D(processedData)` of the frontend. -/
def DataProcessor.transformFor3D (metrics : Metrics) : VisualData :=
  { temperatureIntensity := min (|changeOrZero metrics.temperature| * 0.5) 1
    precipitationIntensity := min (|changeOrZero metrics.precipitation| * 0.01) 1
    seaLevelIntensity := min (changeOrZero metrics.seaLevel * 0.005) 1
    co2Intensity := min (changeOrZero metrics.co2 * 0.01) 1 }

/-- The function `transformFor3D(climateData)` of the backend's `storyController.js`. -/
def storyController.transformFor3D (climateData : BackendClimateData) : VisualData :=
  { temperatureIntensity := min (|climateData.temperature.change| * 0.3) 1
    precipitationIntensity := min (|climateData.precipitation.change| * 0.005) 1
    seaLevelIntensity := min (climateData.seaLevel.change * 0.002) 1
    co2Intensity := min (climateData.co2.change * 0.01) 1 }

/-- The three channels `updateGlobeVisuals` destructures from the visual data. -/
def VisualData.toClimateData (v : VisualData) : ClimateData :=
  { temperatureIntensity := v.temperatureIntensity
    precipitationIntensity := v.precipitationIntensity
    seaLevelIntensity := v.seaLevelIntensity }

/-! ## Observations and relations used in the statements -/

/-- An effect is the sea-level ring when it is a mesh over a `RingGeometry`. -/
def Object3D.isSeaLevelRing (o : Object3D) : Bool :=
  match o.geometry with
  | .ring _ _ _ => !o.isPoints
  | _ => false

/-- The position buffer of an object (empty when its geometry has none). -/
def Object3D.positions (o : Object3D) : List ℚ :=
  match o.geometry with
  | .buffer array _ => array
  | _ => []

/-- The state `s'` differs from `s` at most in the scene, the effects, the next free object
identity and the count of `Math.random` calls. -/
def SameExceptEffects (s s' : SceneManager) : Prop :=
  { s' with
    scene := s.scene, effects := s.effects, nextObj := s.nextObj
    host := { s'.host with randomCalls := s.host.randomCalls } } = s

/-- The relation between the states before and after one `add...Effect` call that completes:
one new object `e`, with the next free identity, is added to the scene and pushed on the
effects. -/
def Added (s s' : SceneManager) (e : Object3D) : Prop :=
  e.id = s.nextObj ∧ s'.nextObj = s.nextObj + 1 ∧ s'.effects = s.effects ++ [e] ∧
    (∃ sc, s.scene = some sc ∧ s'.scene = some (sc.add s.nextObj)) ∧ SameExceptEffects s s'

/-- One conditional `add...Effect` step of `updateGlobeEffects`: when the condition holds an
effect satisfying `P` is added, otherwise the state is unchanged. -/
def Step (c : Prop) (P : Object3D → Prop) (a b : SceneManager) : Prop :=
  (c ∧ ∃ e, Added a b e ∧ P e) ∨ (¬ c ∧ b = a)

/-- The effects of `s` and the children of its scene that are not in `base` have identities
from `n` on; `n` is at most the next free identity. -/
def FreshFrom (n : Nat) (base : List Nat) (s : SceneManager) : Prop :=
  n ≤ s.nextObj ∧ (∀ e ∈ s.effects, n ≤ e.id) ∧
    ∀ sc, s.scene = some sc → ∀ c ∈ sc.children, c ∈ base ∨ n ≤ c

/-- The number of particles of a `Points` object: its `position` attribute has item size 3. -/
def Object3D.particleCount (o : Object3D) : Nat :=
  o.positions.length / 3

/-- Repeated calls `updateStoryProgress(progress, d)` with the same `progress`, one for each
entry `d` of the list, in order. -/
def repeatStoryProgress (env : Env) (progress : ℚ) :
    List (Option ClimateData) → SceneManager → Except String SceneManager
  | [], s => .ok s
  | d :: ds, s => (updateStoryProgress env progress d s).bind (repeatStoryProgress env progress ds)

/-- The object whose `userData.animate` a logged call invoked, if the call is one. -/
def Call.animated (c : Call) : Option Nat :=
  match c with
  | .userDataAnimate obj => some obj
  | _ => none

/-- An environment for concrete runs: a periodic `Math.random`, polynomial stand-ins for
`Math.sin` and `Math.cos`, and controls that leave the camera where it is. -/
def exampleEnv : Env :=
  { random := fun k => ((k % 10 : Nat) : ℚ) / 10
    sin := fun x => x - x ^ 3 / 6
    cos := fun x => 1 - x ^ 2 / 2
    PI := 355 / 113
    orbitUpdate := fun _ cam => cam }

/-- A fresh browser window of 800 by 600 pixels. -/
def exampleHost : Host :=
  { innerWidth := 800, innerHeight := 600, devicePixelRatio := 1
    resizeListeners := [], resizeObservers := [], nextFn := 0
    pendingFrames := [], nextFrame := 1, randomCalls := 0, log := [] }

/-- The state right after `new SceneManager(container)` on an 800 by 600 container in
`exampleHost`. -/
def exampleInitial : SceneManager :=
  { container := some { clientWidth := 800, clientHeight := 600 }
    scene := some { background := 0x0a0a1a, fog := (0x0a0a1a, 15, 30), children := [0, 1, 2] }
    camera := some
      { fov := 60, aspect := 800 / 600, near := 0.1, far := 1000, position := ⟨0, 0, 25⟩
        lookAt := none }
    renderer := some
      { width := 800, height := 600, pixelRatio := 1, shadowMapEnabled := true
        domElementAttached := true, disposed := false, frame := 1 }
    controls := some
      { enableDamping := true, dampingFactor := 0.05, minDistance := 15, maxDistance := 50
        autoRotate := true, autoRotateSpeed := 0.5 }
    animationId := some 1
    globe := none
    effects := []
    isAnimating := false
    nextObj := 3
    host :=
      { innerWidth := 800, innerHeight := 600, devicePixelRatio := 1
        resizeListeners := [0], resizeObservers := [1], nextFn := 2
        pendingFrames := [1], nextFrame := 2, randomCalls := 0
        log := [Call.requestAnimationFrame 1, Call.controlsUpdate, Call.render] } }

/-- The globe of `exampleScene`: made by `createGlobe()`, its colour blended once toward the
hot colour. -/
def exampleGlobe : Object3D :=
  { id := 3, isPoints := false
    geometry := .sphere 10 64 64, geometryDisposed := false
    material :=
      { kind := .meshPhong 5
        color := (Color.ofHex 0x228B22).lerp (Color.ofHex 0xff4500) 0.1
        transparent := true, opacity := 0.9, disposed := false }
    scale := ⟨1, 1, 1⟩, rotationX := 0, castShadow := true, receiveShadow := true
    userDataAnimate := none }

/-- The state `exampleInitial` after `createGlobe(10, 64)` and then
`updateGlobeVisuals` with temperature 1, precipitation 0 and sea level 0.25: the globe, a
sea-level ring and a heat haze. -/
def exampleScene : SceneManager :=
  { exampleInitial with
    scene := some
      { background := 0x0a0a1a, fog := (0x0a0a1a, 15, 30), children := [0, 1, 2, 3, 4, 5] }
    globe := some exampleGlobe
    effects :=
      [{ id := 4, isPoints := false
         geometry := .ring 10.2 (10.2 + 0.25 * 2) 64, geometryDisposed := false
         material :=
           { kind := .meshBasic true false, color := Color.ofHex 0x1e90ff, transparent := true
             opacity := 0.4, disposed := false }
         scale := ⟨1, 1, 1⟩, rotationX := 355 / 113 / 2, castShadow := false
         receiveShadow := false
         userDataAnimate := some (.waterLevel 0 0.25) },
       { id := 5, isPoints := false
         geometry := .sphere 12 32 32, geometryDisposed := false
         material :=
           { kind := .meshBasic false true, color := Color.ofHex 0xff4500, transparent := true
             opacity := 1 * 0.2, disposed := false }
         scale := ⟨1, 1, 1⟩, rotationX := 0, castShadow := false, receiveShadow := false
         userDataAnimate := none }]
    nextObj := 6 }

/-- The state `exampleScene` with its renderer set to `null`. -/
def exampleNoRenderer : SceneManager :=
  { exampleScene with renderer := none }

/-- The camera of `exampleScene`. -/
def exampleCamera : Camera :=
  { fov := 60, aspect := 800 / 600, near := 0.1, far := 1000, position := ⟨0, 0, 25⟩
    lookAt := none }

/-- The class invariant: what the constructor sets stays set, the children of the scene are
distinct, and every effect and every registered `resize` listener has an identity that was
handed out before the next free one. -/
def Invariant (s : SceneManager) : Prop :=
  s.scene.isSome ∧ s.camera.isSome ∧ s.renderer.isSome ∧ s.controls.isSome ∧
    (∀ sc, s.scene = some sc → sc.children.Nodup) ∧
    (∀ e ∈ s.effects, e.id < s.nextObj) ∧
    (∀ f ∈ s.host.resizeListeners, f < s.host.nextFn)

/-- An effect is the heat haze when it is a mesh over a `SphereGeometry` with a wireframe
`MeshBasicMaterial`. -/
def Object3D.isHeatHaze (o : Object3D) : Bool :=
  match o.geometry, o.material.kind with
  | .sphere _ _ _, .meshBasic _ true => !o.isPoints
  | _, _ => false

/-- The method `animate` run `n` times in a row (`n` frame ticks). -/
def repeatAnimate (env : Env) : Nat → SceneManager → Except String SceneManager
  | 0, s => .ok s
  | n + 1, s => (animate env s).bind (repeatAnimate env n)

/-- The list `l` is the single effect some step added, satisfying `P`, when `c` holds, and is
empty otherwise. -/
def OneIf (c : Prop) (P : Object3D → Prop) (l : List Object3D) : Prop :=
  (c ∧ ∃ e, l = [e] ∧ P e) ∨ (¬ c ∧ l = [])

/-- The controls of `exampleScene`. -/
def exampleControls : OrbitControls :=
  { enableDamping := true, dampingFactor := 0.05, minDistance := 15, maxDistance := 50
    autoRotate := true, autoRotateSpeed := 0.5 }

/-- The value `x` clamped to `[0, 1]`. -/
def clamp01 (x : ℚ) : ℚ :=
  max 0 (min x 1)

/-- The intensities with each channel clamped to `[0, 1]`. -/
def ClimateData.clamped (d : ClimateData) : ClimateData :=
  { temperatureIntensity := clamp01 d.temperatureIntensity
    precipitationIntensity := clamp01 d.precipitationIntensity
    seaLevelIntensity := clamp01 d.seaLevelIntensity }

/-- The state `exampleScene` after `updateGlobeEffects` with all intensities 0: the ring and
the haze are off the scene and off the effects list. -/
def exampleCleared : SceneManager :=
  { exampleScene with
    scene := some
      { background := 0x0a0a1a, fog := (0x0a0a1a, 15, 30), children := [0, 1, 2, 3] }
    effects := [] }

/-- A precipitation effect of two particles, at heights `30` and `-19.95`. -/
def examplePoints : Object3D :=
  { id := 7, isPoints := true
    geometry := .buffer [1, 30, 2, 3, -19.95, 4] false, geometryDisposed := false
    material :=
      { kind := .points 0.1, color := Color.ofHex 0x87ceeb, transparent := true
        opacity := 0.6, disposed := false }
    scale := ⟨1, 1, 1⟩, rotationX := 0, castShadow := false, receiveShadow := false
    userDataAnimate := some .precipitation }

/-- An environment whose `sin` and `cos` are rational functions bounded by `1` in absolute
value, with `sin 0 = 0` and `cos 0 = 1` (the values of `Math.sin` and `Math.cos` at the
half-angle substitution). -/
def boundedEnv : Env :=
  { random := fun k => ((k % 10 : Nat) : ℚ) / 10
    sin := fun x => 2 * x / (1 + x ^ 2)
    cos := fun x => (1 - x ^ 2) / (1 + x ^ 2)
    PI := 355 / 113
    orbitUpdate := fun _ cam => cam }

/-- The severity labels `getSeverity` returns: the strings `low`, `medium`, `high`,
`extreme`. -/
inductive Severity where
  | low
  | medium
  | high
  | extreme
deriving DecidableEq, Repr

/-- The JavaScript string of a severity label. -/
def Severity.toString : Severity → String
  | .low => "low"
  | .medium => "medium"
  | .high => "high"
  | .extreme => "extreme"

/-- The position of a label in the order `low < medium < high < extreme`. -/
def Severity.level : Severity → Nat
  | .low => 0
  | .medium => 1
  | .high => 2
  | .extreme => 3

/-- The value read by `thresholds[type]`: its properties `low`, `medium`, `high`, each
`none` when the object read has no such property (the read gives `undefined`). -/
structure Threshold where
  low : Option ℚ
  medium : Option ℚ
  high : Option ℚ
deriving DecidableEq

/-- The property names every object literal inherits from `Object.prototype`. Reading one of
them from an object literal gives a function (for `__proto__`, the prototype object): a truthy
value that has no property `low`, `medium` or `high`. -/
def objectPrototypeKeys : List String :=
  ["constructor", "__proto__", "hasOwnProperty", "isPrototypeOf", "propertyIsEnumerable",
    "toLocaleString", "toString", "valueOf", "__defineGetter__", "__defineSetter__",
    "__lookupGetter__", "__lookupSetter__"]

/-- The property read `thresholds[type]` on the object literal of `getSeverity`: one of the
four own entries, else a value inherited from `Object.prototype`, else `undefined`
(`none`). -/
def thresholdsGet (type : String) : Option Threshold :=
  if type = "temperature" then some ⟨some 1, some 2, some 3⟩
  else if type = "precipitation" then some ⟨some 50, some 100, some 200⟩
  else if type = "seaLevel" then some ⟨some 100, some 200, some 300⟩
  else if type = "co2" then some ⟨some 50, some 100, some 150⟩
  else if type ∈ objectPrototypeKeys then some ⟨none, none, none⟩
  else none

/-- The comparison `x < t` where `t` may be `undefined`: with `undefined` it is `false`. -/
def ltMaybe (x : ℚ) : Option ℚ → Bool
  | some t => decide (x < t)
  | none => false

/-- The static method `DataProcessor.getSeverity(value, type)`. -/
def DataProcessor.getSeverity (value : ℚ) (type : String) : Severity :=
  let threshold : Threshold :=
    match thresholdsGet type with
    | some t => t
    | none => ⟨some 1, some 2, some 3⟩
  if ltMaybe |value| threshold.low then .low
  else if ltMaybe |value| threshold.medium then .medium
  else if ltMaybe |value| threshold.high then .high
  else .extreme

/-- An entry of `processed.metrics`, as built by `processClimateData`. -/
structure ProcessedMetric where
  current : String
  change : ℚ
  severity : String
deriving DecidableEq

/-- The array `actions` of `generateCallToAction`. -/
def DataProcessor.actions : List String :=
  ["Small changes in our daily lives can make a significant difference.",
    "Community action and policy changes are essential for meaningful impact.",
    "Every action counts in building climate resilience for future generations."]

/-- The callback `s => s === 'extreme' ? 4 : s === 'high' ? 3 : s === 'medium' ? 2 : 1`. -/
def DataProcessor.severityRank (s : String) : Nat :=
  if s = "extreme" then 4 else if s = "high" then 3 else if s = "medium" then 2 else 1

/-- The static method `DataProcessor.generateCallToAction(metrics)`; `metrics` is given by
its entries (key and value) in property order. `Math.max()` of no arguments is `-Infinity`
and `actions[-Infinity]` is `undefined`: the result is `none` for an empty map. -/
def DataProcessor.generateCallToAction (metrics : List (String × ProcessedMetric)) :
    Option String :=
  let severities := metrics.map (fun m => m.2.severity)
  match (severities.map DataProcessor.severityRank).max? with
  | none => none
  | some maxSeverity => DataProcessor.actions[min (maxSeverity - 1) (DataProcessor.actions.length - 1)]?

/-- A metrics map with a `medium` temperature and a `low` sea level entry. -/
def exampleMetrics : List (String × ProcessedMetric) :=
  [("temperature", { current := "warmer by 1.5°C", change := 1.5, severity := "medium" }),
    ("seaLevel", { current := "rising by 12mm", change := 12, severity := "low" })]

/-- The thresholds `getSeverity` classifies with, for a type that is not a property name
inherited from `Object.prototype`: the own entry for the four metric types, the temperature
entry for every other type. -/
def thresholdsOf (type : String) : ℚ × ℚ × ℚ :=
  if type = "precipitation" then (50, 100, 200)
  else if type = "seaLevel" then (100, 200, 300)
  else if type = "co2" then (50, 100, 150)
  else (1, 2, 3)

/-- One metric of the climate data of `nasaApi.js`: the value now and the projections. The
data has no projection for 2040. -/
structure ClimateSeries where
  current : ℚ
  projected_2030 : ℚ
  projected_2050 : ℚ
  trend : String
deriving DecidableEq

/-- The climate data object of `nasaApi.js`. -/
structure MockData where
  temperature : ClimateSeries
  precipitation : ClimateSeries
  seaLevel : ClimateSeries
  co2 : ClimateSeries
deriving DecidableEq

/-- The method `generateMockData` of `NasaApiService`. -/
def NasaApiService.generateMockData : MockData :=
  { temperature :=
      { current := 15.2, projected_2030 := 17.8, projected_2050 := 20.1, trend := "rising" }
    precipitation :=
      { current := 850, projected_2030 := 780, projected_2050 := 720, trend := "decreasing" }
    seaLevel := { current := 0, projected_2030 := 12, projected_2050 := 25, trend := "rising" }
    co2 := { current := 421, projected_2030 := 485, projected_2050 := 550, trend := "rising" } }

/-- The property read `series['projected_' + year]` as a number: `none` when the object has
no such property (the read gives `undefined`). -/
def ClimateSeries.projected (series : ClimateSeries) (year : String) : Option ℚ :=
  if year = "2030" then some series.projected_2030
  else if year = "2050" then some series.projected_2050
  else none

/-- The `value` fields of the object `formatClimateData` returns; `none` stands for a value
that is `undefined` or `NaN`. -/
structure FormattedClimateData where
  temperatureChange : Option ℚ
  precipitationChange : Option ℚ
  seaLevelRise : Option ℚ
  co2Concentration : Option ℚ
deriving DecidableEq

/-- The method `formatClimateData(data, timeframe)` of `NasaApiService`, without the unit,
description and summary strings. A missing or empty `timeframe` is read as `2030`; a
difference with an `undefined` operand is `NaN`. -/
def NasaApiService.formatClimateData (data : MockData) (timeframe : Option String) :
    FormattedClimateData :=
  let year : String :=
    match timeframe with
    | some t => if t = "" then "2030" else t
    | none => "2030"
  { temperatureChange := (data.temperature.projected year).map (· - data.temperature.current)
    precipitationChange :=
      (data.precipitation.projected year).map (· - data.precipitation.current)
    seaLevelRise := data.seaLevel.projected year
    co2Concentration := data.co2.projected year }

/-- The array `validTimeframes` of `StoryEngine.validateUserData`. -/
def StoryEngine.validTimeframes : List String :=
  ["2030", "2040", "2050"]

/-- The climate data `StoryEngine.generateFallbackStory(userData)` hands to
`processClimateData`: the mock data formatted for `userData.timeframe`. -/
def StoryEngine.fallbackClimateData (timeframe : Option String) : FormattedClimateData :=
  NasaApiService.formatClimateData NasaApiService.generateMockData timeframe

/-- The string method `toLowerCase`, on ASCII letters (other characters are kept). -/
def toLowerCase (s : String) : String :=
  String.mk (s.data.map Char.toLower)

/-- An entry of the table `locationModifiers`. -/
structure LocationModifiers where
  temperature : ℚ
  precipitation : ℚ
  seaLevel : ℚ
deriving DecidableEq

/-- The read `locationModifiers[key] || locationModifiers.default`. The two lower-case
property names an object literal inherits from `Object.prototype` give a truthy value
without numeric fields, with which every sum is `NaN`: `none`. -/
def NasaApiService.modifiersFor (key : String) : Option LocationModifiers :=
  if key = "new york" then some ⟨1.2, -50, 15⟩
  else if key = "mumbai" then some ⟨0.8, 100, 8⟩
  else if key = "london" then some ⟨0.5, 20, 12⟩
  else if key = "sydney" then some ⟨1.0, -30, 18⟩
  else if key = "default" then some ⟨0, 0, 0⟩
  else if key = "constructor" ∨ key = "__proto__" then none
  else some ⟨0, 0, 0⟩

/-- The method `getMockDataForLocation(location)` of `NasaApiService`, as a function of the
stored field `this.mockData`. The copy `{ ...this.mockData }` is shallow: the four nested
objects of `baseData` are those of `this.mockData`, so each `+=` writes into the stored
data. The result is the data returned, as it is at the return, and `this.mockData`
afterwards; `none` when a sum is `NaN`. -/
def NasaApiService.getMockDataForLocation (location : String) (mockData : MockData) :
    Option (MockData × MockData) :=
  match NasaApiService.modifiersFor (toLowerCase location) with
  | none => none
  | some modifiers =>
    let temperature : ClimateSeries :=
      { mockData.temperature with
        current := mockData.temperature.current + modifiers.temperature
        projected_2030 := mockData.temperature.projected_2030 + modifiers.temperature * 1.1
        projected_2050 := mockData.temperature.projected_2050 + modifiers.temperature * 1.2 }
    let precipitation : ClimateSeries :=
      { mockData.precipitation with
        current := mockData.precipitation.current + modifiers.precipitation
        projected_2030 := mockData.precipitation.projected_2030 + modifiers.precipitation * 0.9
        projected_2050 := mockData.precipitation.projected_2050 + modifiers.precipitation * 0.8 }
    let seaLevel : ClimateSeries :=
      { mockData.seaLevel with
        projected_2030 := mockData.seaLevel.projected_2030 + modifiers.seaLevel
        projected_2050 := mockData.seaLevel.projected_2050 + modifiers.seaLevel * 2 }
    let baseData : MockData :=
      { mockData with
        temperature := temperature, precipitation := precipitation, seaLevel := seaLevel }
    some (baseData, baseData)

/-- Two calls of `getMockDataForLocation(location)` in a row on a service whose stored data
is `mockData`: the data returned by the first call, that returned by the second, and the
stored data in the end. -/
def NasaApiService.getMockDataTwice (location : String) (mockData : MockData) :
    Option (MockData × MockData × MockData) :=
  match NasaApiService.getMockDataForLocation location mockData with
  | none => none
  | some (first, stored1) =>
    match NasaApiService.getMockDataForLocation location stored1 with
    | none => none
    | some (second, stored2) => some (first, second, stored2)

/-- The array `mumbaiLocations` of `validation.js`. -/
def mumbaiLocations : List String :=
  ["Mumbai", "Navi Mumbai", "Thane", "Bandra", "Andheri", "Dadar", "Colaba", "Marine Lines",
    "Churchgate", "Borivali", "Kandivali", "Malad", "Goregaon", "Jogeshwari", "Vile Parle",
    "Santacruz", "Powai", "Bandra Kurla Complex", "Lower Parel", "Worli", "Prabhadevi",
    "Mahim", "Sion", "Chembur", "Govandi", "Mankhurd", "Vashi", "Panvel"]

/-- The array `validTimeframes` of `validation.js`. -/
def validTimeframes : List String :=
  ["2030", "2040", "2050"]

/-- The array `validTopics` of `validation.js`. -/
def validTopics : List String :=
  ["general", "hometown", "coffee", "birds", "water", "energy"]

/-- The four fields `validateStoryRequest` reads from `req.body`, each a string or absent
(`undefined`). -/
structure StoryRequestBody where
  location : Option String
  timeframe : Option String
  topic : Option String
  personalContext : Option String
deriving DecidableEq

/-- Truthiness of a value that is a string or `undefined`: a non-empty string. -/
def truthy : Option String → Bool
  | some s => s ≠ ""
  | none => false

/-- The property `length` of a JavaScript string: its number of UTF-16 code units, two for
a character beyond the basic plane. -/
def jsLength (s : String) : Nat :=
  (s.data.map (fun c => if c.val.toNat < 65536 then 1 else 2)).sum

/-- What a call of the middleware does: it answers with a status and an error message and
does not call `next`, or it stores the body with its defaults and calls `next`. -/
inductive ValidationOutcome where
  | rejected (status : Nat) (error : String)
  | next (body : StoryRequestBody)
deriving DecidableEq

/-- The middleware `validateStoryRequest(req, res, next)` as a function of `req.body`
(`none` when the request has no body: the destructuring throws, and the `catch` answers
500). -/
def validateStoryRequest (reqBody : Option StoryRequestBody) : ValidationOutcome :=
  match reqBody with
  | none => .rejected 500 "Validation failed"
  | some body =>
    if ¬ truthy body.location then .rejected 400 "Location is required"
    else if ¬ truthy body.timeframe then .rejected 400 "Timeframe is required"
    else if ¬ (body.location.getD "" ∈ mumbaiLocations) then
      .rejected 400 ("Invalid location. Please select from Mumbai region locations: "
        ++ ", ".intercalate mumbaiLocations)
    else if ¬ (body.timeframe.getD "" ∈ validTimeframes) then
      .rejected 400 ("Invalid timeframe. Must be one of: " ++ ", ".intercalate validTimeframes)
    else if truthy body.topic ∧ ¬ (body.topic.getD "" ∈ validTopics) then
      .rejected 400 ("Invalid topic. Must be one of: " ++ ", ".intercalate validTopics)
    else if truthy body.personalContext ∧ jsLength (body.personalContext.getD "") > 500 then
      .rejected 400 "Personal context must be less than 500 characters"
    else
      .next
        { body with
          topic := some (if truthy body.topic then body.topic.getD "" else "general")
          personalContext :=
            some (if truthy body.personalContext then body.personalContext.getD "" else "") }

/-- A request body for Mumbai in 2030, without topic, whose personal context is `n` times
the letter `a`. -/
def exampleRequest (n : Nat) : StoryRequestBody :=
  { location := some "Mumbai", timeframe := some "2030", topic := none
    personalContext := some (String.mk (List.replicate n 'a')) }

/-- An entry of the array `generateTimeProgression` returns. -/
structure ProgressionEntry where
  year : ℚ
  temperature : ℚ
  precipitation : ℚ
  seaLevel : ℚ
  co2 : ℚ
deriving DecidableEq

/-- The object pushed by the loop body of `generateTimeProgression` at counter `i`. -/
def DataProcessor.progressionEntry (baseData : MockData) (startYear years : ℚ) (i : ℤ) :
    ProgressionEntry :=
  let year := startYear + i
  let progress : ℚ := (i : ℚ) / years
  { year := year
    temperature := baseData.temperature.current
      + (baseData.temperature.projected_2050 - baseData.temperature.current) * progress
    precipitation := baseData.precipitation.current
      + (baseData.precipitation.projected_2050 - baseData.precipitation.current) * progress
    seaLevel := baseData.seaLevel.current
      + (baseData.seaLevel.projected_2050 - baseData.seaLevel.current) * progress
    co2 := baseData.co2.current
      + (baseData.co2.projected_2050 - baseData.co2.current) * progress }

/-- The loop `for (let i = ...; i <= years; i += 5)` of `generateTimeProgression`, from the
counter value `i` on: the entries it pushes. The counter only takes the integer values
`0, 5, 10, ...`; the years are any numbers. -/
def DataProcessor.progressionLoop (baseData : MockData) (startYear years : ℚ) (i : ℤ) :
    List ProgressionEntry :=
  if (i : ℚ) ≤ years then
    DataProcessor.progressionEntry baseData startYear years i
      :: DataProcessor.progressionLoop baseData startYear years (i + 5)
  else []
termination_by (⌊years⌋ - i + 1).toNat
decreasing_by
  have h : i ≤ ⌊years⌋ := Int.le_floor.mpr (by assumption)
  omega

/-- The static method `DataProcessor.generateTimeProgression(baseData, startYear, endYear)`. -/
def DataProcessor.generateTimeProgression (baseData : MockData) (startYear endYear : ℚ) :
    List ProgressionEntry :=
  let years := endYear - startYear
  DataProcessor.progressionLoop baseData startYear years 0

/-! ## Rounding of JavaScript numbers, and the code that depends on it -/

/-- Rounding to the nearest integer, a tie going to the even neighbour. -/
def roundHalfEven (q : ℚ) : ℤ :=
  if q - ⌊q⌋ < 1 / 2 then ⌊q⌋
  else if 1 / 2 < q - ⌊q⌋ then ⌊q⌋ + 1
  else if ⌊q⌋ % 2 = 0 then ⌊q⌋ else ⌊q⌋ + 1

/-- The exponent of the unit in the last place of `x` in the binary format with `prec`
significand bits and least normal exponent `emin`: below `2 ^ emin` the spacing stays that of
the least binade (gradual underflow). -/
def ulpExponent (prec : Nat) (emin : ℤ) (x : ℚ) : ℤ :=
  max (Int.log 2 |x|) emin - ((prec : ℤ) - 1)

/-- IEEE 754 rounding to nearest, ties to even, into the binary format with `prec`
significand bits and least normal exponent `emin`. The exponent has no upper limit here: a
result beyond the largest finite number of the format, which the machine replaces by an
infinity, is out of the range of every value the statements below deal with. -/
def roundFloat (prec : Nat) (emin : ℤ) (x : ℚ) : ℚ :=
  roundHalfEven (x / 2 ^ ulpExponent prec emin x) * 2 ^ ulpExponent prec emin x

/-- Rounding to a JavaScript number (IEEE 754 binary64). -/
def binary64 (x : ℚ) : ℚ :=
  roundFloat 53 (-1022) x

/-- Rounding to an element of a `Float32Array` (IEEE 754 binary32), as `Math.fround`. -/
def binary32 (x : ℚ) : ℚ :=
  roundFloat 24 (-126) x

/-- How the machine rounds: `double` after each arithmetic operation on numbers and for each
decimal literal, `float32` when a number is stored into a `Float32Array`. -/
structure Rounding where
  double : ℚ → ℚ
  float32 : ℚ → ℚ

/-- No rounding: the exact arithmetic of the other definitions. -/
def Rounding.exact : Rounding :=
  { double := fun x => x, float32 := fun x => x }

/-- The rounding of JavaScript: binary64 arithmetic, binary32 storage. -/
def Rounding.ieee : Rounding :=
  { double := binary64, float32 := binary32 }

/-- The creation loop of `addPrecipitationEffect` with the rounding made explicit: each
entry is computed in numbers and stored into the `Float32Array`. -/
def fillPositionsWith (R : Rounding) (random : Nat → ℚ) (calls : Nat) : Nat → List ℚ
  | 0 => []
  | n + 1 =>
    R.float32 (R.double (R.double (random calls - 0.5) * 40))
      :: R.float32 (R.double (R.double (random (calls + 1) * 40) + 20))
      :: R.float32 (R.double (R.double (random (calls + 2) - 0.5) * 40))
      :: fillPositionsWith R random (calls + 3) n

/-- The loop body of the precipitation closure with the rounding made explicit:
`positions[i] -= 0.1` stores the rounded difference, the test reads the stored value. -/
def fallOneWith (R : Rounding) (y : ℚ) : ℚ :=
  if R.float32 (R.double (y - R.double 0.1)) < -20 then R.float32 40
  else R.float32 (R.double (y - R.double 0.1))

/-- The loop of the precipitation closure with the rounding made explicit. -/
def fallWith (R : Rounding) : List ℚ → List ℚ
  | x :: y :: z :: rest => x :: fallOneWith R y :: z :: fallWith R rest
  | [x, y] => [x, fallOneWith R y]
  | [x] => [x]
  | [] => []

/-- The statement `this.x += (v.x - this.x) * alpha` of `Vector3.lerp` on one coordinate, with
the rounding of each operation made explicit. -/
def lerpCoordinateWith (R : Rounding) (a t alpha : ℚ) : ℚ :=
  R.double (a + R.double (R.double (t - a) * alpha))

/-- The method `Vector3.lerp(v, alpha)` with the rounding made explicit. -/
def Vector3.lerpWith (R : Rounding) (p v : Vector3) (alpha : ℚ) : Vector3 :=
  { x := lerpCoordinateWith R p.x v.x alpha
    y := lerpCoordinateWith R p.y v.y alpha
    z := lerpCoordinateWith R p.z v.z alpha }

/-- The `targetPosition` of `updateStoryProgress` with the rounding made explicit;
`Math.PI`, `Math.sin` and `Math.cos` give numbers. -/
def cameraTargetWith (R : Rounding) (env : Env) (progress : ℚ) : Vector3 :=
  { x := R.double (R.double (env.sin (R.double (R.double (progress * R.double env.PI) * 2))) * 20)
    y := R.double (R.double (env.cos (R.double (progress * R.double env.PI))) * 10)
    z := R.double (25 + R.double (progress * 10)) }

/-- The method `updateStoryProgress(progress, climateData)` with the rounding of the camera
arithmetic made explicit; `0.05` is the number the literal denotes. -/
def updateStoryProgressWith (R : Rounding) (env : Env) (progress : ℚ)
    (climateData : Option ClimateData) (s : SceneManager) : Except String SceneManager :=
  (match climateData with
    | some d => updateGlobeVisuals env d s
    | none => .ok s).bind fun (s1 : SceneManager) =>
  match s1.camera with
  | none => .error "TypeError: this.camera is null"
  | some cam =>
    let cam1 : Camera :=
      { cam with
        position := cam.position.lerpWith R (cameraTargetWith R env progress) (R.double 0.05)
        lookAt := some ⟨0, 0, 0⟩ }
    let controls := s1.controls.map
      (fun (c : OrbitControls) =>
        { c with autoRotateSpeed := R.double (0.5 + R.double (progress * 2)) })
    .ok { s1 with camera := some cam1, controls := controls }

/-- Repeated calls `updateStoryProgress(progress, d)` with the same `progress`, one for each
entry `d` of the list, with the rounding made explicit. -/
def repeatStoryProgressWith (R : Rounding) (env : Env) (progress : ℚ) :
    List (Option ClimateData) → SceneManager → Except String SceneManager
  | [], s => .ok s
  | d :: ds, s =>
    (updateStoryProgressWith R env progress d s).bind (repeatStoryProgressWith R env progress ds)

/-- A finite JavaScript number: a binary64 number below `2 ^ 1024` in absolute value. -/
def IsDouble (x : ℚ) : Prop :=
  binary64 x = x ∧ |x| < 2 ^ 1024

/-- A vector of finite JavaScript numbers. -/
def Vector3.IsDouble (v : Vector3) : Prop :=
  SceneManagerModel.IsDouble v.x ∧ SceneManagerModel.IsDouble v.y ∧
    SceneManagerModel.IsDouble v.z

/-- The state `exampleScene` with the camera on the target of progress `0.5` in `x` and `y`
and at `30 - 2 ^ (-48)`, the number next below the target's `30`, in `z`. -/
def exampleNearTarget : SceneManager :=
  let position : Vector3 :=
    { x := (cameraTargetWith Rounding.ieee boundedEnv 0.5).x
      y := (cameraTargetWith Rounding.ieee boundedEnv 0.5).y
      z := 30 - 1 / 2 ^ 48 }
  let camera : Camera := { exampleCamera with position := position }
  { exampleScene with camera := some camera }

/-! ## The frame loop -/

/-- The frame-loop invariant: the handle in `animationId` is a real handle (not `0`) and its
callback is the only frame callback pending; the next handle the host hands out is not `0`.
The constructor establishes it and every frame callback keeps it. -/
def FrameInvariant (s : SceneManager) : Prop :=
  ∃ h, s.animationId = some h ∧ h ≠ 0 ∧ s.host.pendingFrames = [h] ∧ s.host.nextFrame ≠ 0

/-- The browser running the frame callbacks with the given handles, one after the other. -/
def runFrames (env : Env) : List Nat → SceneManager → Except String SceneManager
  | [], s => .ok s
  | handle :: rest, s => (runFrame env handle s).bind (runFrames env rest)

/-- The method `addPrecipitationEffect(intensity)` with the rounding made explicit: the
product `1000 * intensity` is rounded before `Math.floor`, and the buffer holds what the
`Float32Array` stores. -/
def addPrecipitationEffectWith (R : Rounding) (env : Env) (intensity : ℚ) (s : SceneManager) :
    Except String SceneManager :=
  let particleCount : ℤ := ⌊R.double (1000 * intensity)⌋
  if particleCount * 3 < 0 then .error "RangeError: invalid typed array length"
  else
    let positions := fillPositionsWith R env.random s.host.randomCalls particleCount.toNat
    let precipitation : Object3D :=
      { id := s.nextObj, isPoints := true
        geometry := .buffer positions false, geometryDisposed := false
        material :=
          { kind := .points 0.1, color := Color.ofHex 0x87ceeb, transparent := true
            opacity := 0.6, disposed := false }
        scale := ⟨1, 1, 1⟩, rotationX := 0, castShadow := false, receiveShadow := false
        userDataAnimate := none }
    let s1 : SceneManager :=
      { s with
        nextObj := s.nextObj + 1
        host := { s.host with randomCalls := s.host.randomCalls + 3 * particleCount.toNat } }
    match s1.sceneAdd precipitation.id with
    | .error e => .error e
    | .ok s2 => .ok { s2 with effects := s2.effects ++ [animatePrecipitation precipitation] }

/-- One call of the closure in `userData.animate` of `o` with the rounding made explicit. -/
def Object3D.runAnimateWith (R : Rounding) (env : Env) (o : Object3D) : Object3D :=
  match o.userDataAnimate with
  | none => o
  | some .precipitation =>
    match o.geometry with
    | .buffer array _ => { o with geometry := .buffer (fallWith R array) true }
    | _ => o
  | some (.waterLevel time intensity) =>
    let time1 := R.double (time + R.double 0.02)
    let scale1 :=
      R.double (1 + R.double (R.double (R.double (env.sin time1) * R.double 0.1) * intensity))
    { o with
      scale := { o.scale with x := scale1, z := scale1 }
      userDataAnimate := some (.waterLevel time1 intensity) }

/-- The environment `exampleEnv` with a random source that always returns `1 - 2 ^ (-30)`,
a number below `1`. -/
def exampleNearOneEnv : Env :=
  { exampleEnv with random := fun _ => 1 - 1 / 2 ^ 30 }

/-! # Theorems -/

/-! ## Lemmas on the effect constructors -/

theorem fillPositions_length (random : Nat → ℚ) (calls n : Nat) :
    (fillPositions random calls n).length = 3 * n := by
  induction n generalizing calls with
  | zero => simp [fillPositions]
  | succ n ih => simp [fillPositions, ih]; omega

theorem floor_nonneg_of_gt {p : ℚ} (hp : p > 0.3) : (0 : ℤ) ≤ ⌊1000 * p⌋ := by
  apply Int.floor_nonneg.mpr
  have : (0.3 : ℚ) = 3 / 10 := by norm_num
  rw [this] at hp
  linarith

theorem addPrecipitationEffect_added (env : Env) (p : ℚ) (s : SceneManager)
    (hscene : s.scene.isSome) (hp : 0 ≤ ⌊1000 * p⌋) :
    ∃ s' e, addPrecipitationEffect env p s = .ok s' ∧ Added s s' e ∧
      e.isPoints = true ∧ e.isSeaLevelRing = false ∧
      e.positions = fillPositions env.random s.host.randomCalls ⌊1000 * p⌋.toNat ∧
      e.userDataAnimate = some AnimateFn.precipitation := by
  have h3 : ¬ (⌊1000 * p⌋ * 3 < 0) := by omega
  obtain ⟨container, scene, camera, renderer, controls, animationId, globe, effects,
    isAnimating, nextObj, host⟩ := s
  cases scene with
  | none => simp at hscene
  | some sc =>
    simp only [addPrecipitationEffect, h3, SceneManager.sceneAdd, Added, animatePrecipitation,
      if_false]
    exact ⟨_, _, rfl, ⟨rfl, rfl, rfl, ⟨sc, rfl, rfl⟩, rfl⟩, rfl, rfl, rfl, rfl⟩

theorem addSeaLevelEffect_added (env : Env) (k : ℚ) (s : SceneManager)
    (hscene : s.scene.isSome) :
    ∃ s' e, addSeaLevelEffect env k s = .ok s' ∧ Added s s' e ∧
      e.isPoints = false ∧ e.isSeaLevelRing = true ∧
      e.userDataAnimate = some (AnimateFn.waterLevel 0 k) := by
  obtain ⟨container, scene, camera, renderer, controls, animationId, globe, effects,
    isAnimating, nextObj, host⟩ := s
  cases scene with
  | none => simp at hscene
  | some sc =>
    simp only [addSeaLevelEffect, SceneManager.sceneAdd, Added, animateWaterLevel]
    exact ⟨_, _, rfl, ⟨rfl, rfl, rfl, ⟨sc, rfl, rfl⟩, rfl⟩, rfl, rfl, rfl⟩

theorem addHeatHazeEffect_added (k : ℚ) (s : SceneManager) (hscene : s.scene.isSome) :
    ∃ s' e, addHeatHazeEffect k s = .ok s' ∧ Added s s' e ∧
      e.isPoints = false ∧ e.isSeaLevelRing = false ∧ e.material.opacity = k * 0.2 ∧
      e.userDataAnimate = none := by
  obtain ⟨container, scene, camera, renderer, controls, animationId, globe, effects,
    isAnimating, nextObj, host⟩ := s
  cases scene with
  | none => simp at hscene
  | some sc =>
    simp only [addHeatHazeEffect, SceneManager.sceneAdd, Added]
    exact ⟨_, _, rfl, ⟨rfl, rfl, rfl, ⟨sc, rfl, rfl⟩, rfl⟩, rfl, rfl, rfl, rfl⟩

theorem Added.scene_isSome_of_added {s s' : SceneManager} {e : Object3D} (h : Added s s' e) :
    s'.scene.isSome := by
  obtain ⟨_, _, _, ⟨sc, _, h'⟩, _⟩ := h
  simp [h']

theorem SameExceptEffects.refl (s : SceneManager) : SameExceptEffects s s := rfl

theorem SameExceptEffects.trans {a b c : SceneManager} (h1 : SameExceptEffects a b)
    (h2 : SameExceptEffects b c) : SameExceptEffects a c := by
  unfold SameExceptEffects at *
  rw [← h1, ← h2]

theorem SameExceptEffects.fields {s s' : SceneManager} (h : SameExceptEffects s s') :
    s'.container = s.container ∧ s'.camera = s.camera ∧ s'.renderer = s.renderer ∧
      s'.controls = s.controls ∧ s'.animationId = s.animationId ∧ s'.globe = s.globe ∧
      s'.isAnimating = s.isAnimating ∧ s'.host.log = s.host.log ∧
      s'.host.pendingFrames = s.host.pendingFrames ∧
      s'.host.resizeListeners = s.host.resizeListeners ∧
      s'.host.nextFn = s.host.nextFn := by
  unfold SameExceptEffects at h
  rw [← h]
  simp

theorem Step.sameExceptEffects {c : Prop} {P : Object3D → Prop} {a b : SceneManager}
    (h : Step c P a b) : SameExceptEffects a b := by
  rcases h with ⟨-, e, ⟨-, -, -, -, hsame⟩, -⟩ | ⟨-, rfl⟩
  · exact hsame
  · exact SameExceptEffects.refl _

theorem Step.scene_isSome_of_step {c : Prop} {P : Object3D → Prop} {a b : SceneManager}
    (h : Step c P a b) (ha : a.scene.isSome) : b.scene.isSome := by
  rcases h with ⟨-, e, hadd, -⟩ | ⟨-, rfl⟩
  · exact hadd.scene_isSome_of_added
  · exact ha

theorem updateGlobeEffects_chain (env : Env) (t p sl : ℚ) (s : SceneManager)
    (hscene : s.scene.isSome) :
    ∃ s1 s2 s3, updateGlobeEffects env t p sl s = .ok s3 ∧
      Step (p > 0.3) (fun e => e.isSeaLevelRing = false ∧ e.isPoints = true)
        (removeExistingEffects s) s1 ∧
      Step (sl > 0.2) (fun e => e.isSeaLevelRing = true) s1 s2 ∧
      Step (t > 0.6) (fun e => e.isSeaLevelRing = false ∧ e.isPoints = false) s2 s3 := by
  have h0 : (removeExistingEffects s).scene.isSome := by
    simpa [removeExistingEffects] using hscene
  obtain ⟨s1, hs1, hstep1, h1⟩ : ∃ s1,
      (if p > 0.3 then addPrecipitationEffect env p (removeExistingEffects s)
        else .ok (removeExistingEffects s)) = Except.ok s1 ∧
      Step (p > 0.3) (fun e => e.isSeaLevelRing = false ∧ e.isPoints = true)
        (removeExistingEffects s) s1 ∧ s1.scene.isSome := by
    by_cases hp : p > 0.3
    · obtain ⟨s1, e, hok, hadd, hpts, hring, -, -⟩ :=
        addPrecipitationEffect_added env p _ h0 (floor_nonneg_of_gt hp)
      exact ⟨s1, by simp [hp, hok], Or.inl ⟨hp, e, hadd, hring, hpts⟩, hadd.scene_isSome_of_added⟩
    · exact ⟨_, by simp [hp], Or.inr ⟨hp, rfl⟩, h0⟩
  obtain ⟨s2, hs2, hstep2, h2⟩ : ∃ s2,
      (if sl > 0.2 then addSeaLevelEffect env sl s1 else .ok s1) = Except.ok s2 ∧
      Step (sl > 0.2) (fun e => e.isSeaLevelRing = true) s1 s2 ∧ s2.scene.isSome := by
    by_cases hsl : sl > 0.2
    · obtain ⟨s2, e, hok, hadd, -, hring, -⟩ := addSeaLevelEffect_added env sl s1 h1
      exact ⟨s2, by simp [hsl, hok], Or.inl ⟨hsl, e, hadd, hring⟩, hadd.scene_isSome_of_added⟩
    · exact ⟨_, by simp [hsl], Or.inr ⟨hsl, rfl⟩, h1⟩
  obtain ⟨s3, hs3, hstep3⟩ : ∃ s3,
      (if t > 0.6 then addHeatHazeEffect t s2 else .ok s2) = Except.ok s3 ∧
      Step (t > 0.6) (fun e => e.isSeaLevelRing = false ∧ e.isPoints = false) s2 s3 := by
    by_cases ht : t > 0.6
    · obtain ⟨s3, e, hok, hadd, hpts, hring, -, -⟩ := addHeatHazeEffect_added t s2 h2
      exact ⟨s3, by simp [ht, hok], Or.inl ⟨ht, e, hadd, hring, hpts⟩⟩
    · exact ⟨_, by simp [ht], Or.inr ⟨ht, rfl⟩⟩
  refine ⟨s1, s2, s3, ?_, hstep1, hstep2, hstep3⟩
  simp only [updateGlobeEffects, hs1, hs2, hs3, Except.bind]

theorem Step.length_effects {c : Prop} [Decidable c] {P : Object3D → Prop}
    {a b : SceneManager} (h : Step c P a b) :
    b.effects.length = a.effects.length + (if c then 1 else 0) := by
  rcases h with ⟨hc, e, ⟨-, -, heff, -, -⟩, -⟩ | ⟨hc, rfl⟩
  · simp [heff, hc]
  · simp [hc]

theorem Step.freshFrom {c : Prop} {P : Object3D → Prop} {a b : SceneManager} {n : Nat}
    {base : List Nat} (h : Step c P a b) (ha : FreshFrom n base a) : FreshFrom n base b := by
  rcases h with ⟨-, e, ⟨hid, hnext, heff, ⟨sc, hsc, hsc'⟩, -⟩, -⟩ | ⟨-, rfl⟩
  · obtain ⟨hn, hE, hC⟩ := ha
    refine ⟨by omega, ?_, ?_⟩
    · intro e' he'
      rw [heff, List.mem_append, List.mem_singleton] at he'
      rcases he' with he' | rfl
      · exact hE e' he'
      · omega
    · intro sc' hsc'' c' hc'
      rw [hsc'] at hsc''
      cases hsc''
      simp only [Scene.add, List.mem_append, List.mem_singleton] at hc'
      rcases hc' with hc' | rfl
      · exact hC sc hsc c' (List.mem_of_mem_erase hc')
      · exact Or.inr hn
  · exact ha

theorem Step.ring_iff_of_not_ring {c : Prop} {P : Object3D → Prop} {a b : SceneManager}
    (h : Step c P a b) (hP : ∀ e, P e → e.isSeaLevelRing = false) :
    (∃ e ∈ b.effects, e.isSeaLevelRing = true) ↔ ∃ e ∈ a.effects, e.isSeaLevelRing = true := by
  rcases h with ⟨-, e, ⟨-, -, heff, -, -⟩, hPe⟩ | ⟨-, rfl⟩
  · have hne := hP e hPe
    rw [heff]
    constructor
    · rintro ⟨x, hx, hr⟩
      rcases List.mem_append.mp hx with hx | hx
      · exact ⟨x, hx, hr⟩
      · rw [List.mem_singleton.mp hx, hne] at hr
        cases hr
    · rintro ⟨x, hx, hr⟩
      exact ⟨x, List.mem_append_left _ hx, hr⟩
  · rfl

theorem Step.ring_iff_of_ring {c : Prop} {a b : SceneManager}
    (h : Step c (fun e => e.isSeaLevelRing = true) a b) :
    (∃ e ∈ b.effects, e.isSeaLevelRing = true) ↔
      (∃ e ∈ a.effects, e.isSeaLevelRing = true) ∨ c := by
  rcases h with ⟨hc, e, ⟨-, -, heff, -, -⟩, hPe⟩ | ⟨hc, rfl⟩
  · simp only [hc, or_true, iff_true]
    exact ⟨e, by simp [heff], hPe⟩
  · simp [hc]

theorem children_foldl_detachEffect (effects : List Object3D) (sc : Scene) :
    (effects.foldl detachEffect sc).children
      = effects.foldl (fun l e => l.erase e.id) sc.children := by
  induction effects generalizing sc with
  | nil => rfl
  | cons e rest ih =>
    simp only [List.foldl_cons]
    rw [ih]
    congr 1
    unfold detachEffect
    split
    · rfl
    · rename_i h
      exact (List.erase_of_not_mem h).symm

theorem foldl_erase_subset (effects : List Object3D) (l : List Nat) :
    ∀ c ∈ effects.foldl (fun l e => l.erase e.id) l, c ∈ l := by
  induction effects generalizing l with
  | nil => intro c hc; exact hc
  | cons e rest ih =>
    intro c hc
    exact List.mem_of_mem_erase (ih _ c hc)

theorem not_mem_foldl_erase (effects : List Object3D) (l : List Nat) (hl : l.Nodup)
    (e : Object3D) (he : e ∈ effects) :
    e.id ∉ effects.foldl (fun l e => l.erase e.id) l := by
  induction effects generalizing l with
  | nil => cases he
  | cons a rest ih =>
    simp only [List.foldl_cons]
    rcases List.mem_cons.mp he with rfl | hrest
    · intro hmem
      exact (List.Nodup.not_mem_erase hl) (foldl_erase_subset rest _ _ hmem)
    · exact ih _ (hl.erase _) hrest

/-- C1. After `updateGlobeEffects`, the effects list has one entry per intensity above its
threshold (`precipitation > 0.3`, `seaLevel > 0.2`, `temperature > 0.6`), so between 0 and 3,
and no effect of the list before the call is in the list or among the children of the scene
afterwards. Holds for every state with a scene whose children are distinct and whose effects
were allocated before the next free identity. -/
theorem updateGlobeEffects_replaces_effects (env : Env) (t p sl : ℚ) (s : SceneManager)
    (hscene : s.scene.isSome)
    (hnodup : ∀ sc, s.scene = some sc → sc.children.Nodup)
    (hfresh : ∀ e ∈ s.effects, e.id < s.nextObj) :
    ∃ s', updateGlobeEffects env t p sl s = .ok s' ∧
      s'.effects.length
        = (if p > 0.3 then 1 else 0) + (if sl > 0.2 then 1 else 0) + (if t > 0.6 then 1 else 0) ∧
      s'.effects.length ≤ 3 ∧
      ∀ e ∈ s.effects, e ∉ s'.effects ∧ (∀ e' ∈ s'.effects, e'.id ≠ e.id) ∧
        ∀ sc', s'.scene = some sc' → e.id ∉ sc'.children := by
  obtain ⟨s1, s2, s3, hok, h1, h2, h3⟩ := updateGlobeEffects_chain env t p sl s hscene
  obtain ⟨sc, hsc⟩ := Option.isSome_iff_exists.mp hscene
  have hlen : s3.effects.length
      = (if p > 0.3 then 1 else 0) + (if sl > 0.2 then 1 else 0) + (if t > 0.6 then 1 else 0) := by
    rw [h3.length_effects, h2.length_effects, h1.length_effects]
    simp [removeExistingEffects]
  have hbase : FreshFrom s.nextObj (s.effects.foldl (fun l e => l.erase e.id) sc.children)
      (removeExistingEffects s) := by
    refine ⟨le_refl _, by simp [removeExistingEffects], ?_⟩
    intro sc0 hsc0 c hc
    simp only [removeExistingEffects, hsc, Option.map_some', Option.some.injEq] at hsc0
    subst hsc0
    rw [children_foldl_detachEffect] at hc
    exact Or.inl hc
  obtain ⟨-, hE, hC⟩ := h3.freshFrom (h2.freshFrom (h1.freshFrom hbase))
  have hids : ∀ e ∈ s.effects, ∀ e' ∈ s3.effects, e'.id ≠ e.id := by
    intro e he e' he'
    have := hE e' he'
    have := hfresh e he
    omega
  refine ⟨s3, hok, hlen, ?_, ?_⟩
  · rw [hlen]
    split_ifs <;> simp
  · intro e he
    refine ⟨fun hmem => hids e he e hmem rfl, hids e he, ?_⟩
    intro sc' hsc' hmem
    rcases hC sc' hsc' _ hmem with hb | hge
    · exact not_mem_foldl_erase s.effects sc.children (hnodup sc hsc) e he hb
    · have := hfresh e he
      omega

/-- C2. For `p > 0.3` on a state with a scene, `addPrecipitationEffect p` completes and pushes
one `Points` effect whose particle count is `floor(1000 * p)` and whose position buffer has
`3 * floor(1000 * p)` entries; for `p = 0.5` the count is 500. -/
theorem addPrecipitationEffect_particleCount (env : Env) (p : ℚ) (s : SceneManager)
    (hscene : s.scene.isSome) (hp : p > 0.3) :
    ∃ s' e, addPrecipitationEffect env p s = .ok s' ∧ s'.effects = s.effects ++ [e] ∧
      e.isPoints = true ∧
      (e.particleCount : ℤ) = ⌊1000 * p⌋ ∧
      (e.positions.length : ℤ) = 3 * ⌊1000 * p⌋ ∧
      (p = 0.5 → e.particleCount = 500 ∧ e.positions.length = 1500) := by
  have hfl := floor_nonneg_of_gt hp
  obtain ⟨s', e, hok, ⟨-, -, heff, -, -⟩, hpts, -, hpos, -⟩ :=
    addPrecipitationEffect_added env p s hscene hfl
  have hlen : e.positions.length = 3 * ⌊1000 * p⌋.toNat := by
    rw [hpos, fillPositions_length]
  have hcount : e.particleCount = ⌊1000 * p⌋.toNat := by
    simp [Object3D.particleCount, hlen]
  refine ⟨s', e, hok, heff, hpts, ?_, ?_, ?_⟩
  · rw [hcount]
    exact Int.toNat_of_nonneg hfl
  · rw [hlen]
    push_cast
    rw [Int.toNat_of_nonneg hfl]
  · intro h5
    have hfloor : ⌊1000 * p⌋ = 500 := by
      rw [h5]
      norm_num
    rw [hcount, hlen, hfloor]
    simp

/-- C3. On a state with a scene, `updateGlobeEffects` leaves a sea-level ring among the effects
exactly when `seaLevel > 0.2`, whatever the temperature and precipitation intensities are:
`0.25` yields a ring, `0.1` and `0.2` yield none. -/
theorem updateGlobeEffects_seaLevelRing_iff (env : Env) (t p sl : ℚ) (s : SceneManager)
    (hscene : s.scene.isSome) :
    ∃ s', updateGlobeEffects env t p sl s = .ok s' ∧
      ((∃ e ∈ s'.effects, e.isSeaLevelRing = true) ↔ sl > 0.2) ∧
      (sl = 0.25 → ∃ e ∈ s'.effects, e.isSeaLevelRing = true) ∧
      (sl = 0.1 ∨ sl = 0.2 → ¬ ∃ e ∈ s'.effects, e.isSeaLevelRing = true) := by
  obtain ⟨s1, s2, s3, hok, h1, h2, h3⟩ := updateGlobeEffects_chain env t p sl s hscene
  have hiff : (∃ e ∈ s3.effects, e.isSeaLevelRing = true) ↔ sl > 0.2 := by
    rw [h3.ring_iff_of_not_ring (fun e he => he.1), h2.ring_iff_of_ring,
      h1.ring_iff_of_not_ring (fun e he => he.1)]
    simp [removeExistingEffects]
  refine ⟨s3, hok, hiff, ?_, ?_⟩
  · intro h
    rw [hiff, h]
    norm_num
  · intro h
    rw [hiff]
    rcases h with h | h <;> rw [h] <;> norm_num

theorem removeExistingEffects_same (s : SceneManager) :
    SameExceptEffects s (removeExistingEffects s) := rfl

theorem updateGlobeEffects_frame (env : Env) (t p sl : ℚ) (s : SceneManager)
    (hscene : s.scene.isSome) :
    ∃ s', updateGlobeEffects env t p sl s = .ok s' ∧ SameExceptEffects s s' ∧ s'.scene.isSome := by
  obtain ⟨s1, s2, s3, hok, h1, h2, h3⟩ := updateGlobeEffects_chain env t p sl s hscene
  have h0 : (removeExistingEffects s).scene.isSome := by
    simpa [removeExistingEffects] using hscene
  exact ⟨s3, hok,
    (((removeExistingEffects_same s).trans h1.sameExceptEffects).trans
      h2.sameExceptEffects).trans h3.sameExceptEffects,
    h3.scene_isSome_of_step (h2.scene_isSome_of_step (h1.scene_isSome_of_step h0))⟩

theorem updateGlobeVisuals_ok (env : Env) (d : ClimateData) (s : SceneManager) (globe : Object3D)
    (hglobe : s.globe = some globe) (hscene : s.scene.isSome) :
    ∃ s', updateGlobeVisuals env d s = .ok s' ∧ s'.scene.isSome ∧ s'.camera = s.camera ∧
      s'.controls = s.controls ∧
      s'.globe = some { globe with material := { globe.material with
        color := globe.material.color.lerp (targetColor d.temperatureIntensity) 0.1 } } := by
  simp only [updateGlobeVisuals, hglobe]
  obtain ⟨s', hok, hsame, hsc⟩ := updateGlobeEffects_frame env d.temperatureIntensity
    d.precipitationIntensity d.seaLevelIntensity
    { s with globe := some { globe with material := { globe.material with
        color := globe.material.color.lerp (targetColor d.temperatureIntensity) 0.1 } } }
    hscene
  obtain ⟨-, hcam, -, hctl, -, hgl, -⟩ := hsame.fields
  exact ⟨s', hok, hsc, hcam, hctl, hgl⟩

theorem updateGlobeVisuals_no_globe (env : Env) (d : ClimateData) (s : SceneManager)
    (hglobe : s.globe = none) : updateGlobeVisuals env d s = .ok s := by
  simp only [updateGlobeVisuals, hglobe]

theorem updateStoryProgress_ok (env : Env) (p : ℚ) (d : Option ClimateData) (s : SceneManager)
    (cam : Camera) (hcam : s.camera = some cam) (hscene : s.scene.isSome) :
    ∃ s', updateStoryProgress env p d s = .ok s' ∧ s'.scene.isSome ∧
      s'.camera = some { cam with
        position := cam.position.lerp (cameraTarget env p) 0.05, lookAt := some ⟨0, 0, 0⟩ } ∧
      s'.controls = s.controls.map
        (fun (c : OrbitControls) => { c with autoRotateSpeed := 0.5 + p * 2 }) := by
  have tail : ∀ s1 : SceneManager, s1.scene.isSome → s1.camera = some cam →
      s1.controls = s.controls →
      ∃ s', (Except.ok s1 : Except String SceneManager).bind (fun (s1 : SceneManager) =>
          match s1.camera with
          | none => .error "TypeError: this.camera is null"
          | some cam =>
            let cam1 : Camera :=
              { cam with
                position := cam.position.lerp (cameraTarget env p) 0.05
                lookAt := some ⟨0, 0, 0⟩ }
            let controls := s1.controls.map
              (fun (c : OrbitControls) => { c with autoRotateSpeed := 0.5 + p * 2 })
            .ok { s1 with camera := some cam1, controls := controls }) = .ok s' ∧
        s'.scene.isSome ∧
        s'.camera = some { cam with
          position := cam.position.lerp (cameraTarget env p) 0.05, lookAt := some ⟨0, 0, 0⟩ } ∧
        s'.controls = s.controls.map
          (fun (c : OrbitControls) => { c with autoRotateSpeed := 0.5 + p * 2 }) := by
    intro s1 hsc1 hcam1 hctl1
    simp only [Except.bind, hcam1]
    exact ⟨_, rfl, hsc1, rfl, by rw [hctl1]⟩
  cases d with
  | none => exact tail s hscene hcam rfl
  | some d =>
    cases hg : s.globe with
    | none =>
      simp only [updateStoryProgress, updateGlobeVisuals_no_globe env d s hg]
      exact tail s hscene hcam rfl
    | some globe =>
      obtain ⟨s1, hok, hsc, hc, hctl, -⟩ := updateGlobeVisuals_ok env d s globe hg hscene
      simp only [updateStoryProgress, hok]
      exact tail s1 hsc (hc.trans hcam) hctl

theorem Vector3.distanceToSquared_nonneg (p v : Vector3) : 0 ≤ p.distanceToSquared v := by
  unfold Vector3.distanceToSquared
  exact add_nonneg (add_nonneg (mul_self_nonneg _) (mul_self_nonneg _)) (mul_self_nonneg _)

theorem Vector3.distanceToSquared_eq_zero_iff (p v : Vector3) :
    p.distanceToSquared v = 0 ↔ p = v := by
  constructor
  · intro h
    unfold Vector3.distanceToSquared at h
    have hx : p.x - v.x = 0 := by
      nlinarith [mul_self_nonneg (p.x - v.x), mul_self_nonneg (p.y - v.y),
        mul_self_nonneg (p.z - v.z)]
    have hy : p.y - v.y = 0 := by
      nlinarith [mul_self_nonneg (p.x - v.x), mul_self_nonneg (p.y - v.y),
        mul_self_nonneg (p.z - v.z)]
    have hz : p.z - v.z = 0 := by
      nlinarith [mul_self_nonneg (p.x - v.x), mul_self_nonneg (p.y - v.y),
        mul_self_nonneg (p.z - v.z)]
    cases p; cases v
    simp only [Vector3.mk.injEq]
    simp only at hx hy hz
    exact ⟨by linarith, by linarith, by linarith⟩
  · rintro rfl
    simp [Vector3.distanceToSquared]

theorem Vector3.distanceToSquared_lerp (p v : Vector3) :
    (p.lerp v 0.05).distanceToSquared v = 0.95 ^ 2 * p.distanceToSquared v := by
  simp only [Vector3.lerp, Vector3.distanceToSquared]
  norm_num
  ring

theorem Vector3.sqrt_distanceToSquared_lerp (p v : Vector3) :
    Real.sqrt (((p.lerp v 0.05).distanceToSquared v : ℚ) : ℝ)
      = 0.95 * Real.sqrt ((p.distanceToSquared v : ℚ) : ℝ) := by
  rw [Vector3.distanceToSquared_lerp]
  push_cast
  rw [Real.sqrt_mul (by positivity), Real.sqrt_sq (by norm_num)]

theorem Vector3.lerp_eq_iff (p v : Vector3) : p.lerp v 0.05 = v ↔ p = v := by
  rw [← Vector3.distanceToSquared_eq_zero_iff, Vector3.distanceToSquared_lerp,
    ← Vector3.distanceToSquared_eq_zero_iff p v]
  constructor
  · intro h
    rcases mul_eq_zero.mp h with h | h
    · norm_num at h
    · exact h
  · intro h
    rw [h, mul_zero]

theorem targetColor_one : targetColor 1 = Color.ofHex 0xff4500 := by
  have h : (1 : ℚ) > 0.5 := by norm_num
  simp [targetColor, h, Color.lerp]

theorem repeatStoryProgress_ok (env : Env) (p : ℚ) (ds : List (Option ClimateData))
    (s : SceneManager) (cam : Camera) (hcam : s.camera = some cam) (hscene : s.scene.isSome) :
    ∃ sn camn, repeatStoryProgress env p ds s = .ok sn ∧ sn.camera = some camn ∧
      sn.scene.isSome ∧
      camn.position.distanceToSquared (cameraTarget env p)
        = (0.95 ^ 2) ^ ds.length * cam.position.distanceToSquared (cameraTarget env p) := by
  induction ds generalizing s cam with
  | nil => exact ⟨s, cam, rfl, hcam, hscene, by simp⟩
  | cons d ds ih =>
    obtain ⟨s1, hok, hsc1, hcam1, -⟩ := updateStoryProgress_ok env p d s cam hcam hscene
    obtain ⟨sn, camn, hrun, hcamn, hscn, hdist⟩ := ih s1 _ hcam1 hsc1
    refine ⟨sn, camn, ?_, hcamn, hscn, ?_⟩
    · simp only [repeatStoryProgress, hok, Except.bind]
      exact hrun
    · rw [hdist]
      simp only [Vector3.distanceToSquared_lerp, List.length_cons, pow_succ]
      ring

/-- C4. With `temperatureIntensity = 1`, on a state with a globe of colour `c` and a scene, one
`updateGlobeVisuals` call sets each channel of the globe colour to `c + 0.1 * (hot - c)`, where
`hot` is the colour `0xff4500`: one tenth of the way, and the new colour is `hot` only when `c`
already was. -/
theorem updateGlobeVisuals_hot_tenth (env : Env) (d : ClimateData) (s : SceneManager)
    (globe : Object3D) (hglobe : s.globe = some globe) (hscene : s.scene.isSome)
    (ht : d.temperatureIntensity = 1) :
    ∃ s' globe', updateGlobeVisuals env d s = .ok s' ∧ s'.globe = some globe' ∧
      globe'.material.color.r
        = globe.material.color.r + 0.1 * ((Color.ofHex 0xff4500).r - globe.material.color.r) ∧
      globe'.material.color.g
        = globe.material.color.g + 0.1 * ((Color.ofHex 0xff4500).g - globe.material.color.g) ∧
      globe'.material.color.b
        = globe.material.color.b + 0.1 * ((Color.ofHex 0xff4500).b - globe.material.color.b) ∧
      (globe'.material.color = Color.ofHex 0xff4500
        ↔ globe.material.color = Color.ofHex 0xff4500) := by
  obtain ⟨s', hok, -, -, -, hgl⟩ := updateGlobeVisuals_ok env d s globe hglobe hscene
  rw [ht, targetColor_one] at hgl
  refine ⟨s', _, hok, hgl, ?_, ?_, ?_, ?_⟩
  · simp only [Color.lerp]; ring
  · simp only [Color.lerp]; ring
  · simp only [Color.lerp]; ring
  · generalize Color.ofHex 0xff4500 = hot
    generalize globe.material.color = c
    obtain ⟨cr, cg, cb⟩ := c
    obtain ⟨hr, hg, hb⟩ := hot
    simp only [Color.lerp, Color.mk.injEq]
    constructor
    · rintro ⟨h1, h2, h3⟩
      refine ⟨?_, ?_, ?_⟩ <;> norm_num at h1 h2 h3 <;> linarith
    · rintro ⟨rfl, rfl, rfl⟩
      simp

/-- C5, as the code has it. The colour `updateGlobeVisuals` blends the globe toward is,
per channel, `hot + (1 - t) * (base - hot)` when `t > 0.5` and `cold + t * (base - cold)`
otherwise, where `base` is `0x228B22`, `hot` is `0xff4500` and `cold` is `0x4169e1`; one call
moves the globe colour one tenth of the way to it. At `t = 0` it is `cold`, at `t = 1` it is
`hot`. -/
theorem updateGlobeVisuals_target (env : Env) (d : ClimateData) (s : SceneManager)
    (globe : Object3D) (hglobe : s.globe = some globe) (hscene : s.scene.isSome) :
    let t := d.temperatureIntensity
    let base := Color.ofHex 0x228B22
    let hot := Color.ofHex 0xff4500
    let cold := Color.ofHex 0x4169e1
    (∃ s' globe', updateGlobeVisuals env d s = .ok s' ∧ s'.globe = some globe' ∧
      globe'.material.color = globe.material.color.lerp (targetColor t) 0.1) ∧
    (t > 0.5 → targetColor t =
      ⟨hot.r + (1 - t) * (base.r - hot.r), hot.g + (1 - t) * (base.g - hot.g),
        hot.b + (1 - t) * (base.b - hot.b)⟩) ∧
    (¬ t > 0.5 → targetColor t =
      ⟨cold.r + t * (base.r - cold.r), cold.g + t * (base.g - cold.g),
        cold.b + t * (base.b - cold.b)⟩) ∧
    targetColor 0 = cold ∧ targetColor 1 = hot := by
  intro t base hot cold
  refine ⟨?_, ?_, ?_, ?_, targetColor_one⟩
  · obtain ⟨s', hok, -, -, -, hgl⟩ := updateGlobeVisuals_ok env d s globe hglobe hscene
    exact ⟨s', _, hok, hgl, rfl⟩
  · intro h
    simp only [targetColor, h, if_true, Color.lerp, Color.mk.injEq]
    refine ⟨?_, ?_, ?_⟩ <;> ring
  · intro h
    simp only [targetColor, h, if_false, Color.lerp, Color.mk.injEq]
    refine ⟨?_, ?_, ?_⟩ <;> ring
  · have h : ¬ (0 : ℚ) > 0.5 := by norm_num
    simp [targetColor, h, Color.lerp]

/-- C5 as stated fails: at `t = 1/2` the target colour of the code is not the interpolation
between the cold and the hot colour with factor `t`; its red channel is `33/170`, the claimed
one `32/51`. -/
theorem targetColor_not_cold_hot_lerp :
    (0 : ℚ) ≤ 1 / 2 ∧ (1 / 2 : ℚ) ≤ 1 ∧
    (targetColor (1 / 2)).r = 33 / 170 ∧
    (Color.ofHex 0x4169e1).r + 1 / 2 * ((Color.ofHex 0xff4500).r - (Color.ofHex 0x4169e1).r)
      = 32 / 51 ∧
    targetColor (1 / 2) ≠
      ⟨(Color.ofHex 0x4169e1).r + 1 / 2 * ((Color.ofHex 0xff4500).r - (Color.ofHex 0x4169e1).r),
        (Color.ofHex 0x4169e1).g + 1 / 2 * ((Color.ofHex 0xff4500).g - (Color.ofHex 0x4169e1).g),
        (Color.ofHex 0x4169e1).b
          + 1 / 2 * ((Color.ofHex 0xff4500).b - (Color.ofHex 0x4169e1).b)⟩ := by
  have h : ¬ (1 / 2 : ℚ) > 0.5 := by norm_num
  refine ⟨by norm_num, by norm_num, ?_, ?_, ?_⟩
  · simp only [targetColor, h, if_false, Color.lerp, Color.ofHex]
    norm_num
  · simp only [Color.ofHex]
    norm_num
  · simp only [targetColor, h, if_false, Color.lerp, Color.ofHex, ne_eq, Color.mk.injEq]
    norm_num

/-- The camera step of `updateStoryProgress` in exact arithmetic. On a state with a camera at
`P` and a scene, one `updateStoryProgress(p, d)` call moves the camera to
`P + 0.05 * (T - P)` with `T = cameraTarget p`, so the distance to `T` becomes exactly `0.95`
times what it was: it shrinks strictly when `P ≠ T`, and the camera is on `T` afterwards only
when it was before. After `n` such calls (with any climate data) the distance is `0.95 ^ n`
times the initial one. With the rounding of JavaScript numbers only part of this holds, see
`updateStoryProgressWith`. -/
theorem updateStoryProgress_camera_lerp (env : Env) (p : ℚ) (d : Option ClimateData)
    (ds : List (Option ClimateData)) (s : SceneManager) (cam : Camera)
    (hcam : s.camera = some cam) (hscene : s.scene.isSome) :
    let T := cameraTarget env p
    let P := cam.position
    (∃ s' cam', updateStoryProgress env p d s = .ok s' ∧ s'.camera = some cam' ∧
      cam'.position
        = ⟨P.x + 0.05 * (T.x - P.x), P.y + 0.05 * (T.y - P.y), P.z + 0.05 * (T.z - P.z)⟩ ∧
      Real.sqrt ((cam'.position.distanceToSquared T : ℚ) : ℝ)
        = 0.95 * Real.sqrt ((P.distanceToSquared T : ℚ) : ℝ) ∧
      Real.sqrt ((cam'.position.distanceToSquared T : ℚ) : ℝ)
        ≤ Real.sqrt ((P.distanceToSquared T : ℚ) : ℝ) ∧
      (P ≠ T → Real.sqrt ((cam'.position.distanceToSquared T : ℚ) : ℝ)
        < Real.sqrt ((P.distanceToSquared T : ℚ) : ℝ)) ∧
      (cam'.position = T ↔ P = T)) ∧
    (∃ sn camn sm camm, repeatStoryProgress env p ds s = .ok sn ∧ sn.camera = some camn ∧
      updateStoryProgress env p d sn = .ok sm ∧ sm.camera = some camm ∧
      Real.sqrt ((camn.position.distanceToSquared T : ℚ) : ℝ)
        = 0.95 ^ ds.length * Real.sqrt ((P.distanceToSquared T : ℚ) : ℝ) ∧
      Real.sqrt ((camm.position.distanceToSquared T : ℚ) : ℝ)
        = 0.95 * Real.sqrt ((camn.position.distanceToSquared T : ℚ) : ℝ) ∧
      Real.sqrt ((camm.position.distanceToSquared T : ℚ) : ℝ)
        ≤ Real.sqrt ((camn.position.distanceToSquared T : ℚ) : ℝ) ∧
      (P ≠ T → Real.sqrt ((camm.position.distanceToSquared T : ℚ) : ℝ)
        < Real.sqrt ((camn.position.distanceToSquared T : ℚ) : ℝ))) := by
  intro T P
  have step : ∀ (s0 : SceneManager) (cam0 : Camera), s0.camera = some cam0 → s0.scene.isSome →
      ∃ s' cam', updateStoryProgress env p d s0 = .ok s' ∧ s'.camera = some cam' ∧
        cam'.position = cam0.position.lerp T 0.05 ∧
        Real.sqrt ((cam'.position.distanceToSquared T : ℚ) : ℝ)
          = 0.95 * Real.sqrt ((cam0.position.distanceToSquared T : ℚ) : ℝ) ∧
        Real.sqrt ((cam'.position.distanceToSquared T : ℚ) : ℝ)
          ≤ Real.sqrt ((cam0.position.distanceToSquared T : ℚ) : ℝ) ∧
        (cam0.position ≠ T → Real.sqrt ((cam'.position.distanceToSquared T : ℚ) : ℝ)
          < Real.sqrt ((cam0.position.distanceToSquared T : ℚ) : ℝ)) := by
    intro s0 cam0 h0 hsc0
    obtain ⟨s', hok, -, hcam', -⟩ := updateStoryProgress_ok env p d s0 cam0 h0 hsc0
    have hsqrt := Vector3.sqrt_distanceToSquared_lerp cam0.position T
    have hnn : 0 ≤ Real.sqrt ((cam0.position.distanceToSquared T : ℚ) : ℝ) := Real.sqrt_nonneg _
    refine ⟨s', _, hok, hcam', rfl, hsqrt, ?_, ?_⟩
    · show Real.sqrt (((cam0.position.lerp T 0.05).distanceToSquared T : ℚ) : ℝ) ≤ _
      rw [hsqrt]
      linarith
    · intro hne
      show Real.sqrt (((cam0.position.lerp T 0.05).distanceToSquared T : ℚ) : ℝ) < _
      rw [hsqrt]
      have hpos : 0 < Real.sqrt ((cam0.position.distanceToSquared T : ℚ) : ℝ) := by
        apply Real.sqrt_pos.mpr
        have h1 := Vector3.distanceToSquared_nonneg cam0.position T
        have h2 : cam0.position.distanceToSquared T ≠ 0 :=
          fun h => hne ((Vector3.distanceToSquared_eq_zero_iff _ _).mp h)
        exact_mod_cast lt_of_le_of_ne h1 (Ne.symm h2)
      linarith
  constructor
  · obtain ⟨s', cam', hok, hcam', hpos, h1, h2, h3⟩ := step s cam hcam hscene
    refine ⟨s', cam', hok, hcam', ?_, h1, h2, h3, ?_⟩
    · rw [hpos]
      simp only [Vector3.lerp, Vector3.mk.injEq]
      refine ⟨?_, ?_, ?_⟩ <;> ring
    · rw [hpos]
      exact Vector3.lerp_eq_iff P T
  · obtain ⟨sn, camn, hrun, hcamn, hscn, hdist⟩ := repeatStoryProgress_ok env p ds s cam hcam hscene
    obtain ⟨sm, camm, hok, hcamm, -, h1, h2, h3⟩ := step sn camn hcamn hscn
    refine ⟨sn, camn, sm, camm, hrun, hcamn, hok, hcamm, ?_, h1, h2, ?_⟩
    · rw [hdist]
      push_cast
      rw [Real.sqrt_mul (by positivity), ← pow_mul, mul_comm 2, pow_mul,
        Real.sqrt_sq (by positivity)]
    · intro hne
      apply h3
      intro hcontra
      have hz : camn.position.distanceToSquared T = 0 :=
        (Vector3.distanceToSquared_eq_zero_iff _ _).mpr hcontra
      rw [hdist] at hz
      rcases mul_eq_zero.mp hz with hz | hz
      · exact absurd hz (by positivity)
      · exact hne ((Vector3.distanceToSquared_eq_zero_iff _ _).mp hz)

theorem animateEffects_fst (env : Env) (effects : List Object3D) :
    (animateEffects env effects).1 = effects.map (fun e => e.runAnimate env) := by
  induction effects with
  | nil => rfl
  | cons e rest ih =>
    simp only [animateEffects, List.map_cons]
    cases h : e.userDataAnimate with
    | none => simp [ih, Object3D.runAnimate, h]
    | some f => simp [ih]

theorem animateEffects_snd (env : Env) (effects : List Object3D) :
    (animateEffects env effects).2
      = (effects.filter (fun e => e.userDataAnimate.isSome)).map
          (fun e => Call.userDataAnimate e.id) := by
  induction effects with
  | nil => rfl
  | cons e rest ih =>
    simp only [animateEffects]
    cases h : e.userDataAnimate with
    | none => simp [ih, h]
    | some f => simp [ih, h]

theorem animateEffects_animated (env : Env) (effects : List Object3D) :
    (animateEffects env effects).2.filterMap Call.animated
      = (effects.filter (fun e => e.userDataAnimate.isSome)).map (fun e => e.id) := by
  rw [animateEffects_snd, List.filterMap_map]
  induction effects.filter (fun e => e.userDataAnimate.isSome) with
  | nil => rfl
  | cons e rest ih => simp [Call.animated, ih]

theorem animateEffects_render_count (env : Env) (effects : List Object3D) :
    (animateEffects env effects).2.count Call.render = 0 := by
  rw [animateEffects_snd]
  apply List.count_eq_zero.mpr
  intro h
  obtain ⟨e, -, he⟩ := List.mem_map.mp h
  cases he

/-- The calls `animate` logs before it reaches the render statement. -/
theorem animate_log (env : Env) (s : SceneManager) :
    ∃ s', animate env s = .ok s' ∧
      s'.effects = s.effects.map (fun e => e.runAnimate env) ∧
      s'.animationId = some s.host.nextFrame ∧
      s'.host.pendingFrames = s.host.pendingFrames ++ [s.host.nextFrame] ∧
      s'.globe = s.globe ∧
      s'.renderer = (if s.scene.isSome ∧ s.camera.isSome
        then s.renderer.map (fun rd => { rd with frame := rd.frame + 1 }) else s.renderer) ∧
      s'.host.log = s.host.log ++
        ([Call.requestAnimationFrame s.host.nextFrame]
          ++ (if s.controls.isSome then [Call.controlsUpdate] else [])
          ++ (animateEffects env s.effects).2
          ++ (if s.renderer.isSome ∧ s.scene.isSome ∧ s.camera.isSome
                then [Call.render] else [])) := by
  cases hctl : s.controls <;> cases hr : s.renderer <;> cases hs : s.scene <;>
    cases hc : s.camera <;>
    simp [animate, hctl, hr, hs, hc, SceneManager.call, animateEffects_fst]

/-- C7. On a state whose renderer, scene and camera are set, one `animate` completes, logs
exactly one `render` call and calls the `userData.animate` closure of each effect that has one
exactly once, in order (the other effects are left as they are). With no effects and a globe
present it still completes and logs exactly one `render` call and no closure call. -/
theorem animate_renders_once (env : Env) (s : SceneManager)
    (hr : s.renderer.isSome) (hs : s.scene.isSome) (hc : s.camera.isSome) :
    ∃ s' calls, animate env s = .ok s' ∧ s'.host.log = s.host.log ++ calls ∧
      calls.count Call.render = 1 ∧
      calls.filterMap Call.animated
        = (s.effects.filter (fun e => e.userDataAnimate.isSome)).map (fun e => e.id) ∧
      s'.effects = s.effects.map (fun e => e.runAnimate env) ∧
      (∀ e ∈ s.effects, e.userDataAnimate = none → e.runAnimate env = e) ∧
      (s.effects = [] → s.globe.isSome →
        calls.count Call.render = 1 ∧ calls.filterMap Call.animated = [] ∧ s'.effects = []) := by
  obtain ⟨s', hok, heff, -, -, -, -, hlog⟩ := animate_log env s
  have hcount : ([Call.requestAnimationFrame s.host.nextFrame]
          ++ (if s.controls.isSome then [Call.controlsUpdate] else [])
          ++ (animateEffects env s.effects).2
          ++ (if s.renderer.isSome ∧ s.scene.isSome ∧ s.camera.isSome
                then [Call.render] else [])).count Call.render = 1 := by
    simp only [hr, hs, hc, and_self, if_true, List.count_append, animateEffects_render_count]
    split <;> simp
  have hanim : ([Call.requestAnimationFrame s.host.nextFrame]
          ++ (if s.controls.isSome then [Call.controlsUpdate] else [])
          ++ (animateEffects env s.effects).2
          ++ (if s.renderer.isSome ∧ s.scene.isSome ∧ s.camera.isSome
                then [Call.render] else [])).filterMap Call.animated
        = (s.effects.filter (fun e => e.userDataAnimate.isSome)).map (fun e => e.id) := by
    simp only [hr, hs, hc, and_self, if_true, List.filterMap_append, animateEffects_animated]
    split <;> simp [Call.animated]
  refine ⟨s', _, hok, hlog, hcount, hanim, heff, ?_, ?_⟩
  · intro e _ hnone
    simp [Object3D.runAnimate, hnone]
  · intro hnil _
    refine ⟨hcount, ?_, ?_⟩
    · rw [hanim, hnil]
      rfl
    · rw [heff, hnil]
      rfl

/-- C8. On a state whose renderer is `null`, one `animate` completes and logs no `render`
call, whatever the effects are; the renderer is still `null` afterwards. -/
theorem animate_without_renderer (env : Env) (s : SceneManager) (hr : s.renderer = none) :
    ∃ s' calls, animate env s = .ok s' ∧ s'.host.log = s.host.log ++ calls ∧
      Call.render ∉ calls ∧ calls.count Call.render = 0 ∧ s'.renderer = none := by
  obtain ⟨s', hok, -, -, -, -, hrd, hlog⟩ := animate_log env s
  have hcount : ([Call.requestAnimationFrame s.host.nextFrame]
          ++ (if s.controls.isSome then [Call.controlsUpdate] else [])
          ++ (animateEffects env s.effects).2
          ++ (if s.renderer.isSome ∧ s.scene.isSome ∧ s.camera.isSome
                then [Call.render] else [])).count Call.render = 0 := by
    simp only [hr, Option.isSome_none, Bool.false_eq_true, false_and, if_false,
      List.count_append, animateEffects_render_count]
    split <;> simp
  refine ⟨s', _, hok, hlog, List.count_eq_zero.mp hcount, hcount, ?_⟩
  rw [hrd, hr]
  simp

theorem disposeEffects_fst (effects : List Object3D) :
    (disposeEffects effects).1 = effects.map Object3D.disposeResources := by
  induction effects with
  | nil => rfl
  | cons e rest ih => simp [disposeEffects, ih]

theorem Object3D.disposeResources_idem (o : Object3D) :
    o.disposeResources.disposeResources = o.disposeResources := rfl

/-- What `dispose` does to each part of the state. -/
theorem dispose_fields (s : SceneManager) :
    ∃ s', dispose s = .ok s' ∧
      s'.effects = s.effects.map Object3D.disposeResources ∧
      s'.globe = s.globe.map Object3D.disposeResources ∧
      s'.renderer = s.renderer.map
        (fun rd => { rd with disposed := true, domElementAttached := false }) ∧
      s'.host.pendingFrames
        = s.host.pendingFrames.filter (fun h => ¬ (s.animationId = some h ∧ h ≠ 0)) ∧
      s'.host.resizeListeners = s.host.resizeListeners.erase s.host.nextFn ∧
      s'.host.nextFn = s.host.nextFn + 1 ∧
      s'.host.resizeObservers = s.host.resizeObservers ∧
      s'.animationId = s.animationId ∧ s'.scene = s.scene ∧ s'.camera = s.camera ∧
      s'.controls = s.controls ∧ s'.container = s.container ∧ s'.nextObj = s.nextObj ∧
      s'.isAnimating = s.isAnimating := by
  cases ha : s.animationId with
  | none =>
    cases hg : s.globe <;> cases hr : s.renderer <;>
      simp [dispose, ha, hg, hr, SceneManager.call, disposeEffects_fst]
  | some handle =>
    by_cases h0 : handle = 0
    · subst h0
      have hz : s.host.pendingFrames
          = s.host.pendingFrames.filter (fun h => !decide (0 = h) || decide (h = 0)) := by
        symm
        apply List.filter_eq_self.mpr
        intro x _
        by_cases hx : x = 0
        · simp [hx]
        · simp [hx, Ne.symm hx]
      cases hg : s.globe <;> cases hr : s.renderer <;>
        simp [dispose, ha, hg, hr, SceneManager.call, disposeEffects_fst] <;> exact hz
    · have hf : s.host.pendingFrames.filter (fun h => !decide (h = handle))
          = s.host.pendingFrames.filter (fun h => !decide (handle = h) || decide (h = 0)) := by
        apply List.filter_congr
        intro x _
        by_cases hx : x = handle
        · subst hx; simp [h0]
        · simp [hx, Ne.symm hx]
      cases hg : s.globe <;> cases hr : s.renderer <;>
        simp [dispose, ha, hg, hr, h0, cancelAnimationFrame, SceneManager.call,
          disposeEffects_fst] <;> exact hf

/-- C9. For every state whose registered `resize` listeners were made before the next function
identity, two `dispose` calls in a row both complete, and the second leaves the pending frames,
the effects, the renderer with its canvas attachment, the `resize` listeners and observers
and every other part of the state as the first left them; only the call log and the next
function identity move on. -/
theorem dispose_idempotent (s : SceneManager)
    (hfn : ∀ f ∈ s.host.resizeListeners, f < s.host.nextFn) :
    ∃ s1 s2, dispose s = .ok s1 ∧ dispose s1 = .ok s2 ∧
      s2.host.pendingFrames = s1.host.pendingFrames ∧
      s2.animationId = s1.animationId ∧
      s2.effects = s1.effects ∧
      s2.renderer = s1.renderer ∧
      s2.host.resizeListeners = s1.host.resizeListeners ∧
      s2.host.resizeObservers = s1.host.resizeObservers ∧
      s2.globe = s1.globe ∧ s2.scene = s1.scene ∧ s2.camera = s1.camera ∧
      s2.controls = s1.controls ∧ s2.container = s1.container := by
  obtain ⟨s1, hok1, heff1, hgl1, hrd1, hpf1, hrl1, hfn1, hro1, hid1, hsc1, hcam1, hctl1, hcont1,
    -, -⟩ := dispose_fields s
  obtain ⟨s2, hok2, heff2, hgl2, hrd2, hpf2, hrl2, -, hro2, hid2, hsc2, hcam2, hctl2, hcont2,
    -, -⟩ := dispose_fields s1
  refine ⟨s1, s2, hok1, hok2, ?_, hid2, ?_, ?_, ?_, hro2, ?_, hsc2, hcam2, hctl2, hcont2⟩
  · rw [hpf2, hpf1, hid1, List.filter_filter]
    simp
  · rw [heff2, heff1, List.map_map]
    rfl
  · rw [hrd2, hrd1, Option.map_map]
    rfl
  · rw [hrl2]
    apply List.erase_of_not_mem
    intro hmem
    rw [hrl1] at hmem
    have := hfn _ (List.mem_of_mem_erase hmem)
    omega
  · rw [hgl2, hgl1, Option.map_map]
    rfl

/-- C10, as the code has it. After `dispose()` the effects list is as long as before:
`getSceneState().effectCount` is unchanged, so it is zero exactly when there was no effect
before the call. Every effect in the list has had its geometry and its material disposed. -/
theorem dispose_keeps_effectCount (s : SceneManager) :
    ∃ s', dispose s = .ok s' ∧
      (getSceneState s').effectCount = (getSceneState s).effectCount ∧
      ((getSceneState s').effectCount = 0 ↔ s.effects = []) ∧
      s'.effects.map (fun e => e.id) = s.effects.map (fun e => e.id) ∧
      ∀ e ∈ s'.effects, e.geometryDisposed = true ∧ e.material.disposed = true := by
  obtain ⟨s', hok, heff, -⟩ := dispose_fields s
  refine ⟨s', hok, ?_, ?_, ?_, ?_⟩
  · simp [getSceneState, heff]
  · simp [getSceneState, heff]
  · rw [heff, List.map_map]
    rfl
  · intro e he
    rw [heff] at he
    obtain ⟨e0, -, rfl⟩ := List.mem_map.mp he
    exact ⟨rfl, rfl⟩

theorem exampleInitial_reachable :
    SceneManager.constructor exampleEnv (some ⟨800, 600⟩) 0 exampleHost = .ok exampleInitial := by
  rfl

theorem exampleScene_reachable :
    (createGlobe exampleInitial 10 64).bind (updateGlobeVisuals exampleEnv ⟨1, 0, 0.25⟩)
      = .ok exampleScene := by
  have h1 : ¬ ((0 : ℚ) > 0.3) := by norm_num
  have h2 : (0.25 : ℚ) > 0.2 := by norm_num
  have h3 : (1 : ℚ) > 0.6 := by norm_num
  simp [createGlobe, exampleInitial, SceneManager.sceneAdd, Except.bind, updateGlobeVisuals,
    updateGlobeEffects, removeExistingEffects, h1, h2, h3, addSeaLevelEffect,
    addHeatHazeEffect, animateWaterLevel, Scene.add, exampleScene, exampleGlobe, targetColor_one,
    exampleEnv]

/-- C1 at `exampleScene` with temperature 0.7, precipitation 0.5 and sea level 0.1: the ring and
the haze of before are gone, a precipitation effect and a new haze are there. -/
theorem updateGlobeEffects_replaces_effects_witness :
    exampleScene.scene.isSome ∧
    (∀ sc, exampleScene.scene = some sc → sc.children.Nodup) ∧
    (∀ e ∈ exampleScene.effects, e.id < exampleScene.nextObj) ∧
    ∃ s', updateGlobeEffects exampleEnv 0.7 0.5 0.1 exampleScene = .ok s' ∧
      s'.effects.length
        = (if (0.5 : ℚ) > 0.3 then 1 else 0) + (if (0.1 : ℚ) > 0.2 then 1 else 0)
          + (if (0.7 : ℚ) > 0.6 then 1 else 0) ∧
      s'.effects.length ≤ 3 ∧
      ∀ e ∈ exampleScene.effects, e ∉ s'.effects ∧ (∀ e' ∈ s'.effects, e'.id ≠ e.id) ∧
        ∀ sc', s'.scene = some sc' → e.id ∉ sc'.children :=
  ⟨rfl, by rintro sc ⟨⟩; decide, by decide,
    updateGlobeEffects_replaces_effects exampleEnv 0.7 0.5 0.1 exampleScene rfl
      (by rintro sc ⟨⟩; decide) (by decide)⟩

/-- C2 at `exampleInitial` with precipitation 0.5: 500 particles, 1500 buffer entries. -/
theorem addPrecipitationEffect_particleCount_witness :
    exampleInitial.scene.isSome ∧ (0.5 : ℚ) > 0.3 ∧
    ∃ s' e, addPrecipitationEffect exampleEnv 0.5 exampleInitial = .ok s' ∧
      s'.effects = exampleInitial.effects ++ [e] ∧
      e.isPoints = true ∧
      (e.particleCount : ℤ) = ⌊1000 * (0.5 : ℚ)⌋ ∧
      (e.positions.length : ℤ) = 3 * ⌊1000 * (0.5 : ℚ)⌋ ∧
      ((0.5 : ℚ) = 0.5 → e.particleCount = 500 ∧ e.positions.length = 1500) :=
  ⟨rfl, by norm_num,
    addPrecipitationEffect_particleCount exampleEnv 0.5 exampleInitial rfl (by norm_num)⟩

/-- C3 at `exampleScene` with sea level 0.25, temperature 0 and precipitation 0. -/
theorem updateGlobeEffects_seaLevelRing_iff_witness :
    exampleScene.scene.isSome ∧
    ∃ s', updateGlobeEffects exampleEnv 0 0 0.25 exampleScene = .ok s' ∧
      ((∃ e ∈ s'.effects, e.isSeaLevelRing = true) ↔ (0.25 : ℚ) > 0.2) ∧
      ((0.25 : ℚ) = 0.25 → ∃ e ∈ s'.effects, e.isSeaLevelRing = true) ∧
      ((0.25 : ℚ) = 0.1 ∨ (0.25 : ℚ) = 0.2 → ¬ ∃ e ∈ s'.effects, e.isSeaLevelRing = true) :=
  ⟨rfl, updateGlobeEffects_seaLevelRing_iff exampleEnv 0 0 0.25 exampleScene rfl⟩

/-- C4 at `exampleScene` with temperature 1. -/
theorem updateGlobeVisuals_hot_tenth_witness :
    exampleScene.globe = some exampleGlobe ∧ exampleScene.scene.isSome ∧
    (⟨1, 0, 0.25⟩ : ClimateData).temperatureIntensity = 1 ∧
    ∃ s' globe', updateGlobeVisuals exampleEnv ⟨1, 0, 0.25⟩ exampleScene = .ok s' ∧
      s'.globe = some globe' ∧
      globe'.material.color.r = exampleGlobe.material.color.r
        + 0.1 * ((Color.ofHex 0xff4500).r - exampleGlobe.material.color.r) ∧
      globe'.material.color.g = exampleGlobe.material.color.g
        + 0.1 * ((Color.ofHex 0xff4500).g - exampleGlobe.material.color.g) ∧
      globe'.material.color.b = exampleGlobe.material.color.b
        + 0.1 * ((Color.ofHex 0xff4500).b - exampleGlobe.material.color.b) ∧
      (globe'.material.color = Color.ofHex 0xff4500
        ↔ exampleGlobe.material.color = Color.ofHex 0xff4500) :=
  ⟨rfl, rfl, rfl,
    updateGlobeVisuals_hot_tenth exampleEnv ⟨1, 0, 0.25⟩ exampleScene exampleGlobe rfl rfl rfl⟩

/-- C5 (as the code has it) at `exampleScene` with temperature 0.5: the call completes and the
globe colour moves one tenth of the way to the target colour of the code. -/
theorem updateGlobeVisuals_target_witness :
    exampleScene.globe = some exampleGlobe ∧ exampleScene.scene.isSome ∧
    ∃ s' globe', updateGlobeVisuals exampleEnv ⟨0.5, 0, 0⟩ exampleScene = .ok s' ∧
      s'.globe = some globe' ∧
      globe'.material.color = exampleGlobe.material.color.lerp (targetColor 0.5) 0.1 :=
  ⟨rfl, rfl,
    (updateGlobeVisuals_target exampleEnv ⟨0.5, 0, 0⟩ exampleScene exampleGlobe rfl rfl).1⟩

/-- C7 at `exampleScene`: one render call, and the closure of the ring (object 4) is the only
one called. -/
theorem animate_renders_once_witness :
    exampleScene.renderer.isSome ∧ exampleScene.scene.isSome ∧ exampleScene.camera.isSome ∧
    ∃ s' calls, animate exampleEnv exampleScene = .ok s' ∧
      s'.host.log = exampleScene.host.log ++ calls ∧
      calls.count Call.render = 1 ∧
      calls.filterMap Call.animated = [4] :=
  ⟨rfl, rfl, rfl, by
    obtain ⟨s', calls, h1, h2, h3, h4, -⟩ :=
      animate_renders_once exampleEnv exampleScene rfl rfl rfl
    exact ⟨s', calls, h1, h2, h3, h4⟩⟩

/-- C8 at `exampleNoRenderer`. -/
theorem animate_without_renderer_witness :
    exampleNoRenderer.renderer = none ∧
    ∃ s' calls, animate exampleEnv exampleNoRenderer = .ok s' ∧
      s'.host.log = exampleNoRenderer.host.log ++ calls ∧
      Call.render ∉ calls ∧ calls.count Call.render = 0 ∧ s'.renderer = none :=
  ⟨rfl, animate_without_renderer exampleEnv exampleNoRenderer rfl⟩

/-- C9 at `exampleScene`. -/
theorem dispose_idempotent_witness :
    (∀ f ∈ exampleScene.host.resizeListeners, f < exampleScene.host.nextFn) ∧
    ∃ s1 s2, dispose exampleScene = .ok s1 ∧ dispose s1 = .ok s2 ∧
      s2.host.pendingFrames = s1.host.pendingFrames ∧
      s2.animationId = s1.animationId ∧
      s2.effects = s1.effects ∧
      s2.renderer = s1.renderer ∧
      s2.host.resizeListeners = s1.host.resizeListeners ∧
      s2.host.resizeObservers = s1.host.resizeObservers ∧
      s2.globe = s1.globe ∧ s2.scene = s1.scene ∧ s2.camera = s1.camera ∧
      s2.controls = s1.controls ∧ s2.container = s1.container :=
  ⟨by decide, dispose_idempotent exampleScene (by decide)⟩

/-- C10 as stated fails: `exampleScene` has two effects, and after `dispose()` the effect count
reported by `getSceneState()` is still 2, not 0. -/
theorem dispose_effectCount_counterexample :
    ∃ s', dispose exampleScene = .ok s' ∧ (getSceneState s').effectCount = 2 ∧
      (getSceneState s').effectCount ≠ 0 := by
  obtain ⟨s', hok, heff, -⟩ := dispose_fields exampleScene
  have h2 : (getSceneState s').effectCount = 2 := by
    simp [getSceneState, heff, exampleScene]
  exact ⟨s', hok, h2, by rw [h2]; decide⟩

theorem Scene.add_nodup (sc : Scene) (obj : Nat) (h : sc.children.Nodup) :
    (sc.add obj).children.Nodup := by
  simp only [Scene.add]
  apply List.Nodup.append (h.erase obj) (List.nodup_singleton obj)
  intro x hx hx'
  rw [List.mem_singleton] at hx'
  subst hx'
  exact (List.Nodup.not_mem_erase h) hx

theorem foldl_erase_nodup (effects : List Object3D) (l : List Nat) (hl : l.Nodup) :
    (effects.foldl (fun l e => l.erase e.id) l).Nodup := by
  induction effects generalizing l with
  | nil => exact hl
  | cons e rest ih => exact ih _ (hl.erase _)

theorem Step.nodup_children {c : Prop} {P : Object3D → Prop} {a b : SceneManager}
    (h : Step c P a b) (ha : ∀ sc, a.scene = some sc → sc.children.Nodup) :
    ∀ sc, b.scene = some sc → sc.children.Nodup := by
  rcases h with ⟨-, e, ⟨-, -, -, ⟨sc0, hsc0, hsc1⟩, -⟩, -⟩ | ⟨-, rfl⟩
  · intro sc hsc
    rw [hsc1] at hsc
    cases hsc
    exact Scene.add_nodup sc0 _ (ha sc0 hsc0)
  · exact ha

theorem Step.effects_lt {c : Prop} {P : Object3D → Prop} {a b : SceneManager}
    (h : Step c P a b) (ha : ∀ e ∈ a.effects, e.id < a.nextObj) :
    ∀ e ∈ b.effects, e.id < b.nextObj := by
  rcases h with ⟨-, e, ⟨hid, hnext, heff, -, -⟩, -⟩ | ⟨-, rfl⟩
  · intro e' he'
    rw [heff, List.mem_append, List.mem_singleton] at he'
    rcases he' with he' | rfl
    · have := ha e' he'
      omega
    · omega
  · exact ha

theorem updateGlobeEffects_invariant (env : Env) (t p sl : ℚ) (s : SceneManager)
    (h : Invariant s) :
    ∃ s', updateGlobeEffects env t p sl s = .ok s' ∧ Invariant s' ∧ s'.globe = s.globe := by
  obtain ⟨hscene, hcam, hrd, hctl, hnd, -, hfn⟩ := h
  obtain ⟨s1, s2, s3, hok, h1, h2, h3⟩ := updateGlobeEffects_chain env t p sl s hscene
  have h0 : (removeExistingEffects s).scene.isSome := by
    simpa [removeExistingEffects] using hscene
  have hsame : SameExceptEffects s s3 :=
    (((removeExistingEffects_same s).trans h1.sameExceptEffects).trans
      h2.sameExceptEffects).trans h3.sameExceptEffects
  obtain ⟨-, hc, hr, hcl, -, hg, -, -, -, hl, hn⟩ := hsame.fields
  have hnd0 : ∀ sc, (removeExistingEffects s).scene = some sc → sc.children.Nodup := by
    intro sc hsc
    obtain ⟨sc0, hsc0⟩ := Option.isSome_iff_exists.mp hscene
    simp only [removeExistingEffects, hsc0, Option.map_some', Option.some.injEq] at hsc
    subst hsc
    rw [children_foldl_detachEffect]
    exact foldl_erase_nodup _ _ (hnd sc0 hsc0)
  have hlt0 : ∀ e ∈ (removeExistingEffects s).effects, e.id < (removeExistingEffects s).nextObj := by
    simp [removeExistingEffects]
  refine ⟨s3, hok, ⟨?_, ?_, ?_, ?_, ?_, ?_, ?_⟩, hg⟩
  · exact h3.scene_isSome_of_step (h2.scene_isSome_of_step (h1.scene_isSome_of_step h0))
  · rw [hc]; exact hcam
  · rw [hr]; exact hrd
  · rw [hcl]; exact hctl
  · exact h3.nodup_children (h2.nodup_children (h1.nodup_children hnd0))
  · exact h3.effects_lt (h2.effects_lt (h1.effects_lt hlt0))
  · rw [hl, hn]; exact hfn

theorem updateGlobeVisuals_invariant (env : Env) (d : ClimateData) (s : SceneManager)
    (h : Invariant s) : ∃ s', updateGlobeVisuals env d s = .ok s' ∧ Invariant s' := by
  cases hg : s.globe with
  | none => exact ⟨s, updateGlobeVisuals_no_globe env d s hg, h⟩
  | some globe =>
    simp only [updateGlobeVisuals, hg]
    obtain ⟨s', hok, hinv, -⟩ := updateGlobeEffects_invariant env d.temperatureIntensity
      d.precipitationIntensity d.seaLevelIntensity
      { s with globe := some { globe with material := { globe.material with
          color := globe.material.color.lerp (targetColor d.temperatureIntensity) 0.1 } } } h
    exact ⟨s', hok, hinv⟩

theorem createGlobe_invariant (radius : ℚ) (segments : Nat) (s : SceneManager)
    (h : Invariant s) : ∃ s', createGlobe s radius segments = .ok s' ∧ Invariant s' := by
  obtain ⟨hscene, hcam, hrd, hctl, hnd, hlt, hfn⟩ := h
  obtain ⟨container, scene, camera, renderer, controls, animationId, globe, effects,
    isAnimating, nextObj, host⟩ := s
  cases scene with
  | none => simp at hscene
  | some sc =>
    refine ⟨_, rfl, rfl, hcam, hrd, hctl, ?_, ?_, hfn⟩
    · intro sc' hsc'
      cases hsc'
      exact Scene.add_nodup sc _ (hnd sc rfl)
    · intro e he
      have := hlt e he
      show e.id < nextObj + 1
      simp only at this
      omega

theorem Object3D.runAnimate_id (env : Env) (o : Object3D) : (o.runAnimate env).id = o.id := by
  unfold Object3D.runAnimate
  split
  · rfl
  · split <;> rfl
  · rfl

/-- What `animate` leaves in place. -/
theorem animate_frame (env : Env) (s : SceneManager) :
    ∃ s', animate env s = .ok s' ∧
      s'.effects = s.effects.map (fun e => e.runAnimate env) ∧
      s'.scene = s.scene ∧ s'.camera.isSome = s.camera.isSome ∧
      s'.renderer.isSome = s.renderer.isSome ∧ s'.controls = s.controls ∧
      s'.nextObj = s.nextObj ∧ s'.host.resizeListeners = s.host.resizeListeners ∧
      s'.host.nextFn = s.host.nextFn := by
  cases hctl : s.controls <;> cases hr : s.renderer <;> cases hs : s.scene <;>
    cases hc : s.camera <;>
    simp [animate, hctl, hr, hs, hc, SceneManager.call, animateEffects_fst]

theorem animate_invariant (env : Env) (s : SceneManager) (h : Invariant s) :
    ∃ s', animate env s = .ok s' ∧ Invariant s' := by
  obtain ⟨hscene, hcam, hrd, hctl, hnd, hlt, hfn⟩ := h
  obtain ⟨s', hok, heff, hsc, hc, hr, hcl, hno, hl, hn⟩ := animate_frame env s
  refine ⟨s', hok, ?_, ?_, ?_, ?_, ?_, ?_, ?_⟩
  · rw [hsc]; exact hscene
  · rw [hc]; exact hcam
  · rw [hr]; exact hrd
  · rw [hcl]; exact hctl
  · rw [hsc]; exact hnd
  · intro e he
    rw [heff] at he
    obtain ⟨e0, he0, rfl⟩ := List.mem_map.mp he
    rw [Object3D.runAnimate_id, hno]
    exact hlt e0 he0
  · rw [hl, hn]; exact hfn

theorem updateStoryProgress_invariant (env : Env) (p : ℚ) (d : Option ClimateData)
    (s : SceneManager) (h : Invariant s) :
    ∃ s', updateStoryProgress env p d s = .ok s' ∧ Invariant s' := by
  have tail : ∀ s1 : SceneManager, Invariant s1 →
      ∃ s', (Except.ok s1 : Except String SceneManager).bind (fun (s1 : SceneManager) =>
          match s1.camera with
          | none => .error "TypeError: this.camera is null"
          | some cam =>
            let cam1 : Camera :=
              { cam with
                position := cam.position.lerp (cameraTarget env p) 0.05
                lookAt := some ⟨0, 0, 0⟩ }
            let controls := s1.controls.map
              (fun (c : OrbitControls) => { c with autoRotateSpeed := 0.5 + p * 2 })
            .ok { s1 with camera := some cam1, controls := controls }) = .ok s' ∧
        Invariant s' := by
    intro s1 h1
    obtain ⟨hscene, hcam, hrd, hctl, hnd, hlt, hfn⟩ := h1
    obtain ⟨cam, hc⟩ := Option.isSome_iff_exists.mp hcam
    simp only [Except.bind, hc]
    exact ⟨_, rfl, hscene, rfl, hrd, by simpa using hctl, hnd, hlt, hfn⟩
  cases d with
  | none => exact tail s h
  | some d =>
    obtain ⟨s1, hok, h1⟩ := updateGlobeVisuals_invariant env d s h
    simp only [updateStoryProgress, hok]
    exact tail s1 h1

theorem dispose_invariant (s : SceneManager) (h : Invariant s) :
    ∃ s', dispose s = .ok s' ∧ Invariant s' := by
  obtain ⟨hscene, hcam, hrd, hctl, hnd, hlt, hfn⟩ := h
  obtain ⟨s', hok, heff, -, hr, -, hrl, hnf, -, -, hsc, hc, hcl, -, hno, -⟩ := dispose_fields s
  refine ⟨s', hok, ?_, ?_, ?_, ?_, ?_, ?_, ?_⟩
  · rw [hsc]; exact hscene
  · rw [hc]; exact hcam
  · rw [hr]; simpa using hrd
  · rw [hcl]; exact hctl
  · rw [hsc]; exact hnd
  · intro e he
    rw [heff] at he
    obtain ⟨e0, he0, rfl⟩ := List.mem_map.mp he
    rw [hno]
    exact hlt e0 he0
  · intro f hf
    rw [hrl] at hf
    have := hfn f (List.mem_of_mem_erase hf)
    omega

theorem constructor_invariant (env : Env) (container : Container) (nextObj : Nat) (host : Host)
    (hhost : ∀ f ∈ host.resizeListeners, f < host.nextFn) :
    ∃ s, SceneManager.constructor env (some container) nextObj host = .ok s ∧ Invariant s ∧
      s.effects = [] ∧ s.globe = none := by
  refine ⟨_, rfl, ⟨rfl, rfl, rfl, rfl, ?_, ?_, ?_⟩, rfl, rfl⟩
  · intro sc hsc
    cases hsc
    show (([].erase nextObj ++ [nextObj]).erase (nextObj + 1) ++ [nextObj + 1]).erase
      (nextObj + 1 + 1) ++ [nextObj + 1 + 1] |>.Nodup
    have h1 : [nextObj, nextObj + 1].erase (nextObj + 1 + 1) = [nextObj, nextObj + 1] :=
      List.erase_of_not_mem (by simp; omega)
    simp [h1]
    omega
  · intro e he
    cases he
  · intro f hf
    have hf' : f ∈ host.resizeListeners ++ [host.nextFn] := hf
    simp only [List.mem_append, List.mem_singleton] at hf'
    rcases hf' with hf' | rfl
    · have := hhost f hf'
      show f < host.nextFn + 2
      omega
    · show host.nextFn < host.nextFn + 2
      omega

theorem addSeaLevelEffect_added_full (env : Env) (k : ℚ) (s : SceneManager)
    (hscene : s.scene.isSome) :
    ∃ s' e, addSeaLevelEffect env k s = .ok s' ∧ Added s s' e ∧
      e.isSeaLevelRing = true ∧ e.isHeatHaze = false ∧ e.isPoints = false ∧
      e.geometry = Geometry.ring 10.2 (10.2 + k * 2) 64 ∧
      e.userDataAnimate = some (AnimateFn.waterLevel 0 k) ∧ e.scale = ⟨1, 1, 1⟩ := by
  obtain ⟨container, scene, camera, renderer, controls, animationId, globe, effects,
    isAnimating, nextObj, host⟩ := s
  cases scene with
  | none => simp at hscene
  | some sc =>
    simp only [addSeaLevelEffect, SceneManager.sceneAdd, Added, animateWaterLevel]
    exact ⟨_, _, rfl, ⟨rfl, rfl, rfl, ⟨sc, rfl, rfl⟩, rfl⟩, rfl, rfl, rfl, rfl, rfl, rfl⟩

theorem addHeatHazeEffect_added_full (k : ℚ) (s : SceneManager) (hscene : s.scene.isSome) :
    ∃ s' e, addHeatHazeEffect k s = .ok s' ∧ Added s s' e ∧
      e.isHeatHaze = true ∧ e.isSeaLevelRing = false ∧ e.isPoints = false ∧
      e.material.opacity = k * 0.2 ∧ e.userDataAnimate = none ∧
      e.geometry = Geometry.sphere 12 32 32 := by
  obtain ⟨container, scene, camera, renderer, controls, animationId, globe, effects,
    isAnimating, nextObj, host⟩ := s
  cases scene with
  | none => simp at hscene
  | some sc =>
    simp only [addHeatHazeEffect, SceneManager.sceneAdd, Added]
    exact ⟨_, _, rfl, ⟨rfl, rfl, rfl, ⟨sc, rfl, rfl⟩, rfl⟩, rfl, rfl, rfl, rfl, rfl, rfl⟩

theorem Object3D.isHeatHaze_of_isPoints (o : Object3D) (h : o.isPoints = true) :
    o.isHeatHaze = false := by
  unfold Object3D.isHeatHaze
  split
  · simp [h]
  · rfl

/-- The three conditional steps of `updateGlobeEffects` with everything the statements
need to know about the effect each one adds. -/
theorem updateGlobeEffects_chain_full (env : Env) (t p sl : ℚ) (s : SceneManager)
    (hscene : s.scene.isSome) :
    ∃ s1 s2 s3, updateGlobeEffects env t p sl s = .ok s3 ∧
      Step (p > 0.3) (fun e => e.isPoints = true ∧ e.isSeaLevelRing = false ∧
          e.isHeatHaze = false ∧
          e.positions = fillPositions env.random s.host.randomCalls ⌊1000 * p⌋.toNat ∧
          e.userDataAnimate = some AnimateFn.precipitation)
        (removeExistingEffects s) s1 ∧
      Step (sl > 0.2) (fun e => e.isSeaLevelRing = true ∧ e.isHeatHaze = false ∧
          e.isPoints = false ∧ e.geometry = Geometry.ring 10.2 (10.2 + sl * 2) 64 ∧
          e.userDataAnimate = some (AnimateFn.waterLevel 0 sl) ∧ e.scale = ⟨1, 1, 1⟩) s1 s2 ∧
      Step (t > 0.6) (fun e => e.isHeatHaze = true ∧ e.isSeaLevelRing = false ∧
          e.isPoints = false ∧ e.material.opacity = t * 0.2 ∧ e.userDataAnimate = none ∧
          e.geometry = Geometry.sphere 12 32 32) s2 s3 := by
  have h0 : (removeExistingEffects s).scene.isSome := by
    simpa [removeExistingEffects] using hscene
  obtain ⟨s1, hs1, hstep1, h1⟩ : ∃ s1,
      (if p > 0.3 then addPrecipitationEffect env p (removeExistingEffects s)
        else .ok (removeExistingEffects s)) = Except.ok s1 ∧
      Step (p > 0.3) (fun e => e.isPoints = true ∧ e.isSeaLevelRing = false ∧
          e.isHeatHaze = false ∧
          e.positions = fillPositions env.random s.host.randomCalls ⌊1000 * p⌋.toNat ∧
          e.userDataAnimate = some AnimateFn.precipitation)
        (removeExistingEffects s) s1 ∧ s1.scene.isSome := by
    by_cases hp : p > 0.3
    · obtain ⟨s1, e, hok, hadd, hpts, hring, hpos, hanim⟩ :=
        addPrecipitationEffect_added env p _ h0 (floor_nonneg_of_gt hp)
      exact ⟨s1, by simp [hp, hok],
        Or.inl ⟨hp, e, hadd, hpts, hring, e.isHeatHaze_of_isPoints hpts, hpos, hanim⟩,
        hadd.scene_isSome_of_added⟩
    · exact ⟨_, by simp [hp], Or.inr ⟨hp, rfl⟩, h0⟩
  obtain ⟨s2, hs2, hstep2, h2⟩ : ∃ s2,
      (if sl > 0.2 then addSeaLevelEffect env sl s1 else .ok s1) = Except.ok s2 ∧
      Step (sl > 0.2) (fun e => e.isSeaLevelRing = true ∧ e.isHeatHaze = false ∧
          e.isPoints = false ∧ e.geometry = Geometry.ring 10.2 (10.2 + sl * 2) 64 ∧
          e.userDataAnimate = some (AnimateFn.waterLevel 0 sl) ∧ e.scale = ⟨1, 1, 1⟩) s1 s2 ∧
        s2.scene.isSome := by
    by_cases hsl : sl > 0.2
    · obtain ⟨s2, e, hok, hadd, hP⟩ := addSeaLevelEffect_added_full env sl s1 h1
      exact ⟨s2, by simp [hsl, hok], Or.inl ⟨hsl, e, hadd, hP⟩, hadd.scene_isSome_of_added⟩
    · exact ⟨_, by simp [hsl], Or.inr ⟨hsl, rfl⟩, h1⟩
  obtain ⟨s3, hs3, hstep3⟩ : ∃ s3,
      (if t > 0.6 then addHeatHazeEffect t s2 else .ok s2) = Except.ok s3 ∧
      Step (t > 0.6) (fun e => e.isHeatHaze = true ∧ e.isSeaLevelRing = false ∧
          e.isPoints = false ∧ e.material.opacity = t * 0.2 ∧ e.userDataAnimate = none ∧
          e.geometry = Geometry.sphere 12 32 32) s2 s3 := by
    by_cases ht : t > 0.6
    · obtain ⟨s3, e, hok, hadd, hP⟩ := addHeatHazeEffect_added_full t s2 h2
      exact ⟨s3, by simp [ht, hok], Or.inl ⟨ht, e, hadd, hP⟩⟩
    · exact ⟨_, by simp [ht], Or.inr ⟨ht, rfl⟩⟩
  refine ⟨s1, s2, s3, ?_, hstep1, hstep2, hstep3⟩
  simp only [updateGlobeEffects, hs1, hs2, hs3, Except.bind]

/-- The effects after a step are those before it, followed by the added one if any. -/
theorem Step.effects_eq {c : Prop} {P : Object3D → Prop} {a b : SceneManager}
    (h : Step c P a b) :
    (c ∧ ∃ e, P e ∧ e.id = a.nextObj ∧ b.effects = a.effects ++ [e]) ∨
      (¬ c ∧ b.effects = a.effects) := by
  rcases h with ⟨hc, e, ⟨hid, -, heff, -, -⟩, hP⟩ | ⟨hc, rfl⟩
  · exact Or.inl ⟨hc, e, hP, hid, heff⟩
  · exact Or.inr ⟨hc, rfl⟩

theorem Step.oneIf {c : Prop} {P : Object3D → Prop} {a b : SceneManager} (h : Step c P a b) :
    ∃ l, b.effects = a.effects ++ l ∧ OneIf c P l := by
  rcases h.effects_eq with ⟨hc, e, hP, -, heff⟩ | ⟨hc, heff⟩
  · exact ⟨[e], heff, Or.inl ⟨hc, e, rfl, hP⟩⟩
  · exact ⟨[], by simpa using heff, Or.inr ⟨hc, rfl⟩⟩

/-- The effects list `updateGlobeEffects` leaves: at most one precipitation effect, then at
most one sea-level ring, then at most one heat haze, each described in full. -/
theorem updateGlobeEffects_effects (env : Env) (t p sl : ℚ) (s : SceneManager)
    (hscene : s.scene.isSome) :
    ∃ s' l1 l2 l3, updateGlobeEffects env t p sl s = .ok s' ∧ s'.effects = l1 ++ l2 ++ l3 ∧
      OneIf (p > 0.3) (fun e => e.isPoints = true ∧ e.isSeaLevelRing = false ∧
          e.isHeatHaze = false ∧
          e.positions = fillPositions env.random s.host.randomCalls ⌊1000 * p⌋.toNat ∧
          e.userDataAnimate = some AnimateFn.precipitation) l1 ∧
      OneIf (sl > 0.2) (fun e => e.isSeaLevelRing = true ∧ e.isHeatHaze = false ∧
          e.isPoints = false ∧ e.geometry = Geometry.ring 10.2 (10.2 + sl * 2) 64 ∧
          e.userDataAnimate = some (AnimateFn.waterLevel 0 sl) ∧ e.scale = ⟨1, 1, 1⟩) l2 ∧
      OneIf (t > 0.6) (fun e => e.isHeatHaze = true ∧ e.isSeaLevelRing = false ∧
          e.isPoints = false ∧ e.material.opacity = t * 0.2 ∧ e.userDataAnimate = none ∧
          e.geometry = Geometry.sphere 12 32 32) l3 ∧
      SameExceptEffects s s' ∧ s'.scene.isSome := by
  obtain ⟨s1, s2, s3, hok, h1, h2, h3⟩ := updateGlobeEffects_chain_full env t p sl s hscene
  have h0 : (removeExistingEffects s).scene.isSome := by
    simpa [removeExistingEffects] using hscene
  have hsame : SameExceptEffects s s3 :=
    (((removeExistingEffects_same s).trans h1.sameExceptEffects).trans
      h2.sameExceptEffects).trans h3.sameExceptEffects
  have hsc3 := h3.scene_isSome_of_step (h2.scene_isSome_of_step (h1.scene_isSome_of_step h0))
  obtain ⟨l1, hl1, ho1⟩ := h1.oneIf
  obtain ⟨l2, hl2, ho2⟩ := h2.oneIf
  obtain ⟨l3, hl3, ho3⟩ := h3.oneIf
  have hl1' : s1.effects = l1 := by simpa [removeExistingEffects] using hl1
  exact ⟨s3, l1, l2, l3, hok, by rw [hl3, hl2, hl1'], ho1, ho2, ho3, hsame, hsc3⟩

theorem OneIf.forall_mem {c : Prop} {P : Object3D → Prop} {l : List Object3D}
    (h : OneIf c P l) : ∀ e ∈ l, P e := by
  rcases h with ⟨-, e, rfl, hP⟩ | ⟨-, rfl⟩
  · intro x hx
    rw [List.mem_singleton.mp hx]
    exact hP
  · intro x hx
    cases hx

theorem OneIf.exists_iff {c : Prop} {P : Object3D → Prop} {l : List Object3D}
    (h : OneIf c P l) : (∃ e, e ∈ l) ↔ c := by
  rcases h with ⟨hc, e, rfl, -⟩ | ⟨hc, rfl⟩
  · simp [hc]
  · simp [hc]

theorem OneIf.length_eq {c : Prop} [Decidable c] {P : Object3D → Prop} {l : List Object3D}
    (h : OneIf c P l) : l.length = if c then 1 else 0 := by
  rcases h with ⟨hc, e, rfl, -⟩ | ⟨hc, rfl⟩
  · simp [hc]
  · simp [hc]

theorem Object3D.isHeatHaze_runAnimate (env : Env) (o : Object3D) :
    (o.runAnimate env).isHeatHaze = o.isHeatHaze := by
  obtain ⟨id, isPoints, geometry, gd, material, scale, rx, cs, rs, anim⟩ := o
  cases anim with
  | none => rfl
  | some f =>
    cases f with
    | precipitation => cases geometry <;> rfl
    | waterLevel time k => rfl

theorem Object3D.runAnimate_of_none (env : Env) (o : Object3D) (h : o.userDataAnimate = none) :
    o.runAnimate env = o := by
  simp [Object3D.runAnimate, h]

theorem filter_isHeatHaze_runAnimate (env : Env) (effects : List Object3D)
    (h : ∀ e ∈ effects, e.isHeatHaze = true → e.userDataAnimate = none) :
    (effects.map (fun e => e.runAnimate env)).filter (fun e => e.isHeatHaze)
        = effects.filter (fun e => e.isHeatHaze) ∧
      ∀ e ∈ effects.map (fun e => e.runAnimate env),
        e.isHeatHaze = true → e.userDataAnimate = none := by
  induction effects with
  | nil => exact ⟨rfl, fun e he => by cases he⟩
  | cons a rest ih =>
    obtain ⟨ih1, ih2⟩ := ih (fun e he => h e (List.mem_cons_of_mem _ he))
    constructor
    · simp only [List.map_cons, List.filter_cons, Object3D.isHeatHaze_runAnimate, ih1]
      by_cases ha : a.isHeatHaze = true
      · simp only [ha, if_true]
        rw [Object3D.runAnimate_of_none env a (h a (List.mem_cons_self _ _) ha)]
      · simp only [ha, if_false]
        simp
    · intro e he hh
      rw [List.map_cons, List.mem_cons] at he
      rcases he with rfl | he
      · have hh' : a.isHeatHaze = true := by
          rw [← Object3D.isHeatHaze_runAnimate env a]
          exact hh
        have hnone := h a (List.mem_cons_self _ _) hh'
        show (a.runAnimate env).userDataAnimate = none
        rw [Object3D.runAnimate_of_none env a hnone]
        exact hnone
      · exact ih2 e he hh

theorem repeatAnimate_heatHaze (env : Env) (n : Nat) (s : SceneManager)
    (h : ∀ e ∈ s.effects, e.isHeatHaze = true → e.userDataAnimate = none) :
    ∃ sn, repeatAnimate env n s = .ok sn ∧
      sn.effects.filter (fun e => e.isHeatHaze) = s.effects.filter (fun e => e.isHeatHaze) := by
  induction n generalizing s with
  | zero => exact ⟨s, rfl, rfl⟩
  | succ n ih =>
    obtain ⟨s1, hok, heff, -⟩ := animate_frame env s
    obtain ⟨hf1, hf2⟩ := filter_isHeatHaze_runAnimate env s.effects h
    rw [← heff] at hf1 hf2
    obtain ⟨sn, hrun, hfn⟩ := ih s1 hf2
    refine ⟨sn, ?_, hfn.trans hf1⟩
    simp only [repeatAnimate, hok, Except.bind]
    exact hrun

/-- C19. On a state with a scene, `updateGlobeEffects` leaves a heat haze among the effects
exactly when the temperature intensity `t` is above `0.6`; the haze has opacity `t * 0.2`
(between `0.12`, excluded, and `0.2` for `t` in `(0.6, 1]`) and no `userData.animate`
closure, so a tick does not touch it: after any number of `animate` calls the haze effects in
the list are the same objects with the same opacity. -/
theorem updateGlobeEffects_heatHaze (env : Env) (t p sl : ℚ) (s : SceneManager)
    (hscene : s.scene.isSome) :
    ∃ s', updateGlobeEffects env t p sl s = .ok s' ∧
      ((∃ e ∈ s'.effects, e.isHeatHaze = true) ↔ t > 0.6) ∧
      (∀ e ∈ s'.effects, e.isHeatHaze = true →
        e.material.opacity = t * 0.2 ∧ e.userDataAnimate = none ∧ e.runAnimate env = e ∧
        (0.6 < t → t ≤ 1 → 0.12 < e.material.opacity ∧ e.material.opacity ≤ 0.2)) ∧
      ∀ n, ∃ sn, repeatAnimate env n s' = .ok sn ∧
        sn.effects.filter (fun e => e.isHeatHaze)
          = s'.effects.filter (fun e => e.isHeatHaze) := by
  obtain ⟨s', l1, l2, l3, hok, heff, h1, h2, h3, -, -⟩ :=
    updateGlobeEffects_effects env t p sl s hscene
  have hhaze : ∀ e ∈ s'.effects, e.isHeatHaze = true →
      e.material.opacity = t * 0.2 ∧ e.userDataAnimate = none := by
    intro e he hh
    rw [heff, List.mem_append, List.mem_append] at he
    rcases he with (he | he) | he
    · have := (h1.forall_mem e he).2.2.1
      rw [hh] at this
      cases this
    · have := (h2.forall_mem e he).2.1
      rw [hh] at this
      cases this
    · have := h3.forall_mem e he
      exact ⟨this.2.2.2.1, this.2.2.2.2.1⟩
  refine ⟨s', hok, ?_, ?_, ?_⟩
  · constructor
    · rintro ⟨e, he, hh⟩
      rw [heff, List.mem_append, List.mem_append] at he
      rcases he with (he | he) | he
      · have := (h1.forall_mem e he).2.2.1
        rw [hh] at this
        cases this
      · have := (h2.forall_mem e he).2.1
        rw [hh] at this
        cases this
      · exact h3.exists_iff.mp ⟨e, he⟩
    · intro ht
      obtain ⟨e, he⟩ := h3.exists_iff.mpr ht
      exact ⟨e, by rw [heff]; exact List.mem_append_right _ he, (h3.forall_mem e he).1⟩
  · intro e he hh
    obtain ⟨hop, hnone⟩ := hhaze e he hh
    refine ⟨hop, hnone, Object3D.runAnimate_of_none env e hnone, ?_⟩
    intro h6 h1
    rw [hop]
    constructor <;> norm_num at h6 ⊢ <;> linarith
  · intro n
    exact repeatAnimate_heatHaze env n s' (fun e he hh => (hhaze e he hh).2)

/-- C20. On a state with camera, scene and controls, `updateStoryProgress(p, d)` sets the
auto-rotation speed of the controls to `0.5 + 2 * p` and leaves their other settings: `0.5` at
`p = 0`, `2.5` at `p = 1`, the speed for `p + h` is the speed for `p` plus `2 * h`, and a
larger progress gives a strictly larger speed. -/
theorem updateStoryProgress_autoRotateSpeed (env : Env) (p q : ℚ) (d : Option ClimateData)
    (s : SceneManager) (cam : Camera) (c : OrbitControls)
    (hcam : s.camera = some cam) (hscene : s.scene.isSome) (hctl : s.controls = some c) :
    ∃ sp sq cp cq, updateStoryProgress env p d s = .ok sp ∧
      updateStoryProgress env q d s = .ok sq ∧
      sp.controls = some cp ∧ sq.controls = some cq ∧
      cp = { c with autoRotateSpeed := 0.5 + 2 * p } ∧
      cp.autoRotateSpeed = 0.5 + 2 * p ∧ cq.autoRotateSpeed = 0.5 + 2 * q ∧
      cq.autoRotateSpeed - cp.autoRotateSpeed = 2 * (q - p) ∧
      (p < q → cp.autoRotateSpeed < cq.autoRotateSpeed) ∧
      (p = 0 → cp.autoRotateSpeed = 0.5) ∧ (p = 1 → cp.autoRotateSpeed = 2.5) := by
  obtain ⟨sp, hokp, -, -, hcp⟩ := updateStoryProgress_ok env p d s cam hcam hscene
  obtain ⟨sq, hokq, -, -, hcq⟩ := updateStoryProgress_ok env q d s cam hcam hscene
  rw [hctl] at hcp hcq
  refine ⟨sp, sq, _, _, hokp, hokq, hcp, hcq, ?_, ?_, ?_, ?_, ?_, ?_, ?_⟩
  · show ({ c with autoRotateSpeed := 0.5 + p * 2 } : OrbitControls) = _
    rw [mul_comm]
  · show (0.5 : ℚ) + p * 2 = _
    ring
  · show (0.5 : ℚ) + q * 2 = _
    ring
  · show (0.5 : ℚ) + q * 2 - (0.5 + p * 2) = _
    ring
  · intro h
    show (0.5 : ℚ) + p * 2 < 0.5 + q * 2
    linarith
  · intro h
    show (0.5 : ℚ) + p * 2 = 0.5
    rw [h]
    norm_num
  · intro h
    show (0.5 : ℚ) + p * 2 = 2.5
    rw [h]
    norm_num

/-- C19 at `exampleScene` with temperature 0.8. -/
theorem updateGlobeEffects_heatHaze_witness :
    exampleScene.scene.isSome ∧
    ∃ s', updateGlobeEffects exampleEnv 0.8 0 0 exampleScene = .ok s' ∧
      ((∃ e ∈ s'.effects, e.isHeatHaze = true) ↔ (0.8 : ℚ) > 0.6) ∧
      (∀ e ∈ s'.effects, e.isHeatHaze = true →
        e.material.opacity = 0.8 * 0.2 ∧ e.userDataAnimate = none ∧
        e.runAnimate exampleEnv = e ∧
        ((0.6 : ℚ) < 0.8 → (0.8 : ℚ) ≤ 1 →
          0.12 < e.material.opacity ∧ e.material.opacity ≤ 0.2)) ∧
      ∀ n, ∃ sn, repeatAnimate exampleEnv n s' = .ok sn ∧
        sn.effects.filter (fun e => e.isHeatHaze)
          = s'.effects.filter (fun e => e.isHeatHaze) :=
  ⟨rfl, updateGlobeEffects_heatHaze exampleEnv 0.8 0 0 exampleScene rfl⟩

/-- C20 at `exampleScene` with progress 0 and 1. -/
theorem updateStoryProgress_autoRotateSpeed_witness :
    exampleScene.camera = some exampleCamera ∧ exampleScene.scene.isSome ∧
    exampleScene.controls = some exampleControls ∧
    ∃ sp sq cp cq, updateStoryProgress exampleEnv 0 none exampleScene = .ok sp ∧
      updateStoryProgress exampleEnv 1 none exampleScene = .ok sq ∧
      sp.controls = some cp ∧ sq.controls = some cq ∧
      cp = { exampleControls with autoRotateSpeed := 0.5 + 2 * 0 } ∧
      cp.autoRotateSpeed = 0.5 + 2 * 0 ∧ cq.autoRotateSpeed = 0.5 + 2 * 1 ∧
      cq.autoRotateSpeed - cp.autoRotateSpeed = 2 * (1 - 0) ∧
      ((0 : ℚ) < 1 → cp.autoRotateSpeed < cq.autoRotateSpeed) ∧
      ((0 : ℚ) = 0 → cp.autoRotateSpeed = 0.5) ∧ ((0 : ℚ) = 1 → cp.autoRotateSpeed = 2.5) :=
  ⟨rfl, rfl, rfl,
    updateStoryProgress_autoRotateSpeed exampleEnv 0 1 none exampleScene exampleCamera
      exampleControls rfl rfl rfl⟩

/-- The method `animate` has no disposal check of its own. `dispose()` cancels the frame that
the last `animate` requested (handle `h`), so the browser does not run that callback
afterwards; a direct call of `animate` after `dispose()`, which nothing in the sources makes,
would request a further frame, call each effect closure once and, when renderer, scene and
camera are set, issue one render call. -/
theorem dispose_cancels_frame_animate_unguarded (env : Env) (s : SceneManager) (h : Nat)
    (hid : s.animationId = some h) (h0 : h ≠ 0) :
    ∃ s1, dispose s = .ok s1 ∧ h ∉ s1.host.pendingFrames ∧ runFrame env h s1 = .ok s1 ∧
      ∃ s2 calls, animate env s1 = .ok s2 ∧ s2.host.log = s1.host.log ++ calls ∧
        Call.requestAnimationFrame s1.host.nextFrame ∈ calls ∧
        s1.host.nextFrame ∈ s2.host.pendingFrames ∧
        s2.animationId = some s1.host.nextFrame ∧
        calls.filterMap Call.animated
          = (s1.effects.filter (fun e => e.userDataAnimate.isSome)).map (fun e => e.id) ∧
        s2.effects = s1.effects.map (fun e => e.runAnimate env) ∧
        (s.renderer.isSome → s.scene.isSome → s.camera.isSome →
          calls.count Call.render = 1) := by
  obtain ⟨s1, hok, -, -, hrd, hpf, -, -, -, -, hsc, hcam, -⟩ := dispose_fields s
  have hnot : h ∉ s1.host.pendingFrames := by
    rw [hpf, hid]
    simp [h0]
  refine ⟨s1, hok, hnot, by simp [runFrame, hnot], ?_⟩
  obtain ⟨s2, hok2, heff, haid, hpend, -, -, hlog⟩ := animate_log env s1
  refine ⟨s2, _, hok2, hlog, by simp, by simp [hpend], haid, ?_, heff, ?_⟩
  · simp only [List.filterMap_append, animateEffects_animated]
    split <;> split <;> simp [Call.animated]
  · intro h1 h2 h3
    have hr1 : s1.renderer.isSome := by rw [hrd]; simpa using h1
    have hs1 : s1.scene.isSome := by rw [hsc]; exact h2
    have hc1 : s1.camera.isSome := by rw [hcam]; exact h3
    simp only [hr1, hs1, hc1, and_self, if_true, List.count_append,
      animateEffects_render_count]
    split <;> simp

/-- What one `createGlobe` call does on a state with a scene. -/
theorem createGlobe_fields (radius : ℚ) (segments : Nat) (s : SceneManager)
    (hscene : s.scene.isSome) :
    ∃ s' g sc, createGlobe s radius segments = .ok s' ∧ s'.globe = some g ∧
      g.id = s.nextObj ∧ g.geometryDisposed = false ∧ g.material.disposed = false ∧
      g.geometry = Geometry.sphere radius segments segments ∧
      s.scene = some sc ∧ s'.scene = some (sc.add s.nextObj) ∧
      s'.nextObj = s.nextObj + 1 ∧ s'.host = s.host ∧ s'.effects = s.effects := by
  obtain ⟨container, scene, camera, renderer, controls, animationId, globe, effects,
    isAnimating, nextObj, host⟩ := s
  cases scene with
  | none => simp at hscene
  | some sc => exact ⟨_, _, sc, rfl, rfl, rfl, rfl, rfl, rfl, rfl, rfl, rfl, rfl, rfl⟩

/-- C12 as stated fails: two `createGlobe` calls on `exampleInitial` leave two globe meshes
(objects 3 and 4) among the children of the scene, and nothing has been disposed. -/
theorem createGlobe_twice_counterexample :
    ∃ s1 s2 g1 g2, createGlobe exampleInitial 10 64 = .ok s1 ∧ createGlobe s1 10 64 = .ok s2 ∧
      s1.globe = some g1 ∧ s2.globe = some g2 ∧ g1.id = 3 ∧ g2.id = 4 ∧
      s2.scene.map (fun sc => sc.children) = some [0, 1, 2, 3, 4] ∧
      s2.host.log = exampleInitial.host.log ∧
      Call.geometryDispose 3 ∉ s2.host.log ∧ Call.materialDispose 3 ∉ s2.host.log :=
  ⟨_, _, _, _, rfl, rfl, rfl, rfl, rfl, rfl, rfl, rfl, by decide, by decide⟩

/-- C12, as the code has it. Every `createGlobe` call adds a new globe mesh to the scene:
after two calls on a state with a scene both meshes are children of the scene, `this.globe`
is the second, and no `dispose` call has been made (the log is unchanged), so the geometry
and material of the first are not released. -/
theorem createGlobe_twice_adds_two (r1 r2 : ℚ) (n1 n2 : Nat) (s : SceneManager)
    (hscene : s.scene.isSome) :
    ∃ s1 s2 g1 g2 sc, createGlobe s r1 n1 = .ok s1 ∧ createGlobe s1 r2 n2 = .ok s2 ∧
      s1.globe = some g1 ∧ s2.globe = some g2 ∧ g1.id ≠ g2.id ∧
      s2.scene = some sc ∧ g1.id ∈ sc.children ∧ g2.id ∈ sc.children ∧
      s2.host.log = s.host.log ∧
      g1.geometryDisposed = false ∧ g1.material.disposed = false := by
  obtain ⟨s1, g1, sc0, hok1, hg1, hid1, hgd1, hmd1, -, hsc0, hsc1, hn1, hh1, -⟩ :=
    createGlobe_fields r1 n1 s hscene
  have hscene1 : s1.scene.isSome := by simp [hsc1]
  obtain ⟨s2, g2, sc1, hok2, hg2, hid2, -, -, -, hsc1', hsc2, -, hh2, -⟩ :=
    createGlobe_fields r2 n2 s1 hscene1
  rw [hsc1] at hsc1'
  cases hsc1'
  refine ⟨s1, s2, g1, g2, _, hok1, hok2, hg1, hg2, ?_, hsc2, ?_, ?_, ?_, hgd1, hmd1⟩
  · rw [hid1, hid2, hn1]
    omega
  · rw [hid1, hn1]
    simp only [Scene.add, List.mem_append, List.mem_singleton]
    left
    apply (List.mem_erase_of_ne (by omega)).mpr
    simp
  · rw [hid2]
    simp [Scene.add]
  · rw [hh2, hh1]

/-- C12 (as the code has it) at `exampleInitial`. -/
theorem createGlobe_twice_adds_two_witness :
    exampleInitial.scene.isSome ∧
    ∃ s1 s2 g1 g2 sc, createGlobe exampleInitial 10 64 = .ok s1 ∧
      createGlobe s1 10 64 = .ok s2 ∧
      s1.globe = some g1 ∧ s2.globe = some g2 ∧ g1.id ≠ g2.id ∧
      s2.scene = some sc ∧ g1.id ∈ sc.children ∧ g2.id ∈ sc.children ∧
      s2.host.log = exampleInitial.host.log ∧
      g1.geometryDisposed = false ∧ g1.material.disposed = false :=
  ⟨rfl, createGlobe_twice_adds_two 10 10 64 64 exampleInitial rfl⟩

/-- C13 as stated fails: on a container of width 0 and height 600 the constructor completes,
and frame 1 is requested and pending. -/
theorem constructor_zero_width_counterexample :
    ∃ s, SceneManager.constructor exampleEnv (some ⟨0, 600⟩) 0 exampleHost = .ok s ∧
      s.host.pendingFrames = [1] ∧ s.animationId = some 1 ∧
      s.host.log = [Call.requestAnimationFrame 1, Call.controlsUpdate, Call.render] ∧
      s.renderer.map (fun rd => (rd.width, rd.height)) = some (0, 600) :=
  ⟨_, rfl, rfl, rfl, rfl, rfl⟩

/-- C13, as the code has it. The constructor checks no size: on every container, whatever
its width and height (zero included), it completes without error, the renderer gets the
container's width and height as they are, and the first frame is requested, rendered and
left pending. -/
theorem constructor_completes_any_size (env : Env) (container : Container) (nextObj : Nat)
    (host : Host) :
    ∃ s, SceneManager.constructor env (some container) nextObj host = .ok s ∧
      s.renderer.map (fun rd => (rd.width, rd.height))
        = some (container.clientWidth, container.clientHeight) ∧
      s.animationId = some host.nextFrame ∧
      s.host.pendingFrames = host.pendingFrames ++ [host.nextFrame] ∧
      s.host.log = host.log ++
        [Call.requestAnimationFrame host.nextFrame, Call.controlsUpdate, Call.render] :=
  ⟨_, rfl, rfl, rfl, rfl, by simp [SceneManager.call, animateEffects]⟩

/-- The bounds both `transformFor3D` functions do keep: no intensity is above 1, the
temperature and precipitation intensities are not below 0, and the sea-level and CO2
intensities are not below 0 when the change they are computed from is not. -/
theorem transformFor3D_bounds (m : Metrics) (c : BackendClimateData) :
    (DataProcessor.transformFor3D m).temperatureIntensity ≤ 1 ∧
    (DataProcessor.transformFor3D m).precipitationIntensity ≤ 1 ∧
    (DataProcessor.transformFor3D m).seaLevelIntensity ≤ 1 ∧
    (DataProcessor.transformFor3D m).co2Intensity ≤ 1 ∧
    0 ≤ (DataProcessor.transformFor3D m).temperatureIntensity ∧
    0 ≤ (DataProcessor.transformFor3D m).precipitationIntensity ∧
    (0 ≤ changeOrZero m.seaLevel → 0 ≤ (DataProcessor.transformFor3D m).seaLevelIntensity) ∧
    (0 ≤ changeOrZero m.co2 → 0 ≤ (DataProcessor.transformFor3D m).co2Intensity) ∧
    (storyController.transformFor3D c).temperatureIntensity ≤ 1 ∧
    (storyController.transformFor3D c).precipitationIntensity ≤ 1 ∧
    (storyController.transformFor3D c).seaLevelIntensity ≤ 1 ∧
    (storyController.transformFor3D c).co2Intensity ≤ 1 ∧
    0 ≤ (storyController.transformFor3D c).temperatureIntensity ∧
    0 ≤ (storyController.transformFor3D c).precipitationIntensity ∧
    (0 ≤ c.seaLevel.change → 0 ≤ (storyController.transformFor3D c).seaLevelIntensity) ∧
    (0 ≤ c.co2.change → 0 ≤ (storyController.transformFor3D c).co2Intensity) := by
  simp only [DataProcessor.transformFor3D, storyController.transformFor3D]
  refine ⟨min_le_right _ _, min_le_right _ _, min_le_right _ _, min_le_right _ _,
    ?_, ?_, ?_, ?_, min_le_right _ _, min_le_right _ _, min_le_right _ _, min_le_right _ _,
    ?_, ?_, ?_, ?_⟩
  · exact le_min (mul_nonneg (abs_nonneg _) (by norm_num)) zero_le_one
  · exact le_min (mul_nonneg (abs_nonneg _) (by norm_num)) zero_le_one
  · intro h
    exact le_min (mul_nonneg h (by norm_num)) zero_le_one
  · intro h
    exact le_min (mul_nonneg h (by norm_num)) zero_le_one
  · exact le_min (mul_nonneg (abs_nonneg _) (by norm_num)) zero_le_one
  · exact le_min (mul_nonneg (abs_nonneg _) (by norm_num)) zero_le_one
  · intro h
    exact le_min (mul_nonneg h (by norm_num)) zero_le_one
  · intro h
    exact le_min (mul_nonneg h (by norm_num)) zero_le_one

/-- C14, the code at a failing input. With a sea-level change of `-100` and a CO2 change of
`-50` the frontend `transformFor3D` returns the intensities `-1/2` and `-1/2`, the backend
one `-1/5` and `-1/2`: below 0, outside `[0, 1]`. -/
theorem transformFor3D_negative_intensity :
    (DataProcessor.transformFor3D
      { temperature := none, precipitation := none, seaLevel := some ⟨-100⟩,
        co2 := some ⟨-50⟩ }).seaLevelIntensity = -1 / 2 ∧
    (DataProcessor.transformFor3D
      { temperature := none, precipitation := none, seaLevel := some ⟨-100⟩,
        co2 := some ⟨-50⟩ }).co2Intensity = -1 / 2 ∧
    (storyController.transformFor3D
      { temperature := ⟨0⟩, precipitation := ⟨0⟩, seaLevel := ⟨-100⟩,
        co2 := ⟨-50⟩ }).seaLevelIntensity = -1 / 5 ∧
    (storyController.transformFor3D
      { temperature := ⟨0⟩, precipitation := ⟨0⟩, seaLevel := ⟨-100⟩,
        co2 := ⟨-50⟩ }).co2Intensity = -1 / 2 ∧
    ¬ (0 ≤ (DataProcessor.transformFor3D
      { temperature := none, precipitation := none, seaLevel := some ⟨-100⟩,
        co2 := some ⟨-50⟩ }).seaLevelIntensity) ∧
    ¬ (0 ≤ (storyController.transformFor3D
      { temperature := ⟨0⟩, precipitation := ⟨0⟩, seaLevel := ⟨-100⟩,
        co2 := ⟨-50⟩ }).seaLevelIntensity) := by
  simp only [DataProcessor.transformFor3D, storyController.transformFor3D, changeOrZero]
  norm_num

/-- The globe colour and the effects list `updateGlobeVisuals` leaves on a state with a globe
and a scene. -/
theorem updateGlobeVisuals_effects (env : Env) (d : ClimateData) (s : SceneManager)
    (globe : Object3D) (hglobe : s.globe = some globe) (hscene : s.scene.isSome) :
    ∃ s' l1 l2 l3, updateGlobeVisuals env d s = .ok s' ∧ s'.effects = l1 ++ l2 ++ l3 ∧
      OneIf (d.precipitationIntensity > 0.3) (fun e => e.isPoints = true ∧
          e.isSeaLevelRing = false ∧ e.isHeatHaze = false ∧
          e.positions = fillPositions env.random s.host.randomCalls
            ⌊1000 * d.precipitationIntensity⌋.toNat ∧
          e.userDataAnimate = some AnimateFn.precipitation) l1 ∧
      OneIf (d.seaLevelIntensity > 0.2) (fun e => e.isSeaLevelRing = true ∧
          e.isHeatHaze = false ∧ e.isPoints = false ∧
          e.geometry = Geometry.ring 10.2 (10.2 + d.seaLevelIntensity * 2) 64 ∧
          e.userDataAnimate = some (AnimateFn.waterLevel 0 d.seaLevelIntensity) ∧
          e.scale = ⟨1, 1, 1⟩) l2 ∧
      OneIf (d.temperatureIntensity > 0.6) (fun e => e.isHeatHaze = true ∧
          e.isSeaLevelRing = false ∧ e.isPoints = false ∧
          e.material.opacity = d.temperatureIntensity * 0.2 ∧ e.userDataAnimate = none ∧
          e.geometry = Geometry.sphere 12 32 32) l3 ∧
      s'.globe = some { globe with material := { globe.material with
        color := globe.material.color.lerp (targetColor d.temperatureIntensity) 0.1 } } := by
  simp only [updateGlobeVisuals, hglobe]
  obtain ⟨s', l1, l2, l3, hok, heff, h1, h2, h3, hsame, -⟩ :=
    updateGlobeEffects_effects env d.temperatureIntensity d.precipitationIntensity
      d.seaLevelIntensity
      { s with globe := some { globe with material := { globe.material with
          color := globe.material.color.lerp (targetColor d.temperatureIntensity) 0.1 } } }
      hscene
  obtain ⟨-, -, -, -, -, hgl, -⟩ := hsame.fields
  exact ⟨s', l1, l2, l3, hok, heff, h1, h2, h3, hgl⟩

theorem particleCount_of_positions (e : Object3D) (random : Nat → ℚ) (calls n : Nat)
    (h : e.positions = fillPositions random calls n) : e.particleCount = n := by
  simp [Object3D.particleCount, h, fillPositions_length]

/-- C15 as stated fails: on `exampleScene`, precipitation intensity 2 gives a precipitation
effect of 2000 particles, its clamped value 1 gives one of 1000 particles. -/
theorem updateGlobeVisuals_unclamped_counterexample :
    ClimateData.clamped ⟨0, 2, 0⟩ = ⟨0, 1, 0⟩ ∧
    ∃ s2 s1 e2 e1, updateGlobeVisuals exampleEnv ⟨0, 2, 0⟩ exampleScene = .ok s2 ∧
      updateGlobeVisuals exampleEnv (ClimateData.clamped ⟨0, 2, 0⟩) exampleScene = .ok s1 ∧
      s2.effects = [e2] ∧ s1.effects = [e1] ∧
      e2.particleCount = 2000 ∧ e1.particleCount = 1000 := by
  have hc : ClimateData.clamped ⟨0, 2, 0⟩ = ⟨0, 1, 0⟩ := by
    simp [ClimateData.clamped, clamp01]
  have single : ∀ p : ℚ, p > 0.3 → ∃ s' e, updateGlobeVisuals exampleEnv ⟨0, p, 0⟩
      exampleScene = .ok s' ∧ s'.effects = [e] ∧ e.particleCount = ⌊1000 * p⌋.toNat := by
    intro p hp
    obtain ⟨s', l1, l2, l3, hok, heff, h1, h2, h3, -⟩ :=
      updateGlobeVisuals_effects exampleEnv ⟨0, p, 0⟩ exampleScene exampleGlobe rfl rfl
    have hl2 : l2 = [] := by
      rcases h2 with ⟨hc2, -⟩ | ⟨-, h⟩
      · norm_num at hc2
      · exact h
    have hl3 : l3 = [] := by
      rcases h3 with ⟨hc3, -⟩ | ⟨-, h⟩
      · norm_num at hc3
      · exact h
    rcases h1 with ⟨-, e, hl1, hP⟩ | ⟨hn, -⟩
    · refine ⟨s', e, hok, by rw [heff, hl1, hl2, hl3]; rfl, ?_⟩
      exact particleCount_of_positions e _ _ _ hP.2.2.2.1
    · exact absurd hp hn
  obtain ⟨s2, e2, hok2, heff2, hn2⟩ := single 2 (by norm_num)
  obtain ⟨s1, e1, hok1, heff1, hn1⟩ := single 1 (by norm_num)
  refine ⟨hc, s2, s1, e2, e1, hok2, by rw [hc]; exact hok1, heff2, heff1, ?_, ?_⟩
  · rw [hn2]
    norm_num
    rfl
  · rw [hn1]
    norm_num
    rfl

theorem exampleCleared_reachable :
    updateGlobeEffects exampleEnv 0 0 0 exampleScene = .ok exampleCleared := by
  have h1 : ¬ ((0 : ℚ) > 0.3) := by norm_num
  have h2 : ¬ ((0 : ℚ) > 0.2) := by norm_num
  have h3 : ¬ ((0 : ℚ) > 0.6) := by norm_num
  simp [updateGlobeEffects, removeExistingEffects, h1, h2, h3, Except.bind, exampleScene,
    exampleCleared, detachEffect, Scene.remove]

/-- C16, the code at a failing input. On `exampleScene`, whose effects are the ring (object 4)
and the haze (object 5), `updateGlobeEffects` with all intensities 0 empties the effects list
without any `dispose` call, and a following `dispose()` disposes only the globe (object 3)
and the renderer: the geometry and material of objects 4 and 5 are never disposed. -/
theorem updateGlobeEffects_leaks_effects :
    ∃ s1 s2, updateGlobeEffects exampleEnv 0 0 0 exampleScene = .ok s1 ∧
      dispose s1 = .ok s2 ∧
      exampleScene.effects.map (fun e => e.id) = [4, 5] ∧
      s1.effects = [] ∧ s1.host.log = exampleScene.host.log ∧
      s2.host.log = exampleScene.host.log ++
        [Call.cancelAnimationFrame 1, Call.geometryDispose 3, Call.materialDispose 3,
          Call.rendererDispose] ∧
      Call.geometryDispose 4 ∉ s2.host.log ∧ Call.materialDispose 4 ∉ s2.host.log ∧
      Call.geometryDispose 5 ∉ s2.host.log ∧ Call.materialDispose 5 ∉ s2.host.log :=
  ⟨_, _, exampleCleared_reachable, rfl, rfl, rfl, rfl, rfl, by decide, by decide, by decide,
    by decide⟩

/-- For every state with a scene, `updateGlobeEffects` logs no call at all: the effects it
takes off the list are detached, not disposed. -/
theorem updateGlobeEffects_log (env : Env) (t p sl : ℚ) (s : SceneManager)
    (hscene : s.scene.isSome) :
    ∃ s', updateGlobeEffects env t p sl s = .ok s' ∧ s'.host.log = s.host.log := by
  obtain ⟨s', hok, hsame, -⟩ := updateGlobeEffects_frame env t p sl s hscene
  exact ⟨s', hok, hsame.fields.2.2.2.2.2.2.2.1⟩

/-- C17, the code at a failing input. After `dispose()` on the freshly constructed
`exampleInitial`, the `resize` listener (function 0) and the `ResizeObserver` callback
(function 1) that `setupEventListeners` registered are both still registered, and a later
window resize still runs the handler, which resizes the disposed renderer. -/
theorem dispose_keeps_listeners :
    exampleInitial.host.resizeListeners = [0] ∧ exampleInitial.host.resizeObservers = [1] ∧
    ∃ s1 s2, dispose exampleInitial = .ok s1 ∧
      s1.host.resizeListeners = [0] ∧ s1.host.resizeObservers = [1] ∧
      s1.renderer.map (fun rd => rd.disposed) = some true ∧
      windowResized 1000 500 s1 = .ok s2 ∧
      s1.renderer.map (fun rd => (rd.width, rd.height)) = some (800, 600) ∧
      s2.renderer.map (fun rd => (rd.width, rd.height)) = some (1000, 500) :=
  ⟨rfl, rfl, _, _, rfl, rfl, rfl, rfl, rfl, rfl, rfl⟩

/-- For every state whose registered `resize` listeners are older than the next function
identity, `dispose()` removes none of them and leaves the observers. -/
theorem dispose_listeners_unchanged (s : SceneManager)
    (hfn : ∀ f ∈ s.host.resizeListeners, f < s.host.nextFn) :
    ∃ s', dispose s = .ok s' ∧ s'.host.resizeListeners = s.host.resizeListeners ∧
      s'.host.resizeObservers = s.host.resizeObservers := by
  obtain ⟨s', hok, -, -, -, -, hrl, -, hro, -⟩ := dispose_fields s
  refine ⟨s', hok, ?_, hro⟩
  rw [hrl]
  apply List.erase_of_not_mem
  intro hmem
  have := hfn _ hmem
  omega

/-- C18, the code at a failing input. On `exampleScene`, whose container is 800 by 600, a
window resize to 1000 by 500 sets the camera aspect to `1000 / 500` and the render size to
1000 by 500, not to the container's `800 / 600` and 800 by 600; the container observer, for
a container resized to 640 by 480, does set `640 / 480` and 640 by 480. -/
theorem windowResized_uses_window_size :
    ∃ s1 s2, windowResized 1000 500 exampleScene = .ok s1 ∧
      s1.container = some ⟨800, 600⟩ ∧
      s1.camera.map (fun c => c.aspect) = some (1000 / 500) ∧
      (1000 / 500 : ℚ) ≠ 800 / 600 ∧
      s1.renderer.map (fun rd => (rd.width, rd.height)) = some (1000, 500) ∧
      containerResized 640 480 exampleScene = .ok s2 ∧
      s2.container = some ⟨640, 480⟩ ∧
      s2.camera.map (fun c => c.aspect) = some (640 / 480) ∧
      s2.renderer.map (fun rd => (rd.width, rd.height)) = some (640, 480) :=
  ⟨_, _, rfl, rfl, rfl, by norm_num, rfl, rfl, rfl, rfl, rfl⟩

/-- The container handler does what C18 says: after `onContainerResize` on a state with
container, camera and renderer, the aspect is the container's width over its height and the
render size is the container's. -/
theorem onContainerResize_matches_container (s : SceneManager) (c : Container) (cam : Camera)
    (rd : Renderer) (hc : s.container = some c) (hcam : s.camera = some cam)
    (hrd : s.renderer = some rd) :
    ∃ s', onContainerResize s = .ok s' ∧
      s'.camera = some { cam with aspect := c.clientWidth / c.clientHeight } ∧
      s'.renderer = some { rd with width := c.clientWidth, height := c.clientHeight } ∧
      s'.container = some c := by
  simp [onContainerResize, hc, hcam, hrd]

/-- The window handler takes the window's size whatever the container's is. -/
theorem onWindowResize_uses_window (s : SceneManager) (cam : Camera) (rd : Renderer)
    (hcam : s.camera = some cam) (hrd : s.renderer = some rd) :
    ∃ s', onWindowResize s = .ok s' ∧
      s'.camera = some { cam with aspect := s.host.innerWidth / s.host.innerHeight } ∧
      s'.renderer = some { rd with width := s.host.innerWidth, height := s.host.innerHeight } ∧
      s'.container = s.container := by
  simp [onWindowResize, hcam, hrd]

theorem onWindowResize_invariant (s : SceneManager) (h : Invariant s) :
    ∃ s', onWindowResize s = .ok s' ∧ Invariant s' := by
  obtain ⟨hscene, hcam, hrd, hctl, hnd, hlt, hfn⟩ := h
  obtain ⟨cam, hc⟩ := Option.isSome_iff_exists.mp hcam
  obtain ⟨rd, hr⟩ := Option.isSome_iff_exists.mp hrd
  obtain ⟨s', hok, hc', hr', -⟩ := onWindowResize_uses_window s cam rd hc hr
  have hrest : s'.scene = s.scene ∧ s'.controls = s.controls ∧ s'.effects = s.effects ∧
      s'.nextObj = s.nextObj ∧ s'.host = s.host := by
    simp only [onWindowResize, hc, hr, Except.ok.injEq] at hok
    subst hok
    exact ⟨rfl, rfl, rfl, rfl, rfl⟩
  obtain ⟨h1, h2, h3, h4, h5⟩ := hrest
  exact ⟨s', hok, by rw [h1]; exact hscene, by simp [hc'], by simp [hr'],
    by rw [h2]; exact hctl, by rw [h1]; exact hnd, by rw [h3, h4]; exact hlt,
    by rw [h5]; exact hfn⟩

theorem onContainerResize_invariant (s : SceneManager) (h : Invariant s) :
    ∃ s', onContainerResize s = .ok s' ∧ Invariant s' := by
  cases hcont : s.container with
  | none => exact ⟨s, by simp [onContainerResize, hcont], h⟩
  | some c =>
    obtain ⟨hscene, hcam, hrd, hctl, hnd, hlt, hfn⟩ := h
    obtain ⟨cam, hc⟩ := Option.isSome_iff_exists.mp hcam
    obtain ⟨rd, hr⟩ := Option.isSome_iff_exists.mp hrd
    obtain ⟨s', hok, hc', hr', -⟩ := onContainerResize_matches_container s c cam rd hcont hc hr
    have hrest : s'.scene = s.scene ∧ s'.controls = s.controls ∧ s'.effects = s.effects ∧
        s'.nextObj = s.nextObj ∧ s'.host = s.host := by
      simp only [onContainerResize, hcont, hc, hr, Except.ok.injEq] at hok
      subst hok
      exact ⟨rfl, rfl, rfl, rfl, rfl⟩
    obtain ⟨h1, h2, h3, h4, h5⟩ := hrest
    exact ⟨s', hok, by rw [h1]; exact hscene, by simp [hc'], by simp [hr'],
      by rw [h2]; exact hctl, by rw [h1]; exact hnd, by rw [h3, h4]; exact hlt,
      by rw [h5]; exact hfn⟩

theorem fall_length (ps : List ℚ) : (fall ps).length = ps.length := by
  induction ps using fall.induct with
  | case1 x y z rest ih => simp [fall, ih]
  | case2 x y => simp [fall]
  | case3 x => simp [fall]
  | case4 => simp [fall]

/-- Entry `i` of the buffer after the fall loop: the entries 1, 4, 7, ... (the heights) have
gone through `fallOne`, the others are as before. -/
theorem fall_getElem? (ps : List ℚ) (i : Nat) :
    (fall ps)[i]? = (ps[i]?).map (fun v => if i % 3 = 1 then fallOne v else v) := by
  induction ps using fall.induct generalizing i with
  | case1 x y z rest ih =>
    match i with
    | 0 => simp [fall]
    | 1 => simp [fall]
    | 2 => simp [fall]
    | j + 3 =>
      simp only [fall, List.getElem?_cons_succ, ih j]
      have : (j + 3) % 3 = j % 3 := by omega
      rw [this]
  | case2 x y =>
    match i with
    | 0 => simp [fall]
    | 1 => simp [fall]
    | j + 2 => simp [fall]
  | case3 x =>
    match i with
    | 0 => simp [fall]
    | j + 1 => simp [fall]
  | case4 => simp [fall]

theorem fillPositions_height (random : Nat → ℚ) (calls n i : Nat) (y : ℚ)
    (hi : i % 3 = 1) (hy : (fillPositions random calls n)[i]? = some y) :
    ∃ k, y = random k * 40 + 20 := by
  induction n generalizing calls i with
  | zero => simp [fillPositions] at hy
  | succ n ih =>
    match i with
    | 0 => omega
    | 1 =>
      simp only [fillPositions, List.getElem?_cons_succ, List.getElem?_cons_zero,
        Option.some.injEq] at hy
      exact ⟨calls + 1, hy.symm⟩
    | 2 => omega
    | j + 3 =>
      simp only [fillPositions, List.getElem?_cons_succ] at hy
      exact ih (calls + 3) j (by omega) hy

/-- The state of a precipitation effect after `n` calls of its closure: the buffer has gone
through the fall loop `n` times, the closure is still in place. -/
theorem runAnimate_iterate_precipitation (env : Env) (n : Nat) (e : Object3D) (ps : List ℚ)
    (nu : Bool) (hanim : e.userDataAnimate = some AnimateFn.precipitation)
    (hgeo : e.geometry = Geometry.buffer ps nu) :
    ((Object3D.runAnimate env)^[n] e).positions = fall^[n] ps ∧
      ((Object3D.runAnimate env)^[n] e).userDataAnimate = some AnimateFn.precipitation := by
  induction n generalizing e ps nu with
  | zero => simp [Object3D.positions, hgeo, hanim]
  | succ n ih =>
    rw [Function.iterate_succ_apply, Function.iterate_succ_apply]
    have h1 : (e.runAnimate env).userDataAnimate = some AnimateFn.precipitation := by
      simp [Object3D.runAnimate, hanim, hgeo]
    have h2 : (e.runAnimate env).geometry = Geometry.buffer (fall ps) true := by
      simp [Object3D.runAnimate, hanim, hgeo]
    exact ih (e.runAnimate env) (fall ps) true h1 h2

/-- The effect made by `addPrecipitationEffect` carries a buffer geometry holding the
positions filled in by the creation loop, and the precipitation closure. -/
theorem addPrecipitationEffect_geometry (env : Env) (p : ℚ) (s : SceneManager)
    (hscene : s.scene.isSome) (hp : 0 ≤ ⌊1000 * p⌋) :
    ∃ s' e, addPrecipitationEffect env p s = .ok s' ∧ s'.effects = s.effects ++ [e] ∧
      (∃ nu, e.geometry = Geometry.buffer
        (fillPositions env.random s.host.randomCalls ⌊1000 * p⌋.toNat) nu) ∧
      e.userDataAnimate = some AnimateFn.precipitation := by
  have h3 : ¬ (⌊1000 * p⌋ * 3 < 0) := by omega
  obtain ⟨container, scene, camera, renderer, controls, animationId, globe, effects,
    isAnimating, nextObj, host⟩ := s
  cases scene with
  | none => simp at hscene
  | some sc =>
    simp only [addPrecipitationEffect, h3, SceneManager.sceneAdd, animatePrecipitation,
      if_false]
    exact ⟨_, _, rfl, rfl, ⟨_, rfl⟩, rfl⟩

/-- C23. One call of the closure of a precipitation effect (a `Points` object with position
buffer `ps`) leaves the number of buffer entries and of particles as they are, and changes
entry `i` only when it is a height (`i % 3 = 1`): a height `y` becomes `y - 0.1`, or `40`
when `y - 0.1` is below `-20`. The `x` and `z` entries are unchanged. -/
theorem precipitation_tick (env : Env) (e : Object3D) (ps : List ℚ) (nu : Bool)
    (hanim : e.userDataAnimate = some AnimateFn.precipitation)
    (hgeo : e.geometry = Geometry.buffer ps nu) :
    (e.runAnimate env).positions.length = ps.length ∧
    (e.runAnimate env).particleCount = e.particleCount ∧
    (∀ i, (e.runAnimate env).positions[i]?
      = (ps[i]?).map (fun (y : ℚ) => if i % 3 = 1 then (if y - 0.1 < -20 then 40 else y - 0.1)
          else y)) ∧
    (∀ (i : Nat) (y : ℚ), i % 3 = 1 → ps[i]? = some y → ¬ (y - 0.1 < -20) →
      (e.runAnimate env).positions[i]? = some (y - 0.1)) ∧
    (∀ (i : Nat) (y : ℚ), i % 3 = 1 → ps[i]? = some y → y - 0.1 < -20 →
      (e.runAnimate env).positions[i]? = some 40) ∧
    (∀ i, i % 3 ≠ 1 → (e.runAnimate env).positions[i]? = ps[i]?) := by
  have hpos : (e.runAnimate env).positions = fall ps := by
    simp [Object3D.runAnimate, hanim, hgeo, Object3D.positions]
  have hidx : ∀ i, (e.runAnimate env).positions[i]?
      = (ps[i]?).map (fun (y : ℚ) => if i % 3 = 1 then (if y - 0.1 < -20 then 40 else y - 0.1)
          else y) := by
    intro i
    rw [hpos, fall_getElem?]
    rfl
  refine ⟨by rw [hpos, fall_length], ?_, hidx, ?_, ?_, ?_⟩
  · rw [Object3D.particleCount, hpos, fall_length, Object3D.particleCount]
    simp [Object3D.positions, hgeo]
  · intro i y hi hy hlt
    rw [hidx, hy]
    simp [hi, hlt]
  · intro i y hi hy hlt
    rw [hidx, hy]
    simp [hi, hlt]
  · intro i hi
    rw [hidx]
    cases ps[i]? <;> simp [hi]

/-- C23 at `examplePoints`: after one tick the buffer is `[1, 29.9, 2, 3, 40, 4]`. -/
theorem precipitation_tick_witness :
    examplePoints.userDataAnimate = some AnimateFn.precipitation ∧
    examplePoints.geometry = Geometry.buffer [1, 30, 2, 3, -19.95, 4] false ∧
    (examplePoints.runAnimate exampleEnv).positions.length = 6 ∧
    (examplePoints.runAnimate exampleEnv).positions[1]? = some ((30 : ℚ) - 0.1) ∧
    (examplePoints.runAnimate exampleEnv).positions[4]? = some 40 ∧
    (examplePoints.runAnimate exampleEnv).positions[3]? = some 3 := by
  obtain ⟨h1, -, -, h4, h5, h6⟩ :=
    precipitation_tick exampleEnv examplePoints [1, 30, 2, 3, -19.95, 4] false rfl rfl
  refine ⟨rfl, rfl, h1, ?_, ?_, ?_⟩
  · exact h4 1 30 (by decide) rfl (by norm_num)
  · exact h5 4 (-19.95) (by decide) rfl (by norm_num)
  · exact h6 3 (by decide)

theorem exampleEnv_random_unit (k : Nat) :
    0 ≤ exampleEnv.random k ∧ exampleEnv.random k < 1 := by
  have h : ((k % 10 : Nat) : ℚ) < 10 := by exact_mod_cast Nat.mod_lt k (by decide)
  have h0 : (0 : ℚ) ≤ ((k % 10 : Nat) : ℚ) := Nat.cast_nonneg _
  simp only [exampleEnv]
  constructor
  · exact div_nonneg h0 (by norm_num)
  · rw [div_lt_one (by norm_num)]
    exact h

theorem boundedEnv_sin_le (x : ℚ) : |boundedEnv.sin x| ≤ 1 := by
  have hpos : (0 : ℚ) < 1 + x ^ 2 := by positivity
  simp only [boundedEnv]
  rw [abs_div, abs_of_pos hpos, div_le_one hpos, abs_le]
  constructor
  · nlinarith [sq_nonneg (x + 1)]
  · nlinarith [sq_nonneg (x - 1)]

theorem boundedEnv_cos_le (x : ℚ) : |boundedEnv.cos x| ≤ 1 := by
  have hpos : (0 : ℚ) < 1 + x ^ 2 := by positivity
  simp only [boundedEnv]
  rw [abs_div, abs_of_pos hpos, div_le_one hpos, abs_le]
  constructor
  · nlinarith [sq_nonneg x]
  · nlinarith [sq_nonneg x]

/-- The state of a water ring after `n` calls of its closure, started at time `t0`: the
captured time is `t0 + 0.02 * n`, and for `n > 0` the `x` and `z` scales are
`1 + sin(t0 + 0.02 * n) * 0.1 * k`; the `y` scale is untouched. -/
theorem runAnimate_iterate_waterLevel (env : Env) (n : Nat) (e : Object3D) (t0 k : ℚ)
    (hanim : e.userDataAnimate = some (AnimateFn.waterLevel t0 k)) :
    ((Object3D.runAnimate env)^[n] e).userDataAnimate
        = some (AnimateFn.waterLevel (t0 + 0.02 * n) k) ∧
      ((Object3D.runAnimate env)^[n] e).scale.y = e.scale.y ∧
      (0 < n → ((Object3D.runAnimate env)^[n] e).scale.x
          = 1 + env.sin (t0 + 0.02 * n) * 0.1 * k ∧
        ((Object3D.runAnimate env)^[n] e).scale.z
          = 1 + env.sin (t0 + 0.02 * n) * 0.1 * k) := by
  induction n generalizing e t0 with
  | zero => simp [hanim]
  | succ n ih =>
    rw [Function.iterate_succ_apply]
    have h1 : (e.runAnimate env).userDataAnimate
        = some (AnimateFn.waterLevel (t0 + 0.02) k) := by
      simp [Object3D.runAnimate, hanim]
    have hy : (e.runAnimate env).scale.y = e.scale.y := by
      simp [Object3D.runAnimate, hanim]
    have hx : (e.runAnimate env).scale.x = 1 + env.sin (t0 + 0.02) * 0.1 * k ∧
        (e.runAnimate env).scale.z = 1 + env.sin (t0 + 0.02) * 0.1 * k := by
      simp [Object3D.runAnimate, hanim]
    obtain ⟨ih1, ih2, ih3⟩ := ih (e.runAnimate env) (t0 + 0.02) h1
    have ht : t0 + 0.02 + 0.02 * (n : ℚ) = t0 + 0.02 * ((n + 1 : Nat) : ℚ) := by
      push_cast
      ring
    rw [ht] at ih1 ih3
    refine ⟨ih1, by rw [ih2, hy], fun _ => ?_⟩
    rcases Nat.eq_zero_or_pos n with h0 | hpos
    · subst h0
      simpa using hx
    · exact ih3 hpos

/-- C24. The ring that `addSeaLevelEffect(k)` makes (on a state with a scene) has, after `n`
calls of its closure, `x` and `z` scales equal to each other and to
`1 + sin(0.02 * n) * 0.1 * k` (for `n = 0` by `sin 0 = 0`), and `y` scale `1`. With
`|sin| ≤ 1` and `k ≥ 0` the scale deviates from `1` by at most `0.1 * k`, and for `k` in
`[0, 1]` it is positive (at least `0.9`). -/
theorem seaLevelRing_scale_oscillates (env : Env) (k : ℚ) (s : SceneManager) (n : Nat)
    (hscene : s.scene.isSome) (hsin0 : env.sin 0 = 0) (hsin : ∀ x, |env.sin x| ≤ 1) :
    ∃ s' e, addSeaLevelEffect env k s = .ok s' ∧ s'.effects = s.effects ++ [e] ∧
      e.isSeaLevelRing = true ∧
      ((Object3D.runAnimate env)^[n] e).scale.x = 1 + env.sin (0.02 * n) * 0.1 * k ∧
      ((Object3D.runAnimate env)^[n] e).scale.z = ((Object3D.runAnimate env)^[n] e).scale.x ∧
      ((Object3D.runAnimate env)^[n] e).scale.y = 1 ∧
      (0 ≤ k → |((Object3D.runAnimate env)^[n] e).scale.x - 1| ≤ 0.1 * k) ∧
      (0 ≤ k → k ≤ 1 → 0 < ((Object3D.runAnimate env)^[n] e).scale.x) := by
  obtain ⟨s', e, hok, ⟨-, -, heff, -, -⟩, hring, -, -, -, hanim, hscale⟩ :=
    addSeaLevelEffect_added_full env k s hscene
  obtain ⟨-, hy, hxz⟩ := runAnimate_iterate_waterLevel env n e 0 k hanim
  have hx : ((Object3D.runAnimate env)^[n] e).scale.x = 1 + env.sin (0.02 * n) * 0.1 * k ∧
      ((Object3D.runAnimate env)^[n] e).scale.z = 1 + env.sin (0.02 * n) * 0.1 * k := by
    rcases Nat.eq_zero_or_pos n with h0 | hpos
    · subst h0
      simp [hscale, hsin0]
    · simpa using hxz hpos
  have hb := abs_le.mp (hsin (0.02 * n))
  refine ⟨s', e, hok, heff, hring, hx.1, by rw [hx.2, hx.1], by rw [hy, hscale], ?_, ?_⟩
  · intro hk
    rw [hx.1, abs_le]
    constructor <;> nlinarith [hb.1, hb.2]
  · intro hk0 hk1
    rw [hx.1]
    nlinarith [hb.1, hb.2]

/-- C24 at `exampleInitial` in `boundedEnv`, intensity `0.5`, after three ticks. -/
theorem seaLevelRing_scale_oscillates_witness :
    ∃ s' e, addSeaLevelEffect boundedEnv 0.5 exampleInitial = .ok s' ∧
      s'.effects = exampleInitial.effects ++ [e] ∧ e.isSeaLevelRing = true ∧
      ((Object3D.runAnimate boundedEnv)^[3] e).scale.x
        = 1 + boundedEnv.sin (0.02 * (3 : Nat)) * 0.1 * 0.5 ∧
      ((Object3D.runAnimate boundedEnv)^[3] e).scale.z
        = ((Object3D.runAnimate boundedEnv)^[3] e).scale.x ∧
      |((Object3D.runAnimate boundedEnv)^[3] e).scale.x - 1| ≤ 0.1 * 0.5 ∧
      0 < ((Object3D.runAnimate boundedEnv)^[3] e).scale.x := by
  obtain ⟨s', e, h1, h2, h3, h4, h5, -, h7, h8⟩ :=
    seaLevelRing_scale_oscillates boundedEnv 0.5 exampleInitial 3 rfl
      (by simp [boundedEnv]) boundedEnv_sin_le
  exact ⟨s', e, h1, h2, h3, h4, h5, h7 (by norm_num), h8 (by norm_num) (by norm_num)⟩

theorem cameraTarget_distanceToSquared_bounds (env : Env) (p : ℚ)
    (hsin : ∀ x, |env.sin x| ≤ 1) (hcos : ∀ x, |env.cos x| ≤ 1) (hp0 : 0 ≤ p) (hp1 : p ≤ 1) :
    625 ≤ (cameraTarget env p).distanceToSquared ⟨0, 0, 0⟩ ∧
      (cameraTarget env p).distanceToSquared ⟨0, 0, 0⟩ ≤ 1725 := by
  have hs := abs_le.mp (hsin (p * env.PI * 2))
  have hc := abs_le.mp (hcos (p * env.PI))
  simp only [cameraTarget, Vector3.distanceToSquared, sub_zero]
  constructor
  · nlinarith [mul_self_nonneg (env.sin (p * env.PI * 2)),
      mul_self_nonneg (env.cos (p * env.PI))]
  · nlinarith [hs.1, hs.2, hc.1, hc.2]

/-- C27. With `|sin| ≤ 1`, `|cos| ≤ 1` and `p` in `[0, 1]`, the camera target of
`updateStoryProgress(p, _)` is at a distance `d` from the origin with `25 ≤ d ≤ 50` (its
square is between `625` and `1725`); `d` lies between the `minDistance` and `maxDistance`
that `createControls` sets, and exceeds the radii `10` of the globe and `12` of the heat
haze. -/
theorem cameraTarget_distance_range (env : Env) (p : ℚ) (s s' : SceneManager)
    (c : OrbitControls) (hsin : ∀ x, |env.sin x| ≤ 1) (hcos : ∀ x, |env.cos x| ≤ 1)
    (hp0 : 0 ≤ p) (hp1 : p ≤ 1) (hc : createControls s = .ok s')
    (hcs : s'.controls = some c) :
    625 ≤ (cameraTarget env p).distanceToSquared ⟨0, 0, 0⟩ ∧
    (cameraTarget env p).distanceToSquared ⟨0, 0, 0⟩ ≤ 1725 ∧
    25 ≤ Real.sqrt (((cameraTarget env p).distanceToSquared ⟨0, 0, 0⟩ : ℚ) : ℝ) ∧
    Real.sqrt (((cameraTarget env p).distanceToSquared ⟨0, 0, 0⟩ : ℚ) : ℝ) ≤ 50 ∧
    ((c.minDistance : ℚ) : ℝ)
      ≤ Real.sqrt (((cameraTarget env p).distanceToSquared ⟨0, 0, 0⟩ : ℚ) : ℝ) ∧
    Real.sqrt (((cameraTarget env p).distanceToSquared ⟨0, 0, 0⟩ : ℚ) : ℝ)
      ≤ ((c.maxDistance : ℚ) : ℝ) ∧
    10 < Real.sqrt (((cameraTarget env p).distanceToSquared ⟨0, 0, 0⟩ : ℚ) : ℝ) ∧
    12 < Real.sqrt (((cameraTarget env p).distanceToSquared ⟨0, 0, 0⟩ : ℚ) : ℝ) := by
  obtain ⟨hlo, hhi⟩ := cameraTarget_distanceToSquared_bounds env p hsin hcos hp0 hp1
  have hc' : c.minDistance = 15 ∧ c.maxDistance = 50 := by
    unfold createControls at hc
    cases hr : s.renderer with
    | none => simp [hr] at hc
    | some r =>
      simp only [hr, Except.ok.injEq] at hc
      subst hc
      simp only [Option.some.injEq] at hcs
      subst hcs
      exact ⟨rfl, rfl⟩
  have hloR : (625 : ℝ) ≤ (((cameraTarget env p).distanceToSquared ⟨0, 0, 0⟩ : ℚ) : ℝ) := by
    exact_mod_cast hlo
  have hhiR : (((cameraTarget env p).distanceToSquared ⟨0, 0, 0⟩ : ℚ) : ℝ) ≤ 1725 := by
    exact_mod_cast hhi
  have h25 : (25 : ℝ)
      ≤ Real.sqrt (((cameraTarget env p).distanceToSquared ⟨0, 0, 0⟩ : ℚ) : ℝ) := by
    apply Real.le_sqrt_of_sq_le
    norm_num
    exact hloR
  have h50 : Real.sqrt (((cameraTarget env p).distanceToSquared ⟨0, 0, 0⟩ : ℚ) : ℝ)
      ≤ 50 := by
    rw [Real.sqrt_le_iff]
    constructor
    · norm_num
    · linarith
  refine ⟨hlo, hhi, h25, h50, ?_, ?_, by linarith, by linarith⟩
  · rw [hc'.1]
    push_cast
    linarith
  · rw [hc'.2]
    push_cast
    linarith

/-- C27 at progress `0.5` in `boundedEnv`, with the controls that `createControls` sets on
`exampleInitial`. -/
theorem cameraTarget_distance_range_witness :
    25 ≤ Real.sqrt (((cameraTarget boundedEnv 0.5).distanceToSquared ⟨0, 0, 0⟩ : ℚ) : ℝ) ∧
    Real.sqrt (((cameraTarget boundedEnv 0.5).distanceToSquared ⟨0, 0, 0⟩ : ℚ) : ℝ) ≤ 50 ∧
    ((exampleControls.minDistance : ℚ) : ℝ)
      ≤ Real.sqrt (((cameraTarget boundedEnv 0.5).distanceToSquared ⟨0, 0, 0⟩ : ℚ) : ℝ) ∧
    Real.sqrt (((cameraTarget boundedEnv 0.5).distanceToSquared ⟨0, 0, 0⟩ : ℚ) : ℝ)
      ≤ ((exampleControls.maxDistance : ℚ) : ℝ) := by
  obtain ⟨-, -, h3, h4, h5, h6, -⟩ :=
    cameraTarget_distance_range boundedEnv 0.5 exampleInitial exampleInitial exampleControls
      boundedEnv_sin_le boundedEnv_cos_le (by norm_num) (by norm_num) rfl rfl
  exact ⟨h3, h4, h5, h6⟩

theorem getSeverity_of_thresholds (value : ℚ) (type : String) (lo me hi : ℚ)
    (h : (match thresholdsGet type with
      | some t => t
      | none => ⟨some 1, some 2, some 3⟩) = (⟨some lo, some me, some hi⟩ : Threshold)) :
    DataProcessor.getSeverity value type
      = if |value| < lo then .low else if |value| < me then .medium
        else if |value| < hi then .high else .extreme := by
  simp only [DataProcessor.getSeverity, h, ltMaybe, decide_eq_true_eq]

theorem thresholdsOf_ordered (type : String) :
    0 < (thresholdsOf type).1 ∧ (thresholdsOf type).1 < (thresholdsOf type).2.1 ∧
      (thresholdsOf type).2.1 < (thresholdsOf type).2.2 := by
  unfold thresholdsOf
  split_ifs <;> norm_num

theorem getSeverity_eq_classify (value : ℚ) (type : String)
    (hty : type ∉ objectPrototypeKeys) :
    DataProcessor.getSeverity value type
      = if |value| < (thresholdsOf type).1 then .low
        else if |value| < (thresholdsOf type).2.1 then .medium
        else if |value| < (thresholdsOf type).2.2 then .high else .extreme := by
  apply getSeverity_of_thresholds
  unfold thresholdsGet thresholdsOf
  by_cases h1 : type = "temperature"
  · subst h1
    simp
  by_cases h2 : type = "precipitation"
  · simp [h2]
  by_cases h3 : type = "seaLevel"
  · simp [h3]
  by_cases h4 : type = "co2"
  · simp [h4]
  simp [h1, h2, h3, h4, hty]

/-- The classification of `getSeverity` for every type that is not a property name inherited
from `Object.prototype`: with `(low, medium, high)` the thresholds of the type (those of
`temperature` for a type without an entry), the result is `low` iff `|v| < low`, `medium`
iff `low ≤ |v| < medium`, `high` iff `medium ≤ |v| < high`, `extreme` iff `|v| ≥ high`; it
depends on `|v|` only and is monotone in `|v|`. -/
theorem getSeverity_classification (v w : ℚ) (type : String)
    (hty : type ∉ objectPrototypeKeys) :
    (DataProcessor.getSeverity v type = .low ↔ |v| < (thresholdsOf type).1) ∧
    (DataProcessor.getSeverity v type = .medium
      ↔ (thresholdsOf type).1 ≤ |v| ∧ |v| < (thresholdsOf type).2.1) ∧
    (DataProcessor.getSeverity v type = .high
      ↔ (thresholdsOf type).2.1 ≤ |v| ∧ |v| < (thresholdsOf type).2.2) ∧
    (DataProcessor.getSeverity v type = .extreme ↔ (thresholdsOf type).2.2 ≤ |v|) ∧
    (|v| = |w| → DataProcessor.getSeverity v type = DataProcessor.getSeverity w type) ∧
    (|v| ≤ |w| →
      (DataProcessor.getSeverity v type).level ≤ (DataProcessor.getSeverity w type).level) ∧
    (type ≠ "precipitation" → type ≠ "seaLevel" → type ≠ "co2" →
      thresholdsOf type = (1, 2, 3)) := by
  obtain ⟨h0, h1, h2⟩ := thresholdsOf_ordered type
  rw [getSeverity_eq_classify v type hty, getSeverity_eq_classify w type hty]
  refine ⟨?_, ?_, ?_, ?_, ?_, ?_, ?_⟩
  · split_ifs with c1 c2 c3 <;>
      first
      | exact ⟨fun _ => (by assumption), fun _ => rfl⟩
      | exact ⟨fun h => (by cases h), fun h => (by exfalso; linarith)⟩
  · split_ifs with c1 c2 c3 <;>
      first
      | exact ⟨fun _ => ⟨by linarith, by linarith⟩, fun _ => rfl⟩
      | exact ⟨fun h => (by cases h), fun h => (by exfalso; linarith [h.1, h.2])⟩
  · split_ifs with c1 c2 c3 <;>
      first
      | exact ⟨fun _ => ⟨by linarith, by linarith⟩, fun _ => rfl⟩
      | exact ⟨fun h => (by cases h), fun h => (by exfalso; linarith [h.1, h.2])⟩
  · split_ifs with c1 c2 c3 <;>
      first
      | exact ⟨fun _ => (by linarith), fun _ => rfl⟩
      | exact ⟨fun h => (by cases h), fun h => (by exfalso; linarith)⟩
  · intro h
    rw [h]
  · intro h
    split_ifs <;> simp [Severity.level] <;> linarith
  · intro a b c
    simp [thresholdsOf, a, b, c]

/-- C30. The call `getSeverity(0, 'constructor')` returns `extreme`, and so does
`getSeverity(v, 'constructor')` for every `v`: the read `thresholds['constructor']` finds the
function inherited from `Object.prototype`, which is truthy, so the fallback to the
temperature thresholds is not taken, and each comparison with its missing `low`, `medium`,
`high` is false. With the temperature thresholds `(1, 2, 3)` the value `0` is `low`, as
`getSeverity(0, 'humidity')` shows. -/
theorem getSeverity_inherited_key :
    DataProcessor.getSeverity 0 "constructor" = .extreme ∧
    (∀ v : ℚ, DataProcessor.getSeverity v "constructor" = .extreme) ∧
    (∀ (v : ℚ) (type : String), type ∈ objectPrototypeKeys →
      DataProcessor.getSeverity v type = .extreme) ∧
    DataProcessor.getSeverity 0 "humidity" = .low ∧
    DataProcessor.getSeverity 0 "temperature" = .low := by
  have key : ∀ (v : ℚ) (type : String), type ∈ objectPrototypeKeys →
      DataProcessor.getSeverity v type = .extreme := by
    intro v type hty
    have h : thresholdsGet type = some ⟨none, none, none⟩ := by
      simp only [objectPrototypeKeys, List.mem_cons, List.mem_singleton, List.not_mem_nil,
        or_false] at hty
      rcases hty with h | h | h | h | h | h | h | h | h | h | h | h <;> subst h <;> decide
    simp [DataProcessor.getSeverity, h, ltMaybe]
  refine ⟨key 0 _ (by decide), fun v => key v _ (by decide), key, ?_, ?_⟩
  · rw [getSeverity_eq_classify 0 "humidity" (by decide)]
    have : thresholdsOf "humidity" = (1, 2, 3) := by decide
    rw [this]
    norm_num
  · rw [getSeverity_eq_classify 0 "temperature" (by decide)]
    have : thresholdsOf "temperature" = (1, 2, 3) := by decide
    rw [this]
    norm_num

theorem severityRank_range (s : String) :
    1 ≤ DataProcessor.severityRank s ∧ DataProcessor.severityRank s ≤ 4 := by
  unfold DataProcessor.severityRank
  split_ifs <;> omega

/-- The result of `generateCallToAction` in terms of the highest rank `r` among the entries:
the action at index `min (r - 1) 2`. -/
theorem generateCallToAction_of_max (metrics : List (String × ProcessedMetric)) (r : Nat)
    (hmem : ∃ m ∈ metrics, DataProcessor.severityRank m.2.severity = r)
    (hmax : ∀ m ∈ metrics, DataProcessor.severityRank m.2.severity ≤ r) :
    DataProcessor.generateCallToAction metrics = DataProcessor.actions[min (r - 1) 2]? := by
  have h : ((metrics.map (fun m => m.2.severity)).map DataProcessor.severityRank).max?
      = some r := by
    rw [List.max?_eq_some_iff']
    constructor
    · obtain ⟨m, hm, hr⟩ := hmem
      simp only [List.mem_map, exists_exists_and_eq_and]
      exact ⟨m, hm, hr⟩
    · intro b hb
      simp only [List.mem_map, exists_exists_and_eq_and] at hb
      obtain ⟨m, hm, rfl⟩ := hb
      exact hmax m hm
  simp only [DataProcessor.generateCallToAction, h]
  rfl

/-- C22. For a non-empty metrics map `generateCallToAction` returns one of the three action
strings: the first when every severity is `low`, the second when some severity is `medium`
and every one is `low` or `medium`, the third when some severity is `high` or `extreme`. -/
theorem generateCallToAction_by_max_severity (metrics : List (String × ProcessedMetric))
    (hne : metrics ≠ []) :
    (∃ a ∈ DataProcessor.actions, DataProcessor.generateCallToAction metrics = some a) ∧
    ((∀ m ∈ metrics, m.2.severity = "low") →
      DataProcessor.generateCallToAction metrics
        = some "Small changes in our daily lives can make a significant difference.") ∧
    ((∃ m ∈ metrics, m.2.severity = "medium") →
      (∀ m ∈ metrics, m.2.severity = "low" ∨ m.2.severity = "medium") →
      DataProcessor.generateCallToAction metrics
        = some "Community action and policy changes are essential for meaningful impact.") ∧
    ((∃ m ∈ metrics, m.2.severity = "high" ∨ m.2.severity = "extreme") →
      DataProcessor.generateCallToAction metrics
        = some "Every action counts in building climate resilience for future generations.") := by
  obtain ⟨m0, hm0⟩ := List.exists_mem_of_ne_nil metrics hne
  have hex : ∃ r, (∃ m ∈ metrics, DataProcessor.severityRank m.2.severity = r) ∧
      ∀ m ∈ metrics, DataProcessor.severityRank m.2.severity ≤ r := by
    have hmax := List.max?_eq_some_iff'.mp
      (Option.eq_some_of_isSome (o := (metrics.map
        (fun m => DataProcessor.severityRank m.2.severity)).max?) (by
        rw [Option.isSome_iff_ne_none, ne_eq, List.max?_eq_none_iff]
        simpa using hne))
    obtain ⟨h1, h2⟩ := hmax
    simp only [List.mem_map] at h1
    obtain ⟨m, hm, hr⟩ := h1
    refine ⟨_, ⟨m, hm, hr⟩, fun m' hm' => h2 _ ?_⟩
    simp only [List.mem_map]
    exact ⟨m', hm', rfl⟩
  refine ⟨?_, ?_, ?_, ?_⟩
  · obtain ⟨r, hmem, hmax⟩ := hex
    rw [generateCallToAction_of_max metrics r hmem hmax]
    obtain ⟨m, -, hr⟩ := hmem
    have hrange := severityRank_range m.2.severity
    rw [hr] at hrange
    have hr4 : r = 1 ∨ r = 2 ∨ r = 3 ∨ r = 4 := by omega
    rcases hr4 with h | h | h | h <;> subst h <;> simp [DataProcessor.actions]
  · intro hall
    rw [generateCallToAction_of_max metrics 1 ⟨m0, hm0, by rw [hall m0 hm0]; rfl⟩
      (fun m hm => by rw [hall m hm]; decide)]
    rfl
  · rintro ⟨m, hm, hmed⟩ hall
    rw [generateCallToAction_of_max metrics 2 ⟨m, hm, by rw [hmed]; rfl⟩
      (fun m' hm' => by rcases hall m' hm' with h | h <;> rw [h] <;> decide)]
    rfl
  · rintro ⟨m, hm, hhigh⟩
    obtain ⟨r, hmem, hmax⟩ := hex
    rw [generateCallToAction_of_max metrics r hmem hmax]
    have h3 : 3 ≤ r := by
      have := hmax m hm
      rcases hhigh with h | h <;> rw [h] at this
      · exact this
      · exact le_trans (by decide) this
    obtain ⟨m1, -, hr⟩ := hmem
    have hrange := severityRank_range m1.2.severity
    rw [hr] at hrange
    have hr4 : r = 3 ∨ r = 4 := by omega
    rcases hr4 with h | h <;> subst h <;> rfl

/-- C22 at `exampleMetrics`, whose highest severity is `medium`. -/
theorem generateCallToAction_by_max_severity_witness :
    exampleMetrics ≠ [] ∧
    DataProcessor.generateCallToAction exampleMetrics
      = some "Community action and policy changes are essential for meaningful impact." :=
  ⟨by decide,
    (generateCallToAction_by_max_severity exampleMetrics (by decide)).2.2.1
      ⟨_, List.mem_cons_self _ _, rfl⟩ (by decide)⟩

theorem lerp_between (c p t : ℚ) (h0 : 0 ≤ t) (h1 : t ≤ 1) :
    min c p ≤ c + (p - c) * t ∧ c + (p - c) * t ≤ max c p := by
  rcases le_total c p with h | h
  · rw [min_eq_left h, max_eq_right h]
    constructor <;> nlinarith
  · rw [min_eq_right h, max_eq_left h]
    constructor <;> nlinarith

/-- C25. The timeframe `2040` is accepted by `validateUserData`, and for it the fallback
climate data has no defined value at all: the mock data has no `projected_2040`, so
`temperatureChange` and `precipitationChange` are `NaN` and `seaLevelRise` and
`co2Concentration` are `undefined`. For `2030` and `2050` (and a missing timeframe, read as
`2030`) the four values are numbers. -/
theorem fallbackClimateData_2040_undefined :
    "2040" ∈ StoryEngine.validTimeframes ∧
    StoryEngine.fallbackClimateData (some "2040") = ⟨none, none, none, none⟩ ∧
    StoryEngine.fallbackClimateData (some "2030")
      = ⟨some 2.6, some (-70), some 12, some 485⟩ ∧
    StoryEngine.fallbackClimateData (some "2050")
      = ⟨some 4.9, some (-130), some 25, some 550⟩ ∧
    StoryEngine.fallbackClimateData none = StoryEngine.fallbackClimateData (some "2030") := by
  refine ⟨by decide, rfl, ?_, ?_, rfl⟩
  · rw [show StoryEngine.fallbackClimateData (some "2030")
      = ⟨some (17.8 - 15.2), some (780 - 850), some 12, some 485⟩ from rfl]
    norm_num
  · rw [show StoryEngine.fallbackClimateData (some "2050")
      = ⟨some (20.1 - 15.2), some (720 - 850), some 25, some 550⟩ from rfl]
    norm_num

/-- C28. Two calls `getMockDataForLocation('mumbai')` in a row on a fresh service return
different data (temperature now `16` at the first return, `16.8` at the second) and leave
the stored `mockData` changed (`16.8` instead of `15.2`, sea level 2030 `28` instead of
`12`): the modifiers are added to the stored objects at each call. A location without an
entry in the table has the modifiers `0`, and for it the method is repeatable. -/
theorem getMockDataForLocation_not_repeatable :
    (∃ first second stored,
      NasaApiService.getMockDataTwice "mumbai" NasaApiService.generateMockData
        = some (first, second, stored) ∧
      first.temperature.current = 16 ∧ second.temperature.current = 16.8 ∧
      first ≠ second ∧
      stored.temperature.current = 16.8 ∧ stored.seaLevel.projected_2030 = 28 ∧
      NasaApiService.generateMockData.temperature.current = 15.2 ∧
      NasaApiService.generateMockData.seaLevel.projected_2030 = 12 ∧
      stored ≠ NasaApiService.generateMockData) ∧
    (∀ mockData : MockData,
      NasaApiService.getMockDataTwice "paris" mockData
        = some (mockData, mockData, mockData)) := by
  constructor
  · have hkey : toLowerCase "mumbai" = "mumbai" := by decide
    have hmod : NasaApiService.modifiersFor "mumbai" = some ⟨0.8, 100, 8⟩ := rfl
    simp only [NasaApiService.getMockDataTwice, NasaApiService.getMockDataForLocation, hkey,
      hmod, NasaApiService.generateMockData]
    refine ⟨_, _, _, rfl, ?_, ?_, ?_, ?_, ?_, ?_, ?_, ?_⟩
    · norm_num
    · norm_num
    · intro h
      have := congrArg (fun d => d.temperature.current) h
      norm_num at this
    · norm_num
    · norm_num
    · trivial
    · trivial
    · intro h
      have := congrArg (fun d => d.temperature.current) h
      norm_num at this
  · intro mockData
    have hkey : toLowerCase "paris" = "paris" := by decide
    have hmod : NasaApiService.modifiersFor "paris" = some ⟨0, 0, 0⟩ := rfl
    simp [NasaApiService.getMockDataTwice, NasaApiService.getMockDataForLocation, hkey, hmod]

theorem jsLength_replicate (n : Nat) : jsLength (String.mk (List.replicate n 'a')) = n := by
  have ha : ('a').val.toNat < 65536 := by decide
  simp only [jsLength, List.map_replicate, ha, if_true, List.sum_replicate, smul_eq_mul,
    mul_one]

theorem validateStoryRequest_exampleRequest (n : Nat) (hn : 0 < n) :
    validateStoryRequest (some (exampleRequest n))
      = if n > 500 then .rejected 400 "Personal context must be less than 500 characters"
        else .next { exampleRequest n with topic := some "general" } := by
  have hne : String.mk (List.replicate n 'a') ≠ "" := by
    intro h
    have := congrArg String.length h
    simp at this
    omega
  have h1 : ("Mumbai" : String) ∈ mumbaiLocations := by decide
  have h2 : ("2030" : String) ∈ validTimeframes := by decide
  simp only [validateStoryRequest, exampleRequest, truthy, Option.getD_some,
    jsLength_replicate, h1, h2]
  simp [hne]

/-- C21. A request for Mumbai in 2030 whose personal context has exactly 500 characters
passes `validateStoryRequest`: `next` is called, with the topic set to `general` and the
personal context kept. The check is `length > 500`: the first length rejected (status 400,
`Personal context must be less than 500 characters`) is 501. -/
theorem validateStoryRequest_accepts_500 :
    jsLength (String.mk (List.replicate 500 'a')) = 500 ∧
    validateStoryRequest (some (exampleRequest 500))
      = .next
          { location := some "Mumbai", timeframe := some "2030", topic := some "general"
            personalContext := some (String.mk (List.replicate 500 'a')) } ∧
    validateStoryRequest (some (exampleRequest 501))
      = .rejected 400 "Personal context must be less than 500 characters" := by
  refine ⟨jsLength_replicate 500, ?_, ?_⟩
  · rw [validateStoryRequest_exampleRequest 500 (by decide)]
    simp [exampleRequest]
  · rw [validateStoryRequest_exampleRequest 501 (by decide)]
    simp

theorem progressionLoop_eq_map (baseData : MockData) (startYear years : ℚ) (n : Nat) :
    ∀ i : ℤ, (∀ k : Nat, k < n → ((i + 5 * k : ℤ) : ℚ) ≤ years) →
      ¬ (((i + 5 * n : ℤ) : ℚ) ≤ years) →
      DataProcessor.progressionLoop baseData startYear years i
        = (List.range n).map
            (fun (k : Nat) =>
              DataProcessor.progressionEntry baseData startYear years (i + 5 * (k : ℤ))) := by
  induction n with
  | zero =>
    intro i _ hstop
    rw [DataProcessor.progressionLoop]
    simp only [Nat.cast_zero, mul_zero, add_zero] at hstop
    simp [hstop]
  | succ n ih =>
    intro i hlt hstop
    have h0 : (i : ℚ) ≤ years := by simpa using hlt 0 (Nat.succ_pos n)
    rw [DataProcessor.progressionLoop, if_pos h0, List.range_succ_eq_map, List.map_cons,
      List.map_map]
    have ih1 := ih (i + 5) (fun k hk => by
      have := hlt (k + 1) (Nat.succ_lt_succ hk)
      push_cast at this ⊢
      linarith) (by
      push_cast at hstop ⊢
      intro hle
      exact hstop (by linarith))
    rw [ih1]
    simp only [Nat.cast_zero, mul_zero, add_zero, List.cons.injEq, true_and]
    apply List.map_congr_left
    intro k _
    simp only [Function.comp_apply, Nat.succ_eq_add_one, Nat.cast_add, Nat.cast_one]
    congr 1
    ring

/-- C29. For `startYear < endYear`, `generateTimeProgression` returns
`floor((endYear - startYear) / 5) + 1` entries; entry `k` has year `startYear + 5 * k` and,
for each metric, the value `current + (projected_2050 - current) * (5 * k) / (endYear -
startYear)`; entry `0` carries the current values, and every value of every entry lies
between `current` and `projected_2050`. -/
theorem generateTimeProgression_closed_form (baseData : MockData) (startYear endYear : ℚ)
    (h : startYear < endYear) :
    (DataProcessor.generateTimeProgression baseData startYear endYear).length
      = ⌊(endYear - startYear) / 5⌋.toNat + 1 ∧
    (∀ k : Nat, k < ⌊(endYear - startYear) / 5⌋.toNat + 1 →
      (DataProcessor.generateTimeProgression baseData startYear endYear)[k]? = some
        { year := startYear + 5 * k
          temperature := baseData.temperature.current
            + (baseData.temperature.projected_2050 - baseData.temperature.current)
              * (5 * k) / (endYear - startYear)
          precipitation := baseData.precipitation.current
            + (baseData.precipitation.projected_2050 - baseData.precipitation.current)
              * (5 * k) / (endYear - startYear)
          seaLevel := baseData.seaLevel.current
            + (baseData.seaLevel.projected_2050 - baseData.seaLevel.current)
              * (5 * k) / (endYear - startYear)
          co2 := baseData.co2.current
            + (baseData.co2.projected_2050 - baseData.co2.current)
              * (5 * k) / (endYear - startYear) }) ∧
    (DataProcessor.generateTimeProgression baseData startYear endYear)[0]? = some
      { year := startYear
        temperature := baseData.temperature.current
        precipitation := baseData.precipitation.current
        seaLevel := baseData.seaLevel.current
        co2 := baseData.co2.current } ∧
    (∀ e ∈ DataProcessor.generateTimeProgression baseData startYear endYear,
      (min baseData.temperature.current baseData.temperature.projected_2050 ≤ e.temperature ∧
        e.temperature ≤ max baseData.temperature.current baseData.temperature.projected_2050) ∧
      (min baseData.precipitation.current baseData.precipitation.projected_2050
          ≤ e.precipitation ∧
        e.precipitation
          ≤ max baseData.precipitation.current baseData.precipitation.projected_2050) ∧
      (min baseData.seaLevel.current baseData.seaLevel.projected_2050 ≤ e.seaLevel ∧
        e.seaLevel ≤ max baseData.seaLevel.current baseData.seaLevel.projected_2050) ∧
      (min baseData.co2.current baseData.co2.projected_2050 ≤ e.co2 ∧
        e.co2 ≤ max baseData.co2.current baseData.co2.projected_2050)) := by
  have hyq : (0 : ℚ) < endYear - startYear := by linarith
  have hfl0 : 0 ≤ ⌊(endYear - startYear) / 5⌋ := Int.floor_nonneg.mpr (by positivity)
  have hflle : ((⌊(endYear - startYear) / 5⌋ : ℤ) : ℚ) ≤ (endYear - startYear) / 5 :=
    Int.floor_le _
  have hfllt : (endYear - startYear) / 5 < ((⌊(endYear - startYear) / 5⌋ : ℤ) : ℚ) + 1 :=
    Int.lt_floor_add_one _
  have hcast : ((⌊(endYear - startYear) / 5⌋.toNat : ℤ) : ℚ)
      = ((⌊(endYear - startYear) / 5⌋ : ℤ) : ℚ) := by
    rw [Int.toNat_of_nonneg hfl0]
  have hk5 : ∀ k : Nat, k < ⌊(endYear - startYear) / 5⌋.toNat + 1 →
      (5 * k : ℚ) ≤ endYear - startYear := by
    intro k hk
    have h1 : (k : ℤ) ≤ ⌊(endYear - startYear) / 5⌋ := by omega
    have h2 : ((k : ℤ) : ℚ) ≤ ((⌊(endYear - startYear) / 5⌋ : ℤ) : ℚ) := by exact_mod_cast h1
    have h3 : ((k : ℤ) : ℚ) = (k : ℚ) := by push_cast; rfl
    rw [h3] at h2
    linarith
  have hmap := progressionLoop_eq_map baseData startYear (endYear - startYear)
    (⌊(endYear - startYear) / 5⌋.toNat + 1) 0
    (fun k hk => by
      have := hk5 k hk
      push_cast
      linarith)
    (by
      push_cast
      have h3 : ((⌊(endYear - startYear) / 5⌋.toNat : ℕ) : ℚ)
          = ((⌊(endYear - startYear) / 5⌋ : ℤ) : ℚ) := by
        rw [← hcast]
        push_cast
        rfl
      rw [h3]
      intro hle
      linarith)
  have hgen : DataProcessor.generateTimeProgression baseData startYear endYear
      = (List.range (⌊(endYear - startYear) / 5⌋.toNat + 1)).map (fun (k : Nat) =>
          DataProcessor.progressionEntry baseData startYear (endYear - startYear)
            (0 + 5 * (k : ℤ))) := hmap
  have hidx : ∀ k : Nat, k < ⌊(endYear - startYear) / 5⌋.toNat + 1 →
      (DataProcessor.generateTimeProgression baseData startYear endYear)[k]? = some
        (DataProcessor.progressionEntry baseData startYear (endYear - startYear)
          (0 + 5 * k)) := by
    intro k hk
    rw [hgen, List.getElem?_map, List.getElem?_range hk]
    rfl
  refine ⟨by rw [hgen, List.length_map, List.length_range], ?_, ?_, ?_⟩
  · intro k hk
    rw [hidx k hk]
    simp only [DataProcessor.progressionEntry, zero_add, Option.some.injEq,
      ProgressionEntry.mk.injEq]
    push_cast
    refine ⟨rfl, ?_, ?_, ?_, ?_⟩ <;> ring
  · rw [hidx 0 (Nat.succ_pos _)]
    simp [DataProcessor.progressionEntry]
  · intro e he
    rw [hgen, List.mem_map] at he
    obtain ⟨k, hk, rfl⟩ := he
    rw [List.mem_range] at hk
    have hk5' := hk5 k hk
    have ht0 : (0 : ℚ) ≤ ((0 + 5 * (k : ℤ) : ℤ) : ℚ) / (endYear - startYear) := by
      apply div_nonneg _ hyq.le
      push_cast
      positivity
    have ht1 : ((0 + 5 * (k : ℤ) : ℤ) : ℚ) / (endYear - startYear) ≤ 1 := by
      rw [div_le_one hyq]
      push_cast
      linarith
    exact ⟨lerp_between _ _ _ ht0 ht1, lerp_between _ _ _ ht0 ht1, lerp_between _ _ _ ht0 ht1,
      lerp_between _ _ _ ht0 ht1⟩

/-- C29 at the mock data with the default years 2024 and 2050: six entries, the last one
(index 5) for the year 2049. -/
theorem generateTimeProgression_closed_form_witness :
    (2024 : ℚ) < 2050 ∧
    (DataProcessor.generateTimeProgression NasaApiService.generateMockData 2024 2050).length
      = 6 ∧
    ((DataProcessor.generateTimeProgression NasaApiService.generateMockData 2024 2050)[5]?).map
      (fun e => e.year) = some 2049 := by
  have hfloor : ⌊((2050 : ℚ) - 2024) / 5⌋.toNat + 1 = 6 := by
    have : ⌊((2050 : ℚ) - 2024) / 5⌋ = 5 := by
      rw [Int.floor_eq_iff]
      norm_num
    rw [this]
    rfl
  obtain ⟨h1, h2, -⟩ :=
    generateTimeProgression_closed_form NasaApiService.generateMockData 2024 2050
      (by norm_num)
  refine ⟨by norm_num, by rw [h1, hfloor], ?_⟩
  rw [h2 5 (by rw [hfloor]; decide)]
  simp only [Option.map_some', Option.some.injEq]
  norm_num

/-! ## Rounding: integers, then binary formats -/

theorem roundHalfEven_spec (q : ℚ) :
    |(roundHalfEven q : ℚ) - q| < 1 / 2 ∨
      (|(roundHalfEven q : ℚ) - q| = 1 / 2 ∧ roundHalfEven q % 2 = 0) := by
  have h1 := Int.floor_le q
  have h2 := Int.lt_floor_add_one q
  unfold roundHalfEven
  split_ifs with a b c
  · left
    rw [abs_lt]
    constructor <;> linarith
  · left
    push_cast
    rw [abs_lt]
    constructor <;> linarith
  · right
    have h3 : q - ⌊q⌋ = 1 / 2 := le_antisymm (not_lt.mp b) (not_lt.mp a)
    refine ⟨?_, c⟩
    rw [abs_sub_comm, h3]
    norm_num
  · right
    have h3 : q - ⌊q⌋ = 1 / 2 := le_antisymm (not_lt.mp b) (not_lt.mp a)
    constructor
    · push_cast
      have : (⌊q⌋ : ℚ) + 1 - q = 1 / 2 := by linarith
      rw [this]
      norm_num
    · omega

theorem roundHalfEven_unique (q : ℚ) (n : ℤ)
    (h : |(n : ℚ) - q| < 1 / 2 ∨ (|(n : ℚ) - q| = 1 / 2 ∧ n % 2 = 0)) :
    roundHalfEven q = n := by
  have hs := roundHalfEven_spec q
  have hle : |((roundHalfEven q : ℤ) : ℚ) - (n : ℚ)| ≤ |(roundHalfEven q : ℚ) - q|
      + |(n : ℚ) - q| := by
    have := abs_sub_le (roundHalfEven q : ℚ) q n
    rwa [abs_sub_comm q n] at this
  have hcast : |((roundHalfEven q : ℤ) : ℚ) - (n : ℚ)| = ((|roundHalfEven q - n| : ℤ) : ℚ) := by
    push_cast
    rfl
  rcases hs with hs | ⟨hs, hse⟩ <;> rcases h with h | ⟨h, he⟩
  · have : ((|roundHalfEven q - n| : ℤ) : ℚ) < 1 := by rw [← hcast]; linarith
    have : |roundHalfEven q - n| < 1 := by exact_mod_cast this
    have := abs_lt.mp this
    omega
  · have : ((|roundHalfEven q - n| : ℤ) : ℚ) < 1 := by rw [← hcast]; linarith
    have : |roundHalfEven q - n| < 1 := by exact_mod_cast this
    have := abs_lt.mp this
    omega
  · have : ((|roundHalfEven q - n| : ℤ) : ℚ) < 1 := by rw [← hcast]; linarith
    have : |roundHalfEven q - n| < 1 := by exact_mod_cast this
    have := abs_lt.mp this
    omega
  · have : ((|roundHalfEven q - n| : ℤ) : ℚ) ≤ 1 := by rw [← hcast]; linarith
    have : |roundHalfEven q - n| ≤ 1 := by exact_mod_cast this
    have := abs_le.mp this
    omega

theorem roundHalfEven_intCast (n : ℤ) : roundHalfEven (n : ℚ) = n :=
  roundHalfEven_unique _ n (Or.inl (by simp))

theorem roundHalfEven_eq_of_abs_sub_lt (q : ℚ) (n : ℤ) (h : |q - n| < 1 / 2) :
    roundHalfEven q = n :=
  roundHalfEven_unique q n (Or.inl (by rwa [abs_sub_comm]))

theorem abs_roundHalfEven_sub_le (q : ℚ) : |(roundHalfEven q : ℚ) - q| ≤ 1 / 2 := by
  rcases roundHalfEven_spec q with h | ⟨h, -⟩
  · exact h.le
  · exact h.le

theorem roundHalfEven_neg (q : ℚ) : roundHalfEven (-q) = -roundHalfEven q := by
  apply roundHalfEven_unique
  have e : ((-roundHalfEven q : ℤ) : ℚ) - -q = -((roundHalfEven q : ℚ) - q) := by
    push_cast
    ring
  rw [e, abs_neg]
  rcases roundHalfEven_spec q with h | ⟨h, he⟩
  · exact Or.inl h
  · exact Or.inr ⟨h, by omega⟩

theorem roundHalfEven_mono {q r : ℚ} (h : q ≤ r) : roundHalfEven q ≤ roundHalfEven r := by
  by_contra hlt
  push_neg at hlt
  have h1 : (roundHalfEven r : ℚ) + 1 ≤ roundHalfEven q := by exact_mod_cast hlt
  have hq := abs_le.mp (abs_roundHalfEven_sub_le q)
  have hr := abs_le.mp (abs_roundHalfEven_sub_le r)
  have heq : q = r := by linarith
  rw [heq] at hlt
  exact lt_irrefl _ hlt

/-- The rounded value is a nearest integer. -/
theorem roundHalfEven_nearest (q : ℚ) (n : ℤ) : |(roundHalfEven q : ℚ) - q| ≤ |(n : ℚ) - q| := by
  by_contra hlt
  push_neg at hlt
  have h1 := abs_roundHalfEven_sub_le q
  have := roundHalfEven_unique q n (Or.inl (by linarith))
  rw [this] at hlt
  exact lt_irrefl _ hlt

theorem roundFloat_zero (prec : Nat) (emin : ℤ) : roundFloat prec emin 0 = 0 := by
  have h : roundHalfEven 0 = 0 := roundHalfEven_intCast 0
  simp [roundFloat, h]

theorem roundFloat_neg (prec : Nat) (emin : ℤ) (x : ℚ) :
    roundFloat prec emin (-x) = -roundFloat prec emin x := by
  simp only [roundFloat, ulpExponent, abs_neg, neg_div, roundHalfEven_neg]
  push_cast
  ring

theorem roundFloat_nonneg (prec : Nat) (emin : ℤ) {x : ℚ} (hx : 0 ≤ x) :
    0 ≤ roundFloat prec emin x := by
  have hpos : (0 : ℚ) < 2 ^ ulpExponent prec emin x := by positivity
  have h0 : roundHalfEven 0 ≤ roundHalfEven (x / 2 ^ ulpExponent prec emin x) :=
    roundHalfEven_mono (div_nonneg hx hpos.le)
  have h00 : roundHalfEven 0 = 0 := roundHalfEven_intCast 0
  rw [h00] at h0
  have : (0 : ℚ) ≤ roundHalfEven (x / 2 ^ ulpExponent prec emin x) := by exact_mod_cast h0
  exact mul_nonneg this hpos.le

/-- A number `m * 2 ^ e` with `|m| < 2 ^ prec` and `e` not below the least exponent of the
format is a number of the format: rounding leaves it as it is. -/
theorem roundFloat_of_dyadic (prec : Nat) (emin : ℤ) (m e : ℤ) (hm : |m| < 2 ^ prec)
    (he : emin - ((prec : ℤ) - 1) ≤ e) :
    roundFloat prec emin ((m : ℚ) * 2 ^ e) = (m : ℚ) * 2 ^ e := by
  by_cases hm0 : m = 0
  · subst hm0
    simp [roundFloat_zero]
  have hpos : (0 : ℚ) < |(m : ℚ) * 2 ^ e| := by
    rw [abs_pos]
    have : (m : ℚ) ≠ 0 := by exact_mod_cast hm0
    positivity
  have hlt : |(m : ℚ) * 2 ^ e| < ((2 : ℕ) : ℚ) ^ ((prec : ℤ) + e) := by
    rw [abs_mul, abs_of_pos (by positivity : (0 : ℚ) < 2 ^ e), zpow_add₀ (by norm_num)]
    have h1 : |(m : ℚ)| < 2 ^ prec := by exact_mod_cast hm
    have h2 : (0 : ℚ) < 2 ^ e := by positivity
    push_cast
    rw [zpow_natCast]
    exact mul_lt_mul_of_pos_right h1 h2
  have hlog : Int.log 2 |(m : ℚ) * 2 ^ e| < (prec : ℤ) + e :=
    (Int.lt_zpow_iff_log_lt (by norm_num) hpos).mp hlt
  have hE : ulpExponent prec emin ((m : ℚ) * 2 ^ e) ≤ e := by
    unfold ulpExponent
    rcases max_cases (Int.log 2 |(m : ℚ) * 2 ^ e|) emin with ⟨h, -⟩ | ⟨h, -⟩ <;> rw [h] <;> omega
  unfold roundFloat
  generalize ulpExponent prec emin ((m : ℚ) * 2 ^ e) = E at hE ⊢
  obtain ⟨j, hj⟩ := Int.eq_ofNat_of_zero_le (sub_nonneg.mpr hE)
  have hsplit : (2 : ℚ) ^ e = 2 ^ E * 2 ^ j := by
    rw [← zpow_natCast, ← zpow_add₀ (by norm_num), ← hj]
    congr 1
    ring
  have hne : (2 : ℚ) ^ E ≠ 0 := by positivity
  have hq : (m : ℚ) * 2 ^ e / 2 ^ E = ((m * 2 ^ j : ℤ) : ℚ) := by
    rw [div_eq_iff hne, hsplit]
    push_cast
    ring
  rw [hq, roundHalfEven_intCast, hsplit]
  push_cast
  ring

/-- Rounding does not pass a multiple of the unit in the last place: from below. -/
theorem roundFloat_le_of_le_grid (prec : Nat) (emin : ℤ) (x : ℚ) (n : ℤ)
    (h : x ≤ (n : ℚ) * 2 ^ ulpExponent prec emin x) :
    roundFloat prec emin x ≤ (n : ℚ) * 2 ^ ulpExponent prec emin x := by
  have hpos : (0 : ℚ) < 2 ^ ulpExponent prec emin x := by positivity
  have h1 : x / 2 ^ ulpExponent prec emin x ≤ (n : ℚ) := (div_le_iff₀ hpos).mpr h
  have h2 := roundHalfEven_mono h1
  rw [roundHalfEven_intCast] at h2
  have h3 : (roundHalfEven (x / 2 ^ ulpExponent prec emin x) : ℚ) ≤ (n : ℚ) := by
    exact_mod_cast h2
  exact mul_le_mul_of_nonneg_right h3 hpos.le

/-- Rounding does not pass a multiple of the unit in the last place: from above. -/
theorem le_roundFloat_of_grid_le (prec : Nat) (emin : ℤ) (x : ℚ) (n : ℤ)
    (h : (n : ℚ) * 2 ^ ulpExponent prec emin x ≤ x) :
    (n : ℚ) * 2 ^ ulpExponent prec emin x ≤ roundFloat prec emin x := by
  have hpos : (0 : ℚ) < 2 ^ ulpExponent prec emin x := by positivity
  have h1 : (n : ℚ) ≤ x / 2 ^ ulpExponent prec emin x := (le_div_iff₀ hpos).mpr h
  have h2 := roundHalfEven_mono h1
  rw [roundHalfEven_intCast] at h2
  have h3 : (n : ℚ) ≤ (roundHalfEven (x / 2 ^ ulpExponent prec emin x) : ℚ) := by
    exact_mod_cast h2
  exact mul_le_mul_of_nonneg_right h3 hpos.le

theorem roundFloat_le_zpow (prec : Nat) (emin : ℤ) {x : ℚ} (hx : 0 < x) :
    roundFloat prec emin x ≤ 2 ^ (max (Int.log 2 x) emin + 1) := by
  have hlt : x < 2 ^ (Int.log 2 x + 1) := by
    have := Int.lt_zpow_succ_log_self (b := 2) (by norm_num) x
    exact_mod_cast this
  have hle : (2 : ℚ) ^ (Int.log 2 x + 1) ≤ 2 ^ (max (Int.log 2 x) emin + 1) :=
    zpow_le_zpow_right₀ (by norm_num) (by have := le_max_left (Int.log 2 x) emin; omega)
  have hE : ulpExponent prec emin x = max (Int.log 2 x) emin - ((prec : ℤ) - 1) := by
    rw [ulpExponent, abs_of_pos hx]
  have hgrid : (2 : ℚ) ^ (max (Int.log 2 x) emin + 1)
      = ((2 ^ prec : ℤ) : ℚ) * 2 ^ ulpExponent prec emin x := by
    push_cast
    rw [← zpow_natCast, ← zpow_add₀ (by norm_num), hE]
    congr 1
    ring
  rw [hgrid]
  apply roundFloat_le_of_le_grid
  rw [← hgrid]
  exact (hlt.trans_le hle).le

theorem zpow_le_roundFloat (prec : Nat) (emin : ℤ) (hprec : 1 ≤ prec) {x : ℚ} (hx : 0 < x)
    (hk : emin ≤ Int.log 2 x) : 2 ^ Int.log 2 x ≤ roundFloat prec emin x := by
  have hle : (2 : ℚ) ^ Int.log 2 x ≤ x := by
    have := Int.zpow_log_le_self (b := 2) (by norm_num) hx
    exact_mod_cast this
  have hE : ulpExponent prec emin x = Int.log 2 x - ((prec : ℤ) - 1) := by
    rw [ulpExponent, abs_of_pos hx, max_eq_left hk]
  have hgrid : (2 : ℚ) ^ Int.log 2 x
      = ((2 ^ (prec - 1) : ℤ) : ℚ) * 2 ^ ulpExponent prec emin x := by
    push_cast
    rw [← zpow_natCast, ← zpow_add₀ (by norm_num), hE]
    congr 1
    have : ((prec - 1 : ℕ) : ℤ) = (prec : ℤ) - 1 := by omega
    rw [this]
    ring
  rw [hgrid]
  apply le_roundFloat_of_grid_le
  rw [← hgrid]
  exact hle

theorem roundFloat_mono_of_pos (prec : Nat) (emin : ℤ) (hprec : 1 ≤ prec) {x y : ℚ}
    (hx : 0 < x) (hxy : x ≤ y) : roundFloat prec emin x ≤ roundFloat prec emin y := by
  have hy : 0 < y := hx.trans_le hxy
  have hlog : Int.log 2 x ≤ Int.log 2 y := Int.log_mono_right hx hxy
  by_cases hK : max (Int.log 2 x) emin = max (Int.log 2 y) emin
  · have hE : ulpExponent prec emin x = ulpExponent prec emin y := by
      rw [ulpExponent, ulpExponent, abs_of_pos hx, abs_of_pos hy, hK]
    unfold roundFloat
    rw [hE]
    have hpos : (0 : ℚ) < 2 ^ ulpExponent prec emin y := by positivity
    have h1 := roundHalfEven_mono (div_le_div_of_nonneg_right hxy hpos.le)
    have h2 : (roundHalfEven (x / 2 ^ ulpExponent prec emin y) : ℚ)
        ≤ roundHalfEven (y / 2 ^ ulpExponent prec emin y) := by exact_mod_cast h1
    exact mul_le_mul_of_nonneg_right h2 hpos.le
  · have hlt : max (Int.log 2 x) emin + 1 ≤ Int.log 2 y := by
      rcases max_cases (Int.log 2 x) emin with ⟨h1, h1'⟩ | ⟨h1, h1'⟩ <;>
        rcases max_cases (Int.log 2 y) emin with ⟨h2, h2'⟩ | ⟨h2, h2'⟩ <;>
        rw [h1, h2] at hK <;> rw [h1] <;> omega
    have hk : emin ≤ Int.log 2 y := by
      have := le_max_right (Int.log 2 x) emin
      omega
    calc roundFloat prec emin x ≤ 2 ^ (max (Int.log 2 x) emin + 1) :=
          roundFloat_le_zpow prec emin hx
      _ ≤ 2 ^ Int.log 2 y := zpow_le_zpow_right₀ (by norm_num) hlt
      _ ≤ roundFloat prec emin y := zpow_le_roundFloat prec emin hprec hy hk

/-- Rounding is monotone. -/
theorem roundFloat_mono (prec : Nat) (emin : ℤ) (hprec : 1 ≤ prec) {x y : ℚ} (hxy : x ≤ y) :
    roundFloat prec emin x ≤ roundFloat prec emin y := by
  rcases lt_trichotomy 0 x with hx | hx | hx
  · exact roundFloat_mono_of_pos prec emin hprec hx hxy
  · subst hx
    rw [roundFloat_zero]
    exact roundFloat_nonneg prec emin hxy
  · rcases le_or_lt 0 y with hy | hy
    · have h1 : roundFloat prec emin x ≤ 0 := by
        have := roundFloat_nonneg prec emin (neg_nonneg.mpr hx.le)
        rw [roundFloat_neg] at this
        linarith
      exact h1.trans (roundFloat_nonneg prec emin hy)
    · have := roundFloat_mono_of_pos prec emin hprec (neg_pos.mpr hy) (neg_le_neg hxy)
      rw [roundFloat_neg, roundFloat_neg] at this
      linarith

theorem emin_le_ulpExponent (prec : Nat) (emin : ℤ) (x : ℚ) :
    emin - ((prec : ℤ) - 1) ≤ ulpExponent prec emin x := by
  have := le_max_right (Int.log 2 |x|) emin
  unfold ulpExponent
  omega

theorem abs_lt_zpow_ulpExponent (prec : Nat) (emin : ℤ) (x : ℚ) :
    |x| < 2 ^ prec * 2 ^ ulpExponent prec emin x := by
  have h1 : |x| < 2 ^ (Int.log 2 |x| + 1) := by
    have := Int.lt_zpow_succ_log_self (b := 2) (by norm_num) |x|
    exact_mod_cast this
  have h2 : (2 : ℚ) ^ (Int.log 2 |x| + 1) ≤ 2 ^ ((prec : ℤ) + ulpExponent prec emin x) := by
    apply zpow_le_zpow_right₀ (by norm_num)
    have := le_max_left (Int.log 2 |x|) emin
    unfold ulpExponent
    omega
  have h3 : (2 : ℚ) ^ ((prec : ℤ) + ulpExponent prec emin x)
      = 2 ^ prec * 2 ^ ulpExponent prec emin x := by
    rw [zpow_add₀ (by norm_num), zpow_natCast]
  rw [h3] at h2
  exact h1.trans_le h2

/-- The rounded value is a number of the format. -/
theorem roundFloat_dyadic (prec : Nat) (emin : ℤ) (hprec : 1 ≤ prec) (x : ℚ) :
    ∃ m e : ℤ, |m| < 2 ^ prec ∧ emin - ((prec : ℤ) - 1) ≤ e ∧
      roundFloat prec emin x = (m : ℚ) * 2 ^ e := by
  have hpos : (0 : ℚ) < 2 ^ ulpExponent prec emin x := by positivity
  have hlt := abs_lt_zpow_ulpExponent prec emin x
  have hq : |x / 2 ^ ulpExponent prec emin x| < 2 ^ prec := by
    rw [abs_div, abs_of_pos hpos, div_lt_iff₀ hpos]
    exact hlt
  have hq' := abs_lt.mp hq
  have hup : roundHalfEven (x / 2 ^ ulpExponent prec emin x) ≤ 2 ^ prec := by
    have := roundHalfEven_mono hq'.2.le
    have h2 : ((2 : ℚ) ^ prec) = ((2 ^ prec : ℤ) : ℚ) := by push_cast; rfl
    rw [h2, roundHalfEven_intCast] at this
    exact this
  have hlo : -(2 ^ prec) ≤ roundHalfEven (x / 2 ^ ulpExponent prec emin x) := by
    have := roundHalfEven_mono hq'.1.le
    have h2 : -((2 : ℚ) ^ prec) = ((-(2 ^ prec) : ℤ) : ℚ) := by push_cast; rfl
    rw [h2, roundHalfEven_intCast] at this
    exact this
  have hE := emin_le_ulpExponent prec emin x
  have hhalf : (2 : ℤ) ^ prec = 2 * 2 ^ (prec - 1) := by
    rw [← pow_succ']
    congr 1
    omega
  have hpow : (0 : ℤ) < 2 ^ (prec - 1) := by positivity
  rcases lt_or_eq_of_le hup with h1 | h1
  · rcases lt_or_eq_of_le hlo with h2 | h2
    · exact ⟨_, _, abs_lt.mpr ⟨h2, h1⟩, hE, rfl⟩
    · refine ⟨-(2 ^ (prec - 1)), ulpExponent prec emin x + 1, ?_, by omega, ?_⟩
      · rw [abs_neg, abs_of_pos hpow]
        omega
      · unfold roundFloat
        rw [← h2, zpow_add₀ (by norm_num), hhalf]
        push_cast
        ring
  · refine ⟨2 ^ (prec - 1), ulpExponent prec emin x + 1, ?_, by omega, ?_⟩
    · rw [abs_of_pos hpow]
      omega
    · unfold roundFloat
      rw [h1, zpow_add₀ (by norm_num), hhalf]
      push_cast
      ring

/-- Rounding a rounded value changes nothing. -/
theorem roundFloat_idem (prec : Nat) (emin : ℤ) (hprec : 1 ≤ prec) (x : ℚ) :
    roundFloat prec emin (roundFloat prec emin x) = roundFloat prec emin x := by
  obtain ⟨m, e, hm, he, hx⟩ := roundFloat_dyadic prec emin hprec x
  rw [hx]
  exact roundFloat_of_dyadic prec emin m e hm he

/-- The rounding of a number that is not negative is at most twice the number. -/
theorem roundFloat_le_two_mul (prec : Nat) (emin : ℤ) {x : ℚ} (hx : 0 ≤ x) :
    roundFloat prec emin x ≤ 2 * x := by
  have hpos : (0 : ℚ) < 2 ^ ulpExponent prec emin x := by positivity
  have hq0 : 0 ≤ x / 2 ^ ulpExponent prec emin x := div_nonneg hx hpos.le
  have hx' : x = x / 2 ^ ulpExponent prec emin x * 2 ^ ulpExponent prec emin x := by
    field_simp
  have key : (roundHalfEven (x / 2 ^ ulpExponent prec emin x) : ℚ)
      ≤ 2 * (x / 2 ^ ulpExponent prec emin x) := by
    rcases lt_or_le (x / 2 ^ ulpExponent prec emin x) (1 / 2) with h | h
    · have : roundHalfEven (x / 2 ^ ulpExponent prec emin x) = 0 := by
        apply roundHalfEven_eq_of_abs_sub_lt
        rw [Int.cast_zero, sub_zero, abs_of_nonneg hq0]
        exact h
      rw [this]
      push_cast
      linarith
    · have := abs_le.mp (abs_roundHalfEven_sub_le (x / 2 ^ ulpExponent prec emin x))
      linarith
  unfold roundFloat
  calc (roundHalfEven (x / 2 ^ ulpExponent prec emin x) : ℚ) * 2 ^ ulpExponent prec emin x
      ≤ 2 * (x / 2 ^ ulpExponent prec emin x) * 2 ^ ulpExponent prec emin x :=
        mul_le_mul_of_nonneg_right key hpos.le
    _ = 2 * x := by rw [mul_assoc, ← hx']

theorem roundFloat_sub_eq (prec : Nat) (emin : ℤ) (x : ℚ) (n : ℤ) :
    |roundFloat prec emin x - x|
      ≤ |(n : ℚ) * 2 ^ ulpExponent prec emin x - x| := by
  have hpos : (0 : ℚ) < 2 ^ ulpExponent prec emin x := by positivity
  have h := roundHalfEven_nearest (x / 2 ^ ulpExponent prec emin x) n
  have e1 : roundFloat prec emin x - x
      = ((roundHalfEven (x / 2 ^ ulpExponent prec emin x) : ℚ)
          - x / 2 ^ ulpExponent prec emin x) * 2 ^ ulpExponent prec emin x := by
    unfold roundFloat
    field_simp
  have e2 : (n : ℚ) * 2 ^ ulpExponent prec emin x - x
      = ((n : ℚ) - x / 2 ^ ulpExponent prec emin x) * 2 ^ ulpExponent prec emin x := by
    field_simp
  rw [e1, e2, abs_mul, abs_mul, abs_of_pos hpos]
  exact mul_le_mul_of_nonneg_right h hpos.le

theorem roundFloat_nearest_of_pos (prec : Nat) (emin : ℤ) (hprec : 1 ≤ prec) {x : ℚ}
    (hx : 0 < x) (m e : ℤ) (hm : |m| < 2 ^ prec) (he : emin - ((prec : ℤ) - 1) ≤ e) :
    |roundFloat prec emin x - x| ≤ |(m : ℚ) * 2 ^ e - x| := by
  rcases le_or_lt (ulpExponent prec emin x) e with hE | hE
  · obtain ⟨j, hj⟩ := Int.eq_ofNat_of_zero_le (sub_nonneg.mpr hE)
    have hsplit : (2 : ℚ) ^ e = 2 ^ j * 2 ^ ulpExponent prec emin x := by
      rw [← zpow_natCast, ← zpow_add₀ (by norm_num), ← hj]
      congr 1
      ring
    have := roundFloat_sub_eq prec emin x (m * 2 ^ j)
    rw [hsplit]
    push_cast at this
    rw [← mul_assoc]
    exact this
  · have hk : emin < Int.log 2 x := by
      unfold ulpExponent at hE
      rw [abs_of_pos hx] at hE
      rcases max_cases (Int.log 2 x) emin with ⟨h1, h1'⟩ | ⟨h1, h1'⟩ <;> rw [h1] at hE <;> omega
    have hEx : ulpExponent prec emin x = Int.log 2 x - ((prec : ℤ) - 1) := by
      rw [ulpExponent, abs_of_pos hx, max_eq_left hk.le]
    have hle : (2 : ℚ) ^ Int.log 2 x ≤ x := by
      have := Int.zpow_log_le_self (b := 2) (by norm_num) hx
      exact_mod_cast this
    have hgrid : (2 : ℚ) ^ Int.log 2 x
        = ((2 ^ (prec - 1) : ℤ) : ℚ) * 2 ^ ulpExponent prec emin x := by
      push_cast
      rw [← zpow_natCast, ← zpow_add₀ (by norm_num), hEx]
      congr 1
      have : ((prec - 1 : ℕ) : ℤ) = (prec : ℤ) - 1 := by omega
      rw [this]
      ring
    have h1 := roundFloat_sub_eq prec emin x (2 ^ (prec - 1))
    rw [← hgrid] at h1
    have hr : |(m : ℚ) * 2 ^ e| < 2 ^ Int.log 2 x := by
      have hm' : |(m : ℚ)| < 2 ^ prec := by exact_mod_cast hm
      have h2e : (0 : ℚ) < 2 ^ e := by positivity
      rw [abs_mul, abs_of_pos h2e]
      calc |(m : ℚ)| * 2 ^ e < 2 ^ prec * 2 ^ e := mul_lt_mul_of_pos_right hm' h2e
        _ = 2 ^ ((prec : ℤ) + e) := by rw [zpow_add₀ (by norm_num), zpow_natCast]
        _ ≤ 2 ^ Int.log 2 x := zpow_le_zpow_right₀ (by norm_num) (by omega)
    have h3 : |(2 : ℚ) ^ Int.log 2 x - x| = x - 2 ^ Int.log 2 x := by
      rw [abs_sub_comm, abs_of_nonneg (by linarith)]
    have h4 : |x| - |(m : ℚ) * 2 ^ e| ≤ |x - (m : ℚ) * 2 ^ e| := abs_sub_abs_le_abs_sub _ _
    rw [abs_of_pos hx] at h4
    rw [abs_sub_comm ((m : ℚ) * 2 ^ e) x]
    linarith

/-- The rounded value is a number of the format nearest to `x`: no number `m * 2 ^ e` of the
format is nearer. -/
theorem roundFloat_nearest (prec : Nat) (emin : ℤ) (hprec : 1 ≤ prec) (x : ℚ) (m e : ℤ)
    (hm : |m| < 2 ^ prec) (he : emin - ((prec : ℤ) - 1) ≤ e) :
    |roundFloat prec emin x - x| ≤ |(m : ℚ) * 2 ^ e - x| := by
  rcases lt_trichotomy 0 x with hx | hx | hx
  · exact roundFloat_nearest_of_pos prec emin hprec hx m e hm he
  · subst hx
    rw [roundFloat_zero]
    simp
  · have := roundFloat_nearest_of_pos prec emin hprec (neg_pos.mpr hx) (-m) e
      (by rwa [abs_neg]) he
    rw [roundFloat_neg] at this
    have e1 : -roundFloat prec emin x - -x = -(roundFloat prec emin x - x) := by ring
    have e2 : ((-m : ℤ) : ℚ) * 2 ^ e - -x = -((m : ℚ) * 2 ^ e - x) := by
      push_cast
      ring
    rwa [e1, e2, abs_neg, abs_neg] at this

/-- A number that rounding leaves as it is, is a number of the format. -/
theorem dyadic_of_roundFloat_eq (prec : Nat) (emin : ℤ) (hprec : 1 ≤ prec) (x : ℚ)
    (h : roundFloat prec emin x = x) :
    ∃ m e : ℤ, |m| < 2 ^ prec ∧ emin - ((prec : ℤ) - 1) ≤ e ∧ x = (m : ℚ) * 2 ^ e := by
  obtain ⟨m, e, hm, he, hx⟩ := roundFloat_dyadic prec emin hprec x
  exact ⟨m, e, hm, he, by rw [← h, hx]⟩

/-- No number of the format is nearer to `x` than the rounded value (the numbers of the
format given as fixed points of the rounding). -/
theorem roundFloat_nearest_fixed (prec : Nat) (emin : ℤ) (hprec : 1 ≤ prec) (x r : ℚ)
    (hr : roundFloat prec emin r = r) :
    |roundFloat prec emin x - x| ≤ |r - x| := by
  obtain ⟨m, e, hm, he, rfl⟩ := dyadic_of_roundFloat_eq prec emin hprec r hr
  exact roundFloat_nearest prec emin hprec x m e hm he

/-! ## The rounded precipitation buffer -/

theorem fillPositionsWith_exact (random : Nat → ℚ) (calls n : Nat) :
    fillPositionsWith Rounding.exact random calls n = fillPositions random calls n := by
  induction n generalizing calls with
  | zero => rfl
  | succ n ih =>
    rw [fillPositionsWith, fillPositions, ih]
    rfl

theorem fallWith_exact (ps : List ℚ) : fallWith Rounding.exact ps = fall ps := by
  induction ps using fall.induct with
  | case1 x y z rest ih =>
    rw [fallWith, fall, ih]
    rfl
  | case2 x y => rfl
  | case3 x => rfl
  | case4 => rfl

theorem binary64_mono {x y : ℚ} (h : x ≤ y) : binary64 x ≤ binary64 y :=
  roundFloat_mono 53 (-1022) (by decide) h

theorem binary32_mono {x y : ℚ} (h : x ≤ y) : binary32 x ≤ binary32 y :=
  roundFloat_mono 24 (-126) (by decide) h

/-- A number `m * 2 ^ e` with `|m| < 2 ^ 53` and `e ≥ -1074` is a binary64 number. -/
theorem binary64_of_dyadic (x : ℚ) (m e : ℤ) (hx : x = (m : ℚ) * 2 ^ e)
    (hm : |m| < 2 ^ 53) (he : -1074 ≤ e) : binary64 x = x := by
  rw [hx]
  exact roundFloat_of_dyadic 53 (-1022) m e hm (by omega)

/-- A number `m * 2 ^ e` with `|m| < 2 ^ 24` and `e ≥ -149` is a binary32 number. -/
theorem binary32_of_dyadic (x : ℚ) (m e : ℤ) (hx : x = (m : ℚ) * 2 ^ e)
    (hm : |m| < 2 ^ 24) (he : -149 ≤ e) : binary32 x = x := by
  rw [hx]
  exact roundFloat_of_dyadic 24 (-126) m e hm (by omega)

theorem binary64_intCast_small (n : ℤ) (hn : |n| < 2 ^ 53) : binary64 (n : ℚ) = n :=
  binary64_of_dyadic _ n 0 (by simp) hn (by decide)

theorem binary32_intCast_small (n : ℤ) (hn : |n| < 2 ^ 24) : binary32 (n : ℚ) = n :=
  binary32_of_dyadic _ n 0 (by simp) hn (by decide)

/-- Evaluating a rounding: with `2 ^ k ≤ x < 2 ^ (k + 1)` and `n` the integer within one
half of `x` in units of the last place, the rounded value is `n` units. -/
theorem roundFloat_eq_of_near (prec : Nat) (emin : ℤ) (x : ℚ) (k n : ℤ)
    (hlo : 2 ^ k ≤ x) (hhi : x < 2 ^ (k + 1))
    (hn : |x / 2 ^ (max k emin - ((prec : ℤ) - 1)) - n| < 1 / 2) :
    roundFloat prec emin x = (n : ℚ) * 2 ^ (max k emin - ((prec : ℤ) - 1)) := by
  have hx : 0 < x := lt_of_lt_of_le (by positivity) hlo
  have h1 : k ≤ Int.log 2 x :=
    (Int.zpow_le_iff_le_log (by norm_num) hx).mp (by exact_mod_cast hlo)
  have h2 : Int.log 2 x < k + 1 :=
    (Int.lt_zpow_iff_log_lt (by norm_num) hx).mp (by exact_mod_cast hhi)
  have hk : Int.log 2 x = k := by omega
  have hE : ulpExponent prec emin x = max k emin - ((prec : ℤ) - 1) := by
    rw [ulpExponent, abs_of_pos hx, hk]
  unfold roundFloat
  rw [hE, roundHalfEven_eq_of_abs_sub_lt _ n hn]

theorem binary64_natCast_small (n : Nat) (hn : n < 2 ^ 53) : binary64 (n : ℚ) = n := by
  have := binary64_intCast_small (n : ℤ) (by rw [abs_of_nonneg (by positivity)]; exact_mod_cast hn)
  simpa using this

theorem binary32_natCast_small (n : Nat) (hn : n < 2 ^ 24) : binary32 (n : ℚ) = n := by
  have := binary32_intCast_small (n : ℤ) (by rw [abs_of_nonneg (by positivity)]; exact_mod_cast hn)
  simpa using this

theorem binary64_nonneg {x : ℚ} (hx : 0 ≤ x) : 0 ≤ binary64 x :=
  roundFloat_nonneg 53 (-1022) hx

/-- The height a particle is created with, from a random number in `[0, 1)`: computed in
numbers and stored as binary32, it lies in `[20, 60]`. -/
theorem created_height_range (r : ℚ) (h0 : 0 ≤ r) (h1 : r < 1) :
    20 ≤ binary32 (binary64 (binary64 (r * 40) + 20)) ∧
      binary32 (binary64 (binary64 (r * 40) + 20)) ≤ 60 := by
  have e0 : binary64 (0 : ℚ) = 0 := by simpa using binary64_natCast_small 0 (by norm_num)
  have e20 : binary64 (20 : ℚ) = 20 := by simpa using binary64_natCast_small 20 (by norm_num)
  have e40 : binary64 (40 : ℚ) = 40 := by simpa using binary64_natCast_small 40 (by norm_num)
  have e60 : binary64 (60 : ℚ) = 60 := by simpa using binary64_natCast_small 60 (by norm_num)
  have f20 : binary32 (20 : ℚ) = 20 := by simpa using binary32_natCast_small 20 (by norm_num)
  have f60 : binary32 (60 : ℚ) = 60 := by simpa using binary32_natCast_small 60 (by norm_num)
  have a1 : 0 ≤ binary64 (r * 40) := by
    have := binary64_mono (show (0 : ℚ) ≤ r * 40 by linarith)
    rwa [e0] at this
  have a2 : binary64 (r * 40) ≤ 40 := by
    have := binary64_mono (show r * 40 ≤ (40 : ℚ) by linarith)
    rwa [e40] at this
  have b1 : 20 ≤ binary64 (binary64 (r * 40) + 20) := by
    have := binary64_mono (show (20 : ℚ) ≤ binary64 (r * 40) + 20 by linarith)
    rwa [e20] at this
  have b2 : binary64 (binary64 (r * 40) + 20) ≤ 60 := by
    have := binary64_mono (show binary64 (r * 40) + 20 ≤ (60 : ℚ) by linarith)
    rwa [e60] at this
  constructor
  · have := binary32_mono b1
    rwa [f20] at this
  · have := binary32_mono b2
    rwa [f60] at this

/-- One tick of a stored height that is at most `60`: the new stored height is in
`[-20, 60]`. -/
theorem fallOneWith_ieee_range (y : ℚ) (hy : y ≤ 60) :
    -20 ≤ fallOneWith Rounding.ieee y ∧ fallOneWith Rounding.ieee y ≤ 60 := by
  have e60 : binary64 (60 : ℚ) = 60 := by simpa using binary64_natCast_small 60 (by norm_num)
  have f60 : binary32 (60 : ℚ) = 60 := by simpa using binary32_natCast_small 60 (by norm_num)
  have f40 : binary32 (40 : ℚ) = 40 := by simpa using binary32_natCast_small 40 (by norm_num)
  have ha : 0 ≤ binary64 0.1 := binary64_nonneg (by norm_num)
  have h1 : binary32 (binary64 (y - binary64 0.1)) ≤ 60 := by
    have := binary32_mono (binary64_mono (show y - binary64 0.1 ≤ (60 : ℚ) by linarith))
    rwa [e60, f60] at this
  simp only [fallOneWith, Rounding.ieee]
  split_ifs with h
  · rw [f40]
    constructor <;> norm_num
  · exact ⟨not_lt.mp h, h1⟩

theorem fallWith_length (R : Rounding) (ps : List ℚ) : (fallWith R ps).length = ps.length := by
  induction ps using fall.induct with
  | case1 x y z rest ih => simp [fallWith, ih]
  | case2 x y => simp [fallWith]
  | case3 x => simp [fallWith]
  | case4 => simp [fallWith]

theorem fallWith_getElem? (R : Rounding) (ps : List ℚ) (i : Nat) :
    (fallWith R ps)[i]? = (ps[i]?).map (fun v => if i % 3 = 1 then fallOneWith R v else v) := by
  induction ps using fall.induct generalizing i with
  | case1 x y z rest ih =>
    match i with
    | 0 => simp [fallWith]
    | 1 => simp [fallWith]
    | 2 => simp [fallWith]
    | j + 3 =>
      simp only [fallWith, List.getElem?_cons_succ, ih j]
      have : (j + 3) % 3 = j % 3 := by omega
      rw [this]
  | case2 x y =>
    match i with
    | 0 => simp [fallWith]
    | 1 => simp [fallWith]
    | j + 2 => simp [fallWith]
  | case3 x =>
    match i with
    | 0 => simp [fallWith]
    | j + 1 => simp [fallWith]
  | case4 => simp [fallWith]

theorem fillPositionsWith_length (R : Rounding) (random : Nat → ℚ) (calls n : Nat) :
    (fillPositionsWith R random calls n).length = 3 * n := by
  induction n generalizing calls with
  | zero => rfl
  | succ n ih =>
    simp only [fillPositionsWith, List.length_cons, ih]
    omega

theorem fillPositionsWith_height (R : Rounding) (random : Nat → ℚ) (calls n i : Nat) (y : ℚ)
    (hi : i % 3 = 1) (hy : (fillPositionsWith R random calls n)[i]? = some y) :
    ∃ k, y = R.float32 (R.double (R.double (random k * 40) + 20)) := by
  induction n generalizing calls i with
  | zero => simp [fillPositionsWith] at hy
  | succ n ih =>
    match i with
    | 0 => omega
    | 1 =>
      simp only [fillPositionsWith, List.getElem?_cons_succ, List.getElem?_cons_zero,
        Option.some.injEq] at hy
      exact ⟨calls + 1, hy.symm⟩
    | 2 => omega
    | j + 3 =>
      simp only [fillPositionsWith, List.getElem?_cons_succ] at hy
      exact ih (calls + 3) j (by omega) hy

/-- Heights at most `60` stay in `[-20, 60]` over any number of ticks, and the buffer keeps
its length. -/
theorem fallWith_iterate_range (t : Nat) (ps : List ℚ)
    (h : ∀ (i : Nat) (y : ℚ), i % 3 = 1 → ps[i]? = some y → -20 ≤ y ∧ y ≤ 60) :
    ((fallWith Rounding.ieee)^[t] ps).length = ps.length ∧
      ∀ (i : Nat) (y : ℚ), i % 3 = 1 → ((fallWith Rounding.ieee)^[t] ps)[i]? = some y →
        -20 ≤ y ∧ y ≤ 60 := by
  induction t generalizing ps with
  | zero => exact ⟨rfl, h⟩
  | succ t ih =>
    rw [Function.iterate_succ_apply]
    have hstep : ∀ (i : Nat) (y : ℚ), i % 3 = 1 → (fallWith Rounding.ieee ps)[i]? = some y →
        -20 ≤ y ∧ y ≤ 60 := by
      intro i y hi hy
      rw [fallWith_getElem?] at hy
      cases hps : ps[i]? with
      | none => rw [hps] at hy; cases hy
      | some v =>
        rw [hps] at hy
        simp only [Option.map_some', hi, if_true, Option.some.injEq] at hy
        subst hy
        exact fallOneWith_ieee_range v (h i v hi hps).2
    obtain ⟨h1, h2⟩ := ih (fallWith Rounding.ieee ps) hstep
    exact ⟨by rw [h1, fallWith_length], h2⟩

/-! ## The rounded camera step -/

theorem updateStoryProgressWith_exact (env : Env) (p : ℚ) (d : Option ClimateData)
    (s : SceneManager) :
    updateStoryProgressWith Rounding.exact env p d s = updateStoryProgress env p d s := rfl

theorem binary64_neg (x : ℚ) : binary64 (-x) = -binary64 x :=
  roundFloat_neg 53 (-1022) x

theorem binary64_idem (x : ℚ) : binary64 (binary64 x) = binary64 x :=
  roundFloat_idem 53 (-1022) (by decide) x

theorem binary64_zero : binary64 0 = 0 :=
  roundFloat_zero 53 (-1022)

theorem binary64_le_two_mul {x : ℚ} (hx : 0 ≤ x) : binary64 x ≤ 2 * x :=
  roundFloat_le_two_mul 53 (-1022) hx

theorem lerpCoordinateWith_neg (a t alpha : ℚ) :
    lerpCoordinateWith Rounding.ieee (-a) (-t) alpha
      = -lerpCoordinateWith Rounding.ieee a t alpha := by
  simp only [lerpCoordinateWith, Rounding.ieee]
  have e1 : -t - -a = -(t - a) := by ring
  rw [e1, binary64_neg, neg_mul, binary64_neg, ← neg_add, binary64_neg]

/-- One step on a coordinate that is below its target: the new value is a number between
the old value and the target, and it is the target only if the old value was. -/
theorem lerpCoordinateWith_of_le (a t : ℚ) (ha : binary64 a = a) (ht : binary64 t = t)
    (hle : a ≤ t) :
    a ≤ lerpCoordinateWith Rounding.ieee a t (binary64 0.05) ∧
      lerpCoordinateWith Rounding.ieee a t (binary64 0.05) ≤ t ∧
      (lerpCoordinateWith Rounding.ieee a t (binary64 0.05) = t → a = t) := by
  have hα0 : 0 ≤ binary64 0.05 := binary64_nonneg (by norm_num)
  have hα1 : binary64 0.05 ≤ 0.1 := by
    have := binary64_le_two_mul (show (0 : ℚ) ≤ 0.05 by norm_num)
    linarith
  have hd0 : 0 ≤ binary64 (t - a) := binary64_nonneg (by linarith)
  have hd1 : binary64 (t - a) ≤ 2 * (t - a) := binary64_le_two_mul (by linarith)
  have he0 : 0 ≤ binary64 (binary64 (t - a) * binary64 0.05) :=
    binary64_nonneg (mul_nonneg hd0 hα0)
  have he1 : binary64 (binary64 (t - a) * binary64 0.05) ≤ 0.4 * (t - a) := by
    have h1 := binary64_le_two_mul (mul_nonneg hd0 hα0)
    have h2 : binary64 (t - a) * binary64 0.05 ≤ 2 * (t - a) * 0.1 :=
      mul_le_mul hd1 hα1 hα0 (by linarith)
    linarith
  have hlo : a ≤ binary64 (a + binary64 (binary64 (t - a) * binary64 0.05)) := by
    have := binary64_mono (show a ≤ a + binary64 (binary64 (t - a) * binary64 0.05) by linarith)
    rwa [ha] at this
  have hhi : binary64 (a + binary64 (binary64 (t - a) * binary64 0.05)) ≤ t := by
    have := binary64_mono
      (show a + binary64 (binary64 (t - a) * binary64 0.05) ≤ t by linarith)
    rwa [ht] at this
  refine ⟨hlo, hhi, ?_⟩
  intro heq
  have hnear := roundFloat_nearest_fixed 53 (-1022) (by decide)
    (a + binary64 (binary64 (t - a) * binary64 0.05)) a ha
  have heq' : roundFloat 53 (-1022) (a + binary64 (binary64 (t - a) * binary64 0.05)) = t := heq
  rw [heq'] at hnear
  have h1 : |a - (a + binary64 (binary64 (t - a) * binary64 0.05))|
      = binary64 (binary64 (t - a) * binary64 0.05) := by
    rw [abs_sub_comm, add_sub_cancel_left, abs_of_nonneg he0]
  rw [h1] at hnear
  have h2 := le_abs_self (t - (a + binary64 (binary64 (t - a) * binary64 0.05)))
  linarith

/-- One step on a coordinate, whichever side of the target it is on: the new value is a
number, it is not farther from the target than the old one and lies between the two, and it
is the target exactly when the old value was. -/
theorem lerpCoordinateWith_ieee (a t : ℚ) (ha : binary64 a = a) (ht : binary64 t = t) :
    binary64 (lerpCoordinateWith Rounding.ieee a t (binary64 0.05))
        = lerpCoordinateWith Rounding.ieee a t (binary64 0.05) ∧
      min a t ≤ lerpCoordinateWith Rounding.ieee a t (binary64 0.05) ∧
      lerpCoordinateWith Rounding.ieee a t (binary64 0.05) ≤ max a t ∧
      |lerpCoordinateWith Rounding.ieee a t (binary64 0.05) - t| ≤ |a - t| ∧
      (lerpCoordinateWith Rounding.ieee a t (binary64 0.05) = t ↔ a = t) := by
  have hidem : binary64 (lerpCoordinateWith Rounding.ieee a t (binary64 0.05))
      = lerpCoordinateWith Rounding.ieee a t (binary64 0.05) := binary64_idem _
  have hself : a = t → lerpCoordinateWith Rounding.ieee a t (binary64 0.05) = t := by
    intro h
    subst h
    simp only [lerpCoordinateWith, Rounding.ieee, sub_self, binary64_zero, zero_mul, add_zero, ha]
  rcases le_total a t with hle | hle
  · obtain ⟨h1, h2, h3⟩ := lerpCoordinateWith_of_le a t ha ht hle
    refine ⟨hidem, by rw [min_eq_left hle]; exact h1, by rw [max_eq_right hle]; exact h2, ?_,
      h3, hself⟩
    rw [abs_sub_comm, abs_of_nonneg (by linarith), abs_sub_comm, abs_of_nonneg (by linarith)]
    linarith
  · have ha' : binary64 (-a) = -a := by rw [binary64_neg, ha]
    have ht' : binary64 (-t) = -t := by rw [binary64_neg, ht]
    obtain ⟨h1, h2, h3⟩ := lerpCoordinateWith_of_le (-a) (-t) ha' ht' (by linarith)
    rw [lerpCoordinateWith_neg] at h1 h2 h3
    refine ⟨hidem, by rw [min_eq_right hle]; linarith, by rw [max_eq_left hle]; linarith, ?_,
      fun h => ?_, hself⟩
    · rw [abs_of_nonneg (by linarith), abs_of_nonneg (by linarith)]
      linarith
    · have := h3 (by rw [h])
      linarith

theorem lerpCoordinateWith_self (a alpha : ℚ) (ha : binary64 a = a) :
    lerpCoordinateWith Rounding.ieee a a alpha = a := by
  simp only [lerpCoordinateWith, Rounding.ieee, sub_self, binary64_zero, zero_mul, add_zero, ha]

theorem IsDouble.lerpCoordinateWith {a t : ℚ} (ha : IsDouble a) (ht : IsDouble t) :
    IsDouble (lerpCoordinateWith Rounding.ieee a t (binary64 0.05)) := by
  obtain ⟨h1, h2, h3, -, -⟩ := lerpCoordinateWith_ieee a t ha.1 ht.1
  refine ⟨h1, ?_⟩
  have ha2 := abs_lt.mp ha.2
  have ht2 := abs_lt.mp ht.2
  rw [abs_lt]
  constructor
  · rcases min_cases a t with ⟨h, -⟩ | ⟨h, -⟩ <;> rw [h] at h2 <;> linarith
  · rcases max_cases a t with ⟨h, -⟩ | ⟨h, -⟩ <;> rw [h] at h3 <;> linarith

/-- One rounded `lerp` step of a vector of numbers toward a vector of numbers: the result is
a vector of numbers, not farther from the target, and on the target exactly when the start
was. -/
theorem Vector3.lerpWith_ieee (P T : Vector3) (hP : P.IsDouble) (hT : T.IsDouble) :
    (P.lerpWith Rounding.ieee T (binary64 0.05)).IsDouble ∧
      (P.lerpWith Rounding.ieee T (binary64 0.05)).distanceToSquared T
        ≤ P.distanceToSquared T ∧
      (P.lerpWith Rounding.ieee T (binary64 0.05) = T ↔ P = T) := by
  obtain ⟨hx, hy, hz⟩ := hP
  obtain ⟨tx, ty, tz⟩ := hT
  obtain ⟨-, -, -, ax, ex⟩ := lerpCoordinateWith_ieee P.x T.x hx.1 tx.1
  obtain ⟨-, -, -, ay, ey⟩ := lerpCoordinateWith_ieee P.y T.y hy.1 ty.1
  obtain ⟨-, -, -, az, ez⟩ := lerpCoordinateWith_ieee P.z T.z hz.1 tz.1
  refine ⟨⟨hx.lerpCoordinateWith tx, hy.lerpCoordinateWith ty, hz.lerpCoordinateWith tz⟩, ?_, ?_⟩
  · simp only [Vector3.distanceToSquared, Vector3.lerpWith]
    have sx := abs_le_iff_mul_self_le.mp ax
    have sy := abs_le_iff_mul_self_le.mp ay
    have sz := abs_le_iff_mul_self_le.mp az
    linarith
  · obtain ⟨px, py, pz⟩ := P
    obtain ⟨qx, qy, qz⟩ := T
    simp only [Vector3.lerpWith, Vector3.mk.injEq] at ex ey ez ⊢
    rw [ex, ey, ez]

/-- The camera target computed with rounding, for a progress in `[0, 1]` and `sin`, `cos`
bounded by `1`: a vector of numbers with `|x| ≤ 20`, `|y| ≤ 10` and `z` in `[25, 35]`. -/
theorem cameraTargetWith_ieee_range (env : Env) (p : ℚ) (hsin : ∀ x, |env.sin x| ≤ 1)
    (hcos : ∀ x, |env.cos x| ≤ 1) (hp0 : 0 ≤ p) (hp1 : p ≤ 1) :
    (cameraTargetWith Rounding.ieee env p).IsDouble ∧
      |(cameraTargetWith Rounding.ieee env p).x| ≤ 20 ∧
      |(cameraTargetWith Rounding.ieee env p).y| ≤ 10 ∧
      25 ≤ (cameraTargetWith Rounding.ieee env p).z ∧
      (cameraTargetWith Rounding.ieee env p).z ≤ 35 := by
  have e0 : binary64 (0 : ℚ) = 0 := binary64_zero
  have e1 : binary64 (1 : ℚ) = 1 := by simpa using binary64_natCast_small 1 (by norm_num)
  have e10 : binary64 (10 : ℚ) = 10 := by simpa using binary64_natCast_small 10 (by norm_num)
  have e20 : binary64 (20 : ℚ) = 20 := by simpa using binary64_natCast_small 20 (by norm_num)
  have e25 : binary64 (25 : ℚ) = 25 := by simpa using binary64_natCast_small 25 (by norm_num)
  have e35 : binary64 (35 : ℚ) = 35 := by simpa using binary64_natCast_small 35 (by norm_num)
  have bound : ∀ (v c : ℚ), |v| ≤ 1 → 0 ≤ c → binary64 c = c →
      |binary64 (binary64 v * c)| ≤ c := by
    intro v c hv hc hcc
    have hv' := abs_le.mp hv
    have h1 : binary64 v ≤ 1 := by
      have := binary64_mono hv'.2
      rwa [e1] at this
    have h2 : -1 ≤ binary64 v := by
      have := binary64_mono hv'.1
      rwa [binary64_neg, e1] at this
    rw [abs_le]
    constructor
    · have := binary64_mono (show -c ≤ binary64 v * c by nlinarith)
      rwa [binary64_neg, hcc] at this
    · have := binary64_mono (show binary64 v * c ≤ c by nlinarith)
      rwa [hcc] at this
  have hx := bound (env.sin (binary64 (binary64 (p * binary64 env.PI) * 2))) 20 (hsin _)
    (by norm_num) e20
  have hy := bound (env.cos (binary64 (p * binary64 env.PI))) 10 (hcos _) (by norm_num) e10
  have hz0 : 0 ≤ binary64 (p * 10) := binary64_nonneg (by linarith)
  have hz1 : binary64 (p * 10) ≤ 10 := by
    have := binary64_mono (show p * 10 ≤ (10 : ℚ) by linarith)
    rwa [e10] at this
  have hz2 : 25 ≤ binary64 (25 + binary64 (p * 10)) := by
    have := binary64_mono (show (25 : ℚ) ≤ 25 + binary64 (p * 10) by linarith)
    rwa [e25] at this
  have hz3 : binary64 (25 + binary64 (p * 10)) ≤ 35 := by
    have := binary64_mono (show 25 + binary64 (p * 10) ≤ (35 : ℚ) by linarith)
    rwa [e35] at this
  have big : (35 : ℚ) < 2 ^ 1024 := by norm_num
  refine ⟨⟨⟨binary64_idem _, ?_⟩, ⟨binary64_idem _, ?_⟩, ⟨binary64_idem _, ?_⟩⟩, hx, hy, hz2, hz3⟩
  · exact lt_of_le_of_lt hx (by norm_num)
  · exact lt_of_le_of_lt hy (by norm_num)
  · show |binary64 (25 + binary64 (p * 10))| < 2 ^ 1024
    rw [abs_of_nonneg (by linarith)]
    linarith

theorem updateStoryProgressWith_ok (R : Rounding) (env : Env) (p : ℚ)
    (d : Option ClimateData) (s : SceneManager) (cam : Camera) (hcam : s.camera = some cam)
    (hscene : s.scene.isSome) :
    ∃ s', updateStoryProgressWith R env p d s = .ok s' ∧ s'.scene.isSome ∧
      s'.camera = some { cam with
        position := cam.position.lerpWith R (cameraTargetWith R env p) (R.double 0.05)
        lookAt := some ⟨0, 0, 0⟩ } := by
  have tail : ∀ s1 : SceneManager, s1.scene.isSome → s1.camera = some cam →
      ∃ s', (Except.ok s1 : Except String SceneManager).bind (fun (s1 : SceneManager) =>
          match s1.camera with
          | none => .error "TypeError: this.camera is null"
          | some cam =>
            let cam1 : Camera :=
              { cam with
                position :=
                  cam.position.lerpWith R (cameraTargetWith R env p) (R.double 0.05)
                lookAt := some ⟨0, 0, 0⟩ }
            let controls := s1.controls.map
              (fun (c : OrbitControls) =>
                { c with autoRotateSpeed := R.double (0.5 + R.double (p * 2)) })
            .ok { s1 with camera := some cam1, controls := controls }) = .ok s' ∧
        s'.scene.isSome ∧
        s'.camera = some { cam with
          position := cam.position.lerpWith R (cameraTargetWith R env p) (R.double 0.05)
          lookAt := some ⟨0, 0, 0⟩ } := by
    intro s1 hsc1 hcam1
    simp only [Except.bind, hcam1]
    exact ⟨_, rfl, hsc1, rfl⟩
  cases d with
  | none => exact tail s hscene hcam
  | some d =>
    cases hg : s.globe with
    | none =>
      simp only [updateStoryProgressWith, updateGlobeVisuals_no_globe env d s hg]
      exact tail s hscene hcam
    | some globe =>
      obtain ⟨s1, hok, hsc, hc, -, -⟩ := updateGlobeVisuals_ok env d s globe hg hscene
      simp only [updateStoryProgressWith, hok]
      exact tail s1 hsc (hc.trans hcam)

theorem repeatStoryProgressWith_ieee (env : Env) (p : ℚ) (ds : List (Option ClimateData))
    (s : SceneManager) (cam : Camera) (hcam : s.camera = some cam) (hscene : s.scene.isSome)
    (hP : cam.position.IsDouble) (hT : (cameraTargetWith Rounding.ieee env p).IsDouble) :
    ∃ sn camn, repeatStoryProgressWith Rounding.ieee env p ds s = .ok sn ∧
      sn.camera = some camn ∧ sn.scene.isSome ∧ camn.position.IsDouble ∧
      camn.position.distanceToSquared (cameraTargetWith Rounding.ieee env p)
        ≤ cam.position.distanceToSquared (cameraTargetWith Rounding.ieee env p) ∧
      (camn.position = cameraTargetWith Rounding.ieee env p
        ↔ cam.position = cameraTargetWith Rounding.ieee env p) := by
  induction ds generalizing s cam with
  | nil => exact ⟨s, cam, rfl, hcam, hscene, hP, le_refl _, Iff.rfl⟩
  | cons d ds ih =>
    obtain ⟨s1, hok, hsc1, hcam1⟩ :=
      updateStoryProgressWith_ok Rounding.ieee env p d s cam hcam hscene
    obtain ⟨h1, h2, h3⟩ := Vector3.lerpWith_ieee cam.position _ hP hT
    obtain ⟨sn, camn, hrun, hcamn, hscn, hPn, hdist, hiff⟩ := ih s1 _ hcam1 hsc1 h1
    refine ⟨sn, camn, ?_, hcamn, hscn, hPn, hdist.trans h2, hiff.trans h3⟩
    simp only [repeatStoryProgressWith, hok, Except.bind]
    exact hrun

/-- The number the literal `0.05` denotes. -/
theorem binary64_literal_005 : binary64 0.05 = 3602879701896397 / 2 ^ 56 := by
  have := roundFloat_eq_of_near 53 (-1022) 0.05 (-5) 7205759403792794
    (by norm_num) (by norm_num) (by norm_num [abs_lt])
  rw [binary64, this]
  norm_num

/-- One step on the coordinate `30 - 2 ^ (-48)`, the number next below `30`, toward `30`:
the sum `30 - 2 ^ (-48) + 0.05 * 2 ^ (-48)` rounds back to `30 - 2 ^ (-48)`. -/
theorem lerpCoordinateWith_stalls :
    lerpCoordinateWith Rounding.ieee (30 - 1 / 2 ^ 48) 30 (binary64 0.05) = 30 - 1 / 2 ^ 48 := by
  have hd : binary64 ((30 : ℚ) - (30 - 1 / 2 ^ 48)) = 1 / 2 ^ 48 := by
    have := binary64_of_dyadic ((30 : ℚ) - (30 - 1 / 2 ^ 48)) 1 (-48) (by norm_num)
      (by norm_num) (by norm_num)
    rw [this]
    norm_num
  have he : binary64 ((1 : ℚ) / 2 ^ 48 * (3602879701896397 / 2 ^ 56))
      = 3602879701896397 / 2 ^ 104 := by
    have := binary64_of_dyadic ((1 : ℚ) / 2 ^ 48 * (3602879701896397 / 2 ^ 56))
      3602879701896397 (-104) (by norm_num) (by norm_num) (by norm_num)
    rw [this]
    norm_num
  have hs : binary64 ((30 : ℚ) - 1 / 2 ^ 48 + 3602879701896397 / 2 ^ 104)
      = 30 - 1 / 2 ^ 48 := by
    have := roundFloat_eq_of_near 53 (-1022)
      ((30 : ℚ) - 1 / 2 ^ 48 + 3602879701896397 / 2 ^ 104) 4 (30 * 2 ^ 48 - 1)
      (by norm_num) (by norm_num) (by norm_num [abs_lt])
    rw [binary64, this]
    norm_num
  simp only [lerpCoordinateWith, Rounding.ieee, binary64_literal_005, hd, he, hs]

theorem cameraTargetWith_half_z (env : Env) : (cameraTargetWith Rounding.ieee env 0.5).z = 30 := by
  have e5 : binary64 ((0.5 : ℚ) * 10) = 5 := by
    have := binary64_of_dyadic ((0.5 : ℚ) * 10) 5 0 (by norm_num) (by norm_num) (by norm_num)
    rw [this]
    norm_num
  have e30 : binary64 ((25 : ℚ) + 5) = 30 := by
    have := binary64_of_dyadic ((25 : ℚ) + 5) 30 0 (by norm_num) (by norm_num) (by norm_num)
    rw [this]
    norm_num
  simp only [cameraTargetWith, Rounding.ieee, e5, e30]

/-- C6 as stated fails: in the arithmetic of JavaScript numbers a camera that is off the
target need not come nearer. With the camera on the target of progress `0.5` in `x` and `y`
and at `30 - 2 ^ (-48)` in `z` (the target has `z = 30`), `updateStoryProgress(0.5)` leaves
the camera exactly where it is: the distance to the target is not `0` and does not decrease,
so it is not `0.95` times the previous one. -/
theorem updateStoryProgress_stalls_counterexample :
    (cameraTargetWith Rounding.ieee boundedEnv 0.5).z = 30 ∧
    ∃ cam s' cam', exampleNearTarget.camera = some cam ∧ cam.position.IsDouble ∧
      cam.position.z = 30 - 1 / 2 ^ 48 ∧
      cam.position ≠ cameraTargetWith Rounding.ieee boundedEnv 0.5 ∧
      updateStoryProgressWith Rounding.ieee boundedEnv 0.5 none exampleNearTarget = .ok s' ∧
      s'.camera = some cam' ∧ cam'.position = cam.position ∧
      cam.position.distanceToSquared (cameraTargetWith Rounding.ieee boundedEnv 0.5) ≠ 0 ∧
      ¬ (cam'.position.distanceToSquared (cameraTargetWith Rounding.ieee boundedEnv 0.5)
        < cam.position.distanceToSquared (cameraTargetWith Rounding.ieee boundedEnv 0.5)) ∧
      Real.sqrt ((cam'.position.distanceToSquared
          (cameraTargetWith Rounding.ieee boundedEnv 0.5) : ℚ) : ℝ)
        ≠ 0.95 * Real.sqrt ((cam.position.distanceToSquared
          (cameraTargetWith Rounding.ieee boundedEnv 0.5) : ℚ) : ℝ) := by
  have hz := cameraTargetWith_half_z boundedEnv
  obtain ⟨⟨tx, ty, -⟩, -⟩ := cameraTargetWith_ieee_range boundedEnv 0.5 boundedEnv_sin_le
    boundedEnv_cos_le (by norm_num) (by norm_num)
  have hzd : IsDouble ((30 : ℚ) - 1 / 2 ^ 48) := by
    refine ⟨binary64_of_dyadic _ (30 * 2 ^ 48 - 1) (-48) (by norm_num) (by norm_num)
      (by norm_num), ?_⟩
    rw [abs_of_nonneg (by norm_num)]
    norm_num
  have hne : (⟨(cameraTargetWith Rounding.ieee boundedEnv 0.5).x,
      (cameraTargetWith Rounding.ieee boundedEnv 0.5).y, 30 - 1 / 2 ^ 48⟩ : Vector3)
      ≠ cameraTargetWith Rounding.ieee boundedEnv 0.5 := by
    intro h
    have := congrArg Vector3.z h
    rw [hz] at this
    norm_num at this
  have hstep : (⟨(cameraTargetWith Rounding.ieee boundedEnv 0.5).x,
      (cameraTargetWith Rounding.ieee boundedEnv 0.5).y, 30 - 1 / 2 ^ 48⟩ : Vector3).lerpWith
        Rounding.ieee (cameraTargetWith Rounding.ieee boundedEnv 0.5) (binary64 0.05)
      = ⟨(cameraTargetWith Rounding.ieee boundedEnv 0.5).x,
          (cameraTargetWith Rounding.ieee boundedEnv 0.5).y, 30 - 1 / 2 ^ 48⟩ := by
    simp only [Vector3.lerpWith, lerpCoordinateWith_self _ _ tx.1,
      lerpCoordinateWith_self _ _ ty.1, hz, lerpCoordinateWith_stalls]
  have hdist : (⟨(cameraTargetWith Rounding.ieee boundedEnv 0.5).x,
      (cameraTargetWith Rounding.ieee boundedEnv 0.5).y, 30 - 1 / 2 ^ 48⟩ :
        Vector3).distanceToSquared (cameraTargetWith Rounding.ieee boundedEnv 0.5) ≠ 0 := by
    rw [Ne, Vector3.distanceToSquared_eq_zero_iff]
    exact hne
  obtain ⟨s', hok, -, hcam'⟩ := updateStoryProgressWith_ok Rounding.ieee boundedEnv 0.5 none
    exampleNearTarget _ rfl rfl
  have final : ∀ P P' T : Vector3, P' = P → P.distanceToSquared T ≠ 0 →
      ¬ (P'.distanceToSquared T < P.distanceToSquared T) ∧
      Real.sqrt ((P'.distanceToSquared T : ℚ) : ℝ)
        ≠ 0.95 * Real.sqrt ((P.distanceToSquared T : ℚ) : ℝ) := by
    intro P P' T h hd
    subst h
    refine ⟨lt_irrefl _, fun h => ?_⟩
    have hpos : (0 : ℝ) < ((P'.distanceToSquared T : ℚ) : ℝ) := by
      have := lt_of_le_of_ne (Vector3.distanceToSquared_nonneg P' T) (Ne.symm hd)
      exact_mod_cast this
    have := Real.sqrt_pos.mpr hpos
    linarith
  exact ⟨hz, _, s', _, rfl, ⟨tx, ty, hzd⟩, rfl, hne, hok, hcam', hstep, hdist,
    (final _ _ _ hstep hdist).1, (final _ _ _ hstep hdist).2⟩

/-- C6, as the code has it. For a camera at a position `P` of finite numbers, on a state with
a scene, a progress `p` in `[0, 1]` and `sin`, `cos` bounded by `1`, the target
`T = T(p)` is a vector of finite numbers (`|x| ≤ 20`, `|y| ≤ 10`, `z` in `[25, 35]`), and one
`updateStoryProgress(p, d)` call moves each coordinate `c` of the camera to the number
`fl(P.c + fl(fl(T.c - P.c) * 0.05))`, every operation rounded to binary64. That coordinate
lies between `P.c` and `T.c`, so the distance to `T` does not increase, and the camera is
on `T` afterwards exactly when it was before: it never lands on the target in one step.
The same holds after any number of calls with the same `p`, and for one more call. In
exact arithmetic the step is `P + 0.05 * (T - P)` and the distance is exactly `0.95` times
the previous one; with the rounding it need not decrease at all. -/
theorem updateStoryProgress_camera_rounded (env : Env) (p : ℚ) (d : Option ClimateData)
    (ds : List (Option ClimateData)) (s : SceneManager) (cam : Camera)
    (hcam : s.camera = some cam) (hscene : s.scene.isSome) (hP : cam.position.IsDouble)
    (hsin : ∀ x, |env.sin x| ≤ 1) (hcos : ∀ x, |env.cos x| ≤ 1) (hp0 : 0 ≤ p) (hp1 : p ≤ 1) :
    ((cameraTargetWith Rounding.ieee env p).IsDouble ∧
      |(cameraTargetWith Rounding.ieee env p).x| ≤ 20 ∧
      |(cameraTargetWith Rounding.ieee env p).y| ≤ 10 ∧
      25 ≤ (cameraTargetWith Rounding.ieee env p).z ∧
      (cameraTargetWith Rounding.ieee env p).z ≤ 35) ∧
    (∃ s' cam', updateStoryProgressWith Rounding.ieee env p d s = .ok s' ∧
      s'.camera = some cam' ∧
      cam'.position
        = ⟨binary64 (cam.position.x + binary64 (binary64
              ((cameraTargetWith Rounding.ieee env p).x - cam.position.x) * binary64 0.05)),
            binary64 (cam.position.y + binary64 (binary64
              ((cameraTargetWith Rounding.ieee env p).y - cam.position.y) * binary64 0.05)),
            binary64 (cam.position.z + binary64 (binary64
              ((cameraTargetWith Rounding.ieee env p).z - cam.position.z) * binary64 0.05))⟩ ∧
      cam'.position.IsDouble ∧
      (min cam.position.x (cameraTargetWith Rounding.ieee env p).x ≤ cam'.position.x ∧
        cam'.position.x ≤ max cam.position.x (cameraTargetWith Rounding.ieee env p).x) ∧
      (min cam.position.y (cameraTargetWith Rounding.ieee env p).y ≤ cam'.position.y ∧
        cam'.position.y ≤ max cam.position.y (cameraTargetWith Rounding.ieee env p).y) ∧
      (min cam.position.z (cameraTargetWith Rounding.ieee env p).z ≤ cam'.position.z ∧
        cam'.position.z ≤ max cam.position.z (cameraTargetWith Rounding.ieee env p).z) ∧
      Real.sqrt ((cam'.position.distanceToSquared
          (cameraTargetWith Rounding.ieee env p) : ℚ) : ℝ)
        ≤ Real.sqrt ((cam.position.distanceToSquared
          (cameraTargetWith Rounding.ieee env p) : ℚ) : ℝ) ∧
      (cam'.position = cameraTargetWith Rounding.ieee env p
        ↔ cam.position = cameraTargetWith Rounding.ieee env p)) ∧
    (∃ sn camn sm camm, repeatStoryProgressWith Rounding.ieee env p ds s = .ok sn ∧
      sn.camera = some camn ∧
      updateStoryProgressWith Rounding.ieee env p d sn = .ok sm ∧ sm.camera = some camm ∧
      camn.position.IsDouble ∧
      Real.sqrt ((camn.position.distanceToSquared
          (cameraTargetWith Rounding.ieee env p) : ℚ) : ℝ)
        ≤ Real.sqrt ((cam.position.distanceToSquared
          (cameraTargetWith Rounding.ieee env p) : ℚ) : ℝ) ∧
      Real.sqrt ((camm.position.distanceToSquared
          (cameraTargetWith Rounding.ieee env p) : ℚ) : ℝ)
        ≤ Real.sqrt ((camn.position.distanceToSquared
          (cameraTargetWith Rounding.ieee env p) : ℚ) : ℝ) ∧
      (camn.position = cameraTargetWith Rounding.ieee env p
        ↔ cam.position = cameraTargetWith Rounding.ieee env p)) ∧
    (∃ s' cam', updateStoryProgressWith Rounding.exact env p d s = .ok s' ∧
      s'.camera = some cam' ∧
      cameraTargetWith Rounding.exact env p = cameraTarget env p ∧
      cam'.position = ⟨cam.position.x + 0.05 * ((cameraTarget env p).x - cam.position.x),
        cam.position.y + 0.05 * ((cameraTarget env p).y - cam.position.y),
        cam.position.z + 0.05 * ((cameraTarget env p).z - cam.position.z)⟩ ∧
      Real.sqrt ((cam'.position.distanceToSquared (cameraTarget env p) : ℚ) : ℝ)
        = 0.95 * Real.sqrt ((cam.position.distanceToSquared (cameraTarget env p) : ℚ) : ℝ)) := by
  have hT := cameraTargetWith_ieee_range env p hsin hcos hp0 hp1
  have sqrt_le : ∀ a b : ℚ, a ≤ b → Real.sqrt ((a : ℚ) : ℝ) ≤ Real.sqrt ((b : ℚ) : ℝ) := by
    intro a b h
    exact Real.sqrt_le_sqrt (by exact_mod_cast h)
  have step : ∀ (s0 : SceneManager) (cam0 : Camera), s0.camera = some cam0 →
      s0.scene.isSome → cam0.position.IsDouble →
      ∃ s' cam', updateStoryProgressWith Rounding.ieee env p d s0 = .ok s' ∧
        s'.camera = some cam' ∧
        cam'.position = cam0.position.lerpWith Rounding.ieee
          (cameraTargetWith Rounding.ieee env p) (binary64 0.05) ∧
        cam'.position.IsDouble ∧
        cam'.position.distanceToSquared (cameraTargetWith Rounding.ieee env p)
          ≤ cam0.position.distanceToSquared (cameraTargetWith Rounding.ieee env p) ∧
        (cam'.position = cameraTargetWith Rounding.ieee env p
          ↔ cam0.position = cameraTargetWith Rounding.ieee env p) := by
    intro s0 cam0 hc0 hs0 hP0
    obtain ⟨s', hok, -, hcam'⟩ :=
      updateStoryProgressWith_ok Rounding.ieee env p d s0 cam0 hc0 hs0
    obtain ⟨h1, h2, h3⟩ := Vector3.lerpWith_ieee cam0.position _ hP0 hT.1
    exact ⟨s', _, hok, hcam', rfl, h1, h2, h3⟩
  refine ⟨hT, ?_, ?_, ?_⟩
  · obtain ⟨s', cam', hok, hcam', hpos, hd, hdist, hiff⟩ := step s cam hcam hscene hP
    obtain ⟨-, bx1, bx2, -, -⟩ := lerpCoordinateWith_ieee cam.position.x
      (cameraTargetWith Rounding.ieee env p).x hP.1.1 hT.1.1.1
    obtain ⟨-, by1, by2, -, -⟩ := lerpCoordinateWith_ieee cam.position.y
      (cameraTargetWith Rounding.ieee env p).y hP.2.1.1 hT.1.2.1.1
    obtain ⟨-, bz1, bz2, -, -⟩ := lerpCoordinateWith_ieee cam.position.z
      (cameraTargetWith Rounding.ieee env p).z hP.2.2.1 hT.1.2.2.1
    refine ⟨s', cam', hok, hcam', hpos, hd, ?_, ?_, ?_, sqrt_le _ _ hdist, hiff⟩
    · rw [hpos]
      exact ⟨bx1, bx2⟩
    · rw [hpos]
      exact ⟨by1, by2⟩
    · rw [hpos]
      exact ⟨bz1, bz2⟩
  · obtain ⟨sn, camn, hrun, hcamn, hscn, hPn, hdn, hiffn⟩ :=
      repeatStoryProgressWith_ieee env p ds s cam hcam hscene hP hT.1
    obtain ⟨sm, camm, hokm, hcamm, -, -, hdm, -⟩ := step sn camn hcamn hscn hPn
    exact ⟨sn, camn, sm, camm, hrun, hcamn, hokm, hcamm, hPn, sqrt_le _ _ hdn,
      sqrt_le _ _ hdm, hiffn⟩
  · obtain ⟨s', hok, -, hcam', -⟩ := updateStoryProgress_ok env p d s cam hcam hscene
    refine ⟨s', _, hok, hcam', rfl, ?_, ?_⟩
    · simp only [Vector3.lerp, Vector3.mk.injEq]
      refine ⟨?_, ?_, ?_⟩ <;> ring
    · exact Vector3.sqrt_distanceToSquared_lerp _ _

/-- C6 (as the code has it) at `exampleScene`, camera at `(0, 0, 25)`, with progress `0.5`
in `boundedEnv`: the single step. -/
theorem updateStoryProgress_camera_rounded_witness :
    exampleScene.camera = some exampleCamera ∧ exampleCamera.position.IsDouble ∧
    ∃ s' cam', updateStoryProgressWith Rounding.ieee boundedEnv 0.5 none exampleScene = .ok s' ∧
      s'.camera = some cam' ∧ cam'.position.IsDouble ∧
      Real.sqrt ((cam'.position.distanceToSquared
          (cameraTargetWith Rounding.ieee boundedEnv 0.5) : ℚ) : ℝ)
        ≤ Real.sqrt ((exampleCamera.position.distanceToSquared
          (cameraTargetWith Rounding.ieee boundedEnv 0.5) : ℚ) : ℝ) ∧
      (cam'.position = cameraTargetWith Rounding.ieee boundedEnv 0.5
        ↔ exampleCamera.position = cameraTargetWith Rounding.ieee boundedEnv 0.5) := by
  have e0 : IsDouble (0 : ℚ) := ⟨binary64_zero, by norm_num⟩
  have e25 : IsDouble (25 : ℚ) :=
    ⟨by simpa using binary64_natCast_small 25 (by norm_num), by norm_num [abs_of_nonneg]⟩
  have hP : exampleCamera.position.IsDouble := ⟨e0, e0, e25⟩
  obtain ⟨s', cam', h1, h2, -, h4, -, -, -, h8, h9⟩ :=
    (updateStoryProgress_camera_rounded boundedEnv 0.5 none [none, none] exampleScene
      exampleCamera rfl rfl hP boundedEnv_sin_le boundedEnv_cos_le (by norm_num)
      (by norm_num)).2.1
  exact ⟨rfl, hP, s', cam', h1, h2, h4, h8, h9⟩

/-! ## The frame loop after `dispose` -/

theorem animate_frames (env : Env) (s : SceneManager) :
    ∃ s', animate env s = .ok s' ∧ s'.animationId = some s.host.nextFrame ∧
      s'.host.pendingFrames = s.host.pendingFrames ++ [s.host.nextFrame] ∧
      s'.host.nextFrame = s.host.nextFrame + 1 := by
  cases hctl : s.controls <;> cases hr : s.renderer <;> cases hs : s.scene <;>
    cases hc : s.camera <;>
    simp [animate, hctl, hr, hs, hc, SceneManager.call]

/-- The constructor, run in a host with no frame callback pending, establishes the frame-loop
invariant. -/
theorem constructor_frameInvariant (env : Env) (container : Container) (nextObj : Nat)
    (host : Host) (hpend : host.pendingFrames = []) (hnext : host.nextFrame ≠ 0) :
    ∃ s, SceneManager.constructor env (some container) nextObj host = .ok s ∧
      FrameInvariant s := by
  refine ⟨_, rfl, host.nextFrame, rfl, hnext, ?_, ?_⟩
  · show host.pendingFrames ++ [host.nextFrame] = [host.nextFrame]
    rw [hpend]
    rfl
  · show host.nextFrame + 1 ≠ 0
    omega

/-- A frame callback keeps the frame-loop invariant: the callback that runs is taken off the
queue and requests the one that is pending afterwards. -/
theorem runFrame_frameInvariant (env : Env) (handle : Nat) (s : SceneManager)
    (h : FrameInvariant s) : ∃ s', runFrame env handle s = .ok s' ∧ FrameInvariant s' := by
  obtain ⟨h0, hid, hne, hpend, hnext⟩ := h
  by_cases hmem : handle ∈ s.host.pendingFrames
  · obtain ⟨s', hok, haid, hpf, hnf⟩ := animate_frames env
      { s with host := { s.host with
        pendingFrames := s.host.pendingFrames.filter (fun h => h ≠ handle) } }
    refine ⟨s', by simp only [runFrame, hmem, if_true]; exact hok, s.host.nextFrame, haid,
      hnext, ?_, ?_⟩
    · rw [hpf]
      rw [hpend] at hmem
      have hh : handle = h0 := by simpa using hmem
      subst hh
      simp [hpend]
    · rw [hnf]
      show s.host.nextFrame + 1 ≠ 0
      omega
  · exact ⟨s, by simp [runFrame, hmem], h0, hid, hne, hpend, hnext⟩

theorem SameExceptEffects.nextFrame {s s' : SceneManager} (h : SameExceptEffects s s') :
    s'.host.nextFrame = s.host.nextFrame := by
  unfold SameExceptEffects at h
  rw [← h]

/-- The method `updateGlobeVisuals` keeps the frame-loop invariant. -/
theorem updateGlobeVisuals_frameInvariant (env : Env) (d : ClimateData) (s : SceneManager)
    (hscene : s.scene.isSome) (h : FrameInvariant s) :
    ∃ s', updateGlobeVisuals env d s = .ok s' ∧ FrameInvariant s' := by
  obtain ⟨h0, hid, hne, hpend, hnext⟩ := h
  cases hg : s.globe with
  | none => exact ⟨s, updateGlobeVisuals_no_globe env d s hg, h0, hid, hne, hpend, hnext⟩
  | some globe =>
    simp only [updateGlobeVisuals, hg]
    obtain ⟨s', hok, hsame, -⟩ := updateGlobeEffects_frame env d.temperatureIntensity
      d.precipitationIntensity d.seaLevelIntensity
      { s with globe := some { globe with material := { globe.material with
          color := globe.material.color.lerp (targetColor d.temperatureIntensity) 0.1 } } }
      hscene
    obtain ⟨-, -, -, -, haid, -, -, -, hpf, -, -⟩ := hsame.fields
    exact ⟨s', hok, h0, by rw [haid]; exact hid, hne, by rw [hpf]; exact hpend,
      by rw [hsame.nextFrame]; exact hnext⟩

/-- The method `createGlobe` keeps the frame-loop invariant. -/
theorem createGlobe_frameInvariant (radius : ℚ) (segments : Nat) (s : SceneManager)
    (hscene : s.scene.isSome) (h : FrameInvariant s) :
    ∃ s', createGlobe s radius segments = .ok s' ∧ FrameInvariant s' := by
  obtain ⟨container, scene, camera, renderer, controls, animationId, globe, effects,
    isAnimating, nextObj, host⟩ := s
  cases scene with
  | none => simp at hscene
  | some sc => exact ⟨_, rfl, h⟩

/-- The method `updateStoryProgress` keeps the frame-loop invariant. -/
theorem updateStoryProgress_frameInvariant (env : Env) (p : ℚ) (d : Option ClimateData)
    (s : SceneManager) (hcam : s.camera.isSome) (hscene : s.scene.isSome)
    (h : FrameInvariant s) :
    ∃ s', updateStoryProgress env p d s = .ok s' ∧ FrameInvariant s' := by
  have tail : ∀ s1 : SceneManager, s1.camera.isSome → FrameInvariant s1 →
      ∃ s', (Except.ok s1 : Except String SceneManager).bind (fun (s1 : SceneManager) =>
          match s1.camera with
          | none => .error "TypeError: this.camera is null"
          | some cam =>
            let cam1 : Camera :=
              { cam with
                position := cam.position.lerp (cameraTarget env p) 0.05
                lookAt := some ⟨0, 0, 0⟩ }
            let controls := s1.controls.map
              (fun (c : OrbitControls) => { c with autoRotateSpeed := 0.5 + p * 2 })
            .ok { s1 with camera := some cam1, controls := controls }) = .ok s' ∧
        FrameInvariant s' := by
    intro s1 hcam1 hinv
    obtain ⟨cam, hc⟩ := Option.isSome_iff_exists.mp hcam1
    simp only [Except.bind, hc]
    exact ⟨_, rfl, hinv⟩
  cases d with
  | none => exact tail s hcam h
  | some d =>
    cases hg : s.globe with
    | none =>
      simp only [updateStoryProgress, updateGlobeVisuals_no_globe env d s hg]
      exact tail s hcam h
    | some globe =>
      obtain ⟨s1, hok, -, hc, -, -⟩ := updateGlobeVisuals_ok env d s globe hg hscene
      obtain ⟨s1', hok', hinv'⟩ := updateGlobeVisuals_frameInvariant env d s hscene h
      rw [hok] at hok'
      cases hok'
      simp only [updateStoryProgress, hok]
      exact tail s1 (by rw [hc]; exact hcam) hinv'

/-- C11. On a state that satisfies the frame-loop invariant (the handle in `animationId` is
the one pending frame callback, as after the constructor and after every frame), `dispose()`
cancels that callback: no frame callback is pending afterwards, so whatever handles the
browser goes through, no `animate` runs after `dispose()`: the state stays as `dispose()`
left it, with no render call, no effect closure call and no frame request logged, the effects
as they were and no frame pending. -/
theorem dispose_stops_frame_callbacks (env : Env) (s : SceneManager) (h : FrameInvariant s) :
    ∃ s1, dispose s = .ok s1 ∧ s1.host.pendingFrames = [] ∧
      (∀ handle, runFrame env handle s1 = .ok s1) ∧
      ∀ handles s2, runFrames env handles s1 = .ok s2 →
        s2 = s1 ∧ s2.host.log = s1.host.log ∧ s2.effects = s1.effects ∧
          s2.host.pendingFrames = [] := by
  obtain ⟨h0, hid, hne, hpend, -⟩ := h
  obtain ⟨s1, hok, -, -, -, hpf, -⟩ := dispose_fields s
  have hempty : s1.host.pendingFrames = [] := by
    rw [hpf, hpend, hid]
    simp [hne]
  have hrun : ∀ handle, runFrame env handle s1 = .ok s1 := by
    intro handle
    simp [runFrame, hempty]
  have hruns : ∀ handles, runFrames env handles s1 = .ok s1 := by
    intro handles
    induction handles with
    | nil => rfl
    | cons a rest ih => simp only [runFrames, hrun a, Except.bind, ih]
  refine ⟨s1, hok, hempty, hrun, ?_⟩
  intro handles s2 h2
  rw [hruns handles] at h2
  cases h2
  exact ⟨rfl, rfl, rfl, hempty⟩

/-- C11 at `exampleScene`, whose pending frame has handle 1: after `dispose()` the frame
callbacks 1, 2 and 1 again run nothing. -/
theorem dispose_stops_frame_callbacks_witness :
    FrameInvariant exampleScene ∧
    ∃ s1, dispose exampleScene = .ok s1 ∧ s1.host.pendingFrames = [] ∧
      runFrame exampleEnv 1 s1 = .ok s1 ∧ runFrames exampleEnv [1, 2, 1] s1 = .ok s1 := by
  have hinv : FrameInvariant exampleScene := ⟨1, rfl, by decide, rfl, by decide⟩
  obtain ⟨s1, h1, h2, h3, -⟩ := dispose_stops_frame_callbacks exampleEnv exampleScene hinv
  refine ⟨hinv, s1, h1, h2, h3 1, ?_⟩
  simp only [runFrames, h3 1, h3 2, Except.bind]

/-- C15, as the code has it. On a state with a globe and a scene, for channel values that are
numbers, inside `[0, 1]` or not, with a precipitation intensity of at most `1000`,
`updateGlobeVisuals` completes and uses the values as given, without clamping: the globe
colour moves one tenth toward the target colour of the temperature given; a precipitation
effect (for `p > 0.3`) has a buffer of at most `3000000` entries and, when `p` is a binary64
number and the product `1000 * p` is exact in binary64, `floor(1000 * p)` particles; a ring
(for `seaLevel > 0.2`) has outer radius `10.2 + 2 * seaLevel`; a haze (for `t > 0.6`) has
opacity `0.2 * t`. Clamping changes nothing when every channel lies in `[0, 1]`. -/
theorem updateGlobeVisuals_unclamped (env : Env) (d : ClimateData) (s : SceneManager)
    (globe : Object3D) (hglobe : s.globe = some globe) (hscene : s.scene.isSome)
    (hp : d.precipitationIntensity ≤ 1000) :
    (∃ s' globe' l1 l2 l3, updateGlobeVisuals env d s = .ok s' ∧ s'.globe = some globe' ∧
      globe'.material.color
        = globe.material.color.lerp (targetColor d.temperatureIntensity) 0.1 ∧
      s'.effects = l1 ++ l2 ++ l3 ∧
      OneIf (d.precipitationIntensity > 0.3) (fun e => e.isPoints = true ∧
          e.positions.length ≤ 3000000 ∧
          (binary64 d.precipitationIntensity = d.precipitationIntensity →
            binary64 (1000 * d.precipitationIntensity) = 1000 * d.precipitationIntensity →
            (e.particleCount : ℤ) = ⌊1000 * d.precipitationIntensity⌋)) l1 ∧
      OneIf (d.seaLevelIntensity > 0.2) (fun e => e.isSeaLevelRing = true ∧
          e.geometry = Geometry.ring 10.2 (10.2 + d.seaLevelIntensity * 2) 64) l2 ∧
      OneIf (d.temperatureIntensity > 0.6) (fun e => e.isHeatHaze = true ∧
          e.material.opacity = d.temperatureIntensity * 0.2) l3) ∧
    (0 ≤ d.temperatureIntensity ∧ d.temperatureIntensity ≤ 1 ∧
      0 ≤ d.precipitationIntensity ∧ d.precipitationIntensity ≤ 1 ∧
      0 ≤ d.seaLevelIntensity ∧ d.seaLevelIntensity ≤ 1 → d.clamped = d) := by
  constructor
  · obtain ⟨s', l1, l2, l3, hok, heff, h1, h2, h3, hgl⟩ :=
      updateGlobeVisuals_effects env d s globe hglobe hscene
    refine ⟨s', _, l1, l2, l3, hok, hgl, rfl, heff, ?_, ?_, ?_⟩
    · rcases h1 with ⟨hc, e, hl, hP⟩ | ⟨hc, hl⟩
      · refine Or.inl ⟨hc, e, hl, hP.1, ?_, fun _ _ => ?_⟩
        · rw [hP.2.2.2.1, fillPositions_length]
          have hfl : ⌊1000 * d.precipitationIntensity⌋ ≤ 1000000 := by
            rw [Int.floor_le_iff]
            push_cast
            linarith
          omega
        · rw [particleCount_of_positions e _ _ _ hP.2.2.2.1]
          exact Int.toNat_of_nonneg (floor_nonneg_of_gt hc)
      · exact Or.inr ⟨hc, hl⟩
    · rcases h2 with ⟨hc, e, hl, hP⟩ | ⟨hc, hl⟩
      · exact Or.inl ⟨hc, e, hl, hP.1, hP.2.2.2.1⟩
      · exact Or.inr ⟨hc, hl⟩
    · rcases h3 with ⟨hc, e, hl, hP⟩ | ⟨hc, hl⟩
      · exact Or.inl ⟨hc, e, hl, hP.1, hP.2.2.2.1⟩
      · exact Or.inr ⟨hc, hl⟩
  · rintro ⟨h1, h2, h3, h4, h5, h6⟩
    obtain ⟨t, p, sl⟩ := d
    simp only [ClimateData.clamped, clamp01, ClimateData.mk.injEq]
    simp only at h1 h2 h3 h4 h5 h6
    refine ⟨?_, ?_, ?_⟩ <;> simp [*]

/-- C15 (as the code has it) at `exampleScene` with temperature 1.5, precipitation 2 and sea
level -1: the call completes, and the precipitation effect has 2000 particles. -/
theorem updateGlobeVisuals_unclamped_witness :
    exampleScene.globe = some exampleGlobe ∧ exampleScene.scene.isSome ∧ (2 : ℚ) ≤ 1000 ∧
    binary64 2 = 2 ∧ binary64 (1000 * 2) = 1000 * 2 ∧
    ∃ s' globe' l1 l2 l3, updateGlobeVisuals exampleEnv ⟨1.5, 2, -1⟩ exampleScene = .ok s' ∧
      s'.globe = some globe' ∧
      globe'.material.color = exampleGlobe.material.color.lerp (targetColor 1.5) 0.1 ∧
      s'.effects = l1 ++ l2 ++ l3 ∧
      OneIf ((2 : ℚ) > 0.3) (fun e => e.isPoints = true ∧ e.positions.length ≤ 3000000 ∧
          (binary64 2 = 2 → binary64 (1000 * 2) = 1000 * 2 →
            (e.particleCount : ℤ) = ⌊1000 * (2 : ℚ)⌋)) l1 ∧
      OneIf ((-1 : ℚ) > 0.2) (fun e => e.isSeaLevelRing = true ∧
          e.geometry = Geometry.ring 10.2 (10.2 + (-1 : ℚ) * 2) 64) l2 ∧
      OneIf ((1.5 : ℚ) > 0.6) (fun e => e.isHeatHaze = true ∧
          e.material.opacity = (1.5 : ℚ) * 0.2) l3 :=
  ⟨rfl, rfl, by norm_num,
    binary64_of_dyadic 2 2 0 (by norm_num) (by norm_num) (by norm_num),
    binary64_of_dyadic (1000 * 2) 2000 0 (by norm_num) (by norm_num) (by norm_num),
    (updateGlobeVisuals_unclamped exampleEnv ⟨1.5, 2, -1⟩ exampleScene exampleGlobe rfl rfl
      (by norm_num)).1⟩

/-! ## The rounded precipitation effect -/

theorem addPrecipitationEffectWith_exact (env : Env) (p : ℚ) (s : SceneManager) :
    addPrecipitationEffectWith Rounding.exact env p s = addPrecipitationEffect env p s := by
  unfold addPrecipitationEffectWith addPrecipitationEffect
  simp only [fillPositionsWith_exact]
  rfl

theorem runAnimateWith_exact (env : Env) (o : Object3D) :
    o.runAnimateWith Rounding.exact env = o.runAnimate env := by
  unfold Object3D.runAnimateWith Object3D.runAnimate
  cases o.userDataAnimate with
  | none => rfl
  | some f =>
    cases f with
    | precipitation =>
      cases o.geometry <;> simp only [fallWith_exact]
    | waterLevel time intensity => rfl

/-- The effect made by `addPrecipitationEffectWith` carries the buffer filled by the creation
loop, as stored, and the precipitation closure. -/
theorem addPrecipitationEffectWith_geometry (R : Rounding) (env : Env) (p : ℚ)
    (s : SceneManager) (hscene : s.scene.isSome) (hp : 0 ≤ ⌊R.double (1000 * p)⌋) :
    ∃ s' e, addPrecipitationEffectWith R env p s = .ok s' ∧ s'.effects = s.effects ++ [e] ∧
      e.isPoints = true ∧
      e.positions
        = fillPositionsWith R env.random s.host.randomCalls ⌊R.double (1000 * p)⌋.toNat ∧
      (∃ nu, e.geometry = Geometry.buffer
        (fillPositionsWith R env.random s.host.randomCalls ⌊R.double (1000 * p)⌋.toNat) nu) ∧
      e.userDataAnimate = some AnimateFn.precipitation := by
  have h3 : ¬ (⌊R.double (1000 * p)⌋ * 3 < 0) := by omega
  obtain ⟨container, scene, camera, renderer, controls, animationId, globe, effects,
    isAnimating, nextObj, host⟩ := s
  cases scene with
  | none => simp at hscene
  | some sc =>
    simp only [addPrecipitationEffectWith, h3, SceneManager.sceneAdd, animatePrecipitation,
      if_false]
    exact ⟨_, _, rfl, rfl, rfl, rfl, ⟨_, rfl⟩, rfl⟩

/-- The state of a precipitation effect after `n` calls of its closure, with the rounding:
the buffer has gone through the rounded fall loop `n` times. -/
theorem runAnimateWith_iterate_precipitation (R : Rounding) (env : Env) (n : Nat)
    (e : Object3D) (ps : List ℚ) (nu : Bool)
    (hanim : e.userDataAnimate = some AnimateFn.precipitation)
    (hgeo : e.geometry = Geometry.buffer ps nu) :
    ((Object3D.runAnimateWith R env)^[n] e).positions = (fallWith R)^[n] ps ∧
      ((Object3D.runAnimateWith R env)^[n] e).userDataAnimate
        = some AnimateFn.precipitation := by
  induction n generalizing e ps nu with
  | zero => simp [Object3D.positions, hgeo, hanim]
  | succ n ih =>
    rw [Function.iterate_succ_apply, Function.iterate_succ_apply]
    have h1 : (e.runAnimateWith R env).userDataAnimate = some AnimateFn.precipitation := by
      simp [Object3D.runAnimateWith, hanim, hgeo]
    have h2 : (e.runAnimateWith R env).geometry = Geometry.buffer (fallWith R ps) true := by
      simp [Object3D.runAnimateWith, hanim, hgeo]
    exact ih (e.runAnimateWith R env) (fallWith R ps) true h1 h2

theorem binary64_five_hundred : binary64 (1000 * 0.5) = 500 := by
  have := binary64_of_dyadic ((1000 : ℚ) * 0.5) 500 0 (by norm_num) (by norm_num) (by norm_num)
  rw [this]
  norm_num

/-- C26 as stated fails: with `Math.random()` returning `1 - 2 ^ (-30)`, a number below `1`,
every particle that `addPrecipitationEffect(0.5)` creates is stored in the `Float32Array`
with height exactly `60` (the first one as `(20, 60, 20)`): the height computed,
`60 - 5 * 2 ^ (-27)`, is below `60`, and binary32 has no number between it and `60`. -/
theorem precipitation_height_sixty_counterexample :
    (∀ k, 0 ≤ exampleNearOneEnv.random k ∧ exampleNearOneEnv.random k < 1) ∧
    fillPositions exampleNearOneEnv.random 0 1
      = [20 - 5 / 2 ^ 27, 60 - 5 / 2 ^ 27, 20 - 5 / 2 ^ 27] ∧
    fillPositionsWith Rounding.ieee exampleNearOneEnv.random 0 1 = [20, 60, 20] ∧
    ∃ s' e, addPrecipitationEffectWith Rounding.ieee exampleNearOneEnv 0.5 exampleScene = .ok s' ∧
      s'.effects = exampleScene.effects ++ [e] ∧ e.particleCount = 500 ∧
      e.positions[1]? = some 60 ∧
      ∀ (i : Nat) (y : ℚ), i % 3 = 1 → e.positions[i]? = some y → y = 60 ∧ ¬ (y < 60) := by
  have hx1 : binary64 ((1 : ℚ) - 1 / 2 ^ 30 - 0.5) = 1 - 1 / 2 ^ 30 - 0.5 :=
    binary64_of_dyadic _ (2 ^ 29 - 1) (-30) (by norm_num) (by norm_num) (by norm_num)
  have hx2 : binary64 (((1 : ℚ) - 1 / 2 ^ 30 - 0.5) * 40) = (1 - 1 / 2 ^ 30 - 0.5) * 40 :=
    binary64_of_dyadic _ (5 * (2 ^ 29 - 1)) (-27) (by norm_num) (by norm_num) (by norm_num)
  have hx3 : binary32 (((1 : ℚ) - 1 / 2 ^ 30 - 0.5) * 40) = 20 := by
    have := roundFloat_eq_of_near 24 (-126) (((1 : ℚ) - 1 / 2 ^ 30 - 0.5) * 40) 4 (20 * 2 ^ 19)
      (by norm_num) (by norm_num) (by norm_num [abs_lt])
    rw [binary32, this]
    norm_num
  have hy1 : binary64 (((1 : ℚ) - 1 / 2 ^ 30) * 40) = (1 - 1 / 2 ^ 30) * 40 :=
    binary64_of_dyadic _ (5 * (2 ^ 30 - 1)) (-27) (by norm_num) (by norm_num) (by norm_num)
  have hy2 : binary64 (((1 : ℚ) - 1 / 2 ^ 30) * 40 + 20) = (1 - 1 / 2 ^ 30) * 40 + 20 :=
    binary64_of_dyadic _ (5 * (2 ^ 30 - 1) + 20 * 2 ^ 27) (-27) (by norm_num) (by norm_num)
      (by norm_num)
  have hy3 : binary32 (((1 : ℚ) - 1 / 2 ^ 30) * 40 + 20) = 60 := by
    have := roundFloat_eq_of_near 24 (-126) (((1 : ℚ) - 1 / 2 ^ 30) * 40 + 20) 5 (60 * 2 ^ 18)
      (by norm_num) (by norm_num) (by norm_num [abs_lt])
    rw [binary32, this]
    norm_num
  have hfill : fillPositionsWith Rounding.ieee exampleNearOneEnv.random 0 1 = [20, 60, 20] := by
    simp only [fillPositionsWith, Rounding.ieee, exampleNearOneEnv, hx1, hx2, hx3, hy1, hy2, hy3]
  have hfloor : ⌊Rounding.ieee.double (1000 * 0.5)⌋ = 500 := by
    show ⌊binary64 (1000 * 0.5)⌋ = 500
    rw [binary64_five_hundred]
    exact Int.floor_intCast 500
  obtain ⟨s', e, hok, heff, -, hpos, -, -⟩ := addPrecipitationEffectWith_geometry Rounding.ieee
    exampleNearOneEnv 0.5 exampleScene rfl (by rw [hfloor]; decide)
  rw [hfloor] at hpos
  have hall : ∀ (i : Nat) (y : ℚ), i % 3 = 1 → e.positions[i]? = some y → y = 60 := by
    intro i y hi hy
    rw [hpos] at hy
    obtain ⟨k, rfl⟩ := fillPositionsWith_height _ _ _ _ i y hi hy
    simp only [Rounding.ieee, exampleNearOneEnv, hy1, hy2, hy3]
  refine ⟨fun k => ?_, ?_, hfill, s', e, hok, heff, ?_, ?_, fun i y hi hy => ?_⟩
  · simp only [exampleNearOneEnv]
    constructor <;> norm_num
  · simp only [fillPositions, exampleNearOneEnv]
    norm_num
  · rw [Object3D.particleCount, hpos, fillPositionsWith_length]
    rfl
  · have hlen : 1 < e.positions.length := by
      rw [hpos, fillPositionsWith_length]
      decide
    rw [List.getElem?_eq_getElem hlen, hall 1 _ (by decide) (List.getElem?_eq_getElem hlen)]
  · rw [hall i y hi hy]
    exact ⟨rfl, lt_irrefl _⟩

/-- C26, as the code has it. With `Math.random` in `[0, 1)`, for the precipitation effect
that `addPrecipitationEffect(p)` makes (`p > 0.3`, on a state with a scene), the rounding of
the arithmetic and of the `Float32Array` store included: every height (buffer entry `i` with
`i % 3 = 1`) is created in the closed range `[20, 60]`; after any number of calls of the
closure every height is in `[-20, 60]`, so never below `-20` at the end of a tick, and the
buffer keeps its length. In exact arithmetic the heights are created in `[20, 60)`. -/
theorem precipitation_heights_rounded (env : Env) (p : ℚ) (s : SceneManager)
    (hscene : s.scene.isSome) (hp : p > 0.3)
    (hrand : ∀ k, 0 ≤ env.random k ∧ env.random k < 1) :
    (∃ s' e, addPrecipitationEffectWith Rounding.ieee env p s = .ok s' ∧
      s'.effects = s.effects ++ [e] ∧
      (∀ (i : Nat) (y : ℚ), i % 3 = 1 → e.positions[i]? = some y → 20 ≤ y ∧ y ≤ 60) ∧
      ∀ t : Nat,
        ((Object3D.runAnimateWith Rounding.ieee env)^[t] e).positions.length
          = e.positions.length ∧
        ∀ (i : Nat) (y : ℚ), i % 3 = 1 →
          ((Object3D.runAnimateWith Rounding.ieee env)^[t] e).positions[i]? = some y →
          -20 ≤ y ∧ y ≤ 60) ∧
    (∃ s' e, addPrecipitationEffectWith Rounding.exact env p s = .ok s' ∧
      addPrecipitationEffect env p s = .ok s' ∧ s'.effects = s.effects ++ [e] ∧
      ∀ (i : Nat) (y : ℚ), i % 3 = 1 → e.positions[i]? = some y → 20 ≤ y ∧ y < 60) := by
  have h1000 : (0 : ℚ) ≤ 1000 * p := by
    have : (0.3 : ℚ) = 3 / 10 := by norm_num
    rw [this] at hp
    linarith
  constructor
  · have hfl : 0 ≤ ⌊Rounding.ieee.double (1000 * p)⌋ :=
      Int.floor_nonneg.mpr (binary64_nonneg h1000)
    obtain ⟨s', e, hok, heff, -, hpos, ⟨nu, hgeo⟩, hanim⟩ :=
      addPrecipitationEffectWith_geometry Rounding.ieee env p s hscene hfl
    have hcreate : ∀ (i : Nat) (y : ℚ), i % 3 = 1 → e.positions[i]? = some y →
        20 ≤ y ∧ y ≤ 60 := by
      intro i y hi hy
      rw [hpos] at hy
      obtain ⟨k, rfl⟩ := fillPositionsWith_height _ _ _ _ i y hi hy
      exact created_height_range (env.random k) (hrand k).1 (hrand k).2
    refine ⟨s', e, hok, heff, hcreate, fun t => ?_⟩
    rw [(runAnimateWith_iterate_precipitation Rounding.ieee env t e _ nu hanim hgeo).1, ← hpos]
    exact fallWith_iterate_range t e.positions
      (fun i y hi hy => ⟨by linarith [(hcreate i y hi hy).1], (hcreate i y hi hy).2⟩)
  · obtain ⟨s', e, hok, heff, ⟨nu, hgeo⟩, -⟩ :=
      addPrecipitationEffect_geometry env p s hscene (floor_nonneg_of_gt hp)
    refine ⟨s', e, by rw [addPrecipitationEffectWith_exact]; exact hok, hok, heff, ?_⟩
    intro i y hi hy
    have hpos : e.positions
        = fillPositions env.random s.host.randomCalls ⌊1000 * p⌋.toNat := by
      simp [Object3D.positions, hgeo]
    rw [hpos] at hy
    obtain ⟨k, rfl⟩ := fillPositions_height env.random _ _ i y hi hy
    obtain ⟨h0, h1⟩ := hrand k
    constructor <;> linarith

/-- C26 (as the code has it) at `exampleScene` with precipitation intensity `0.5` and the
random source of `exampleEnv`, whose values lie in `[0, 1)`. -/
theorem precipitation_heights_rounded_witness :
    ∃ s' e, addPrecipitationEffectWith Rounding.ieee exampleEnv 0.5 exampleScene = .ok s' ∧
      s'.effects = exampleScene.effects ++ [e] ∧
      (∀ (i : Nat) (y : ℚ), i % 3 = 1 → e.positions[i]? = some y → 20 ≤ y ∧ y ≤ 60) ∧
      ∀ t : Nat, ∀ (i : Nat) (y : ℚ), i % 3 = 1 →
        ((Object3D.runAnimateWith Rounding.ieee exampleEnv)^[t] e).positions[i]? = some y →
        -20 ≤ y ∧ y ≤ 60 := by
  obtain ⟨s', e, h1, h2, h3, h4⟩ :=
    (precipitation_heights_rounded exampleEnv 0.5 exampleScene rfl (by norm_num)
      exampleEnv_random_unit).1
  exact ⟨s', e, h1, h2, h3, fun t => (h4 t).2⟩

end SceneManagerModel
